import Mathlib

/-!
# OS32C laser-scanner driver: beam geometry, beam mask, scan conversion, wire format,
session methods

Shallow embedding of `omron_os32c_driver` (`include/omron_os32c_driver/os32c.h`,
`src/os32c.cpp`), and of the wire format of the measurement records as the specification
and the tests under `test/` describe it. The transport library that `OS32C` builds on is
represented by the requests it receives and the values it returns.

Numeric conventions of the embedding:

* a C++ `double` or `float` is a rational number. For the values that the driver stores or
  reports (scan fields, effective angles, ranges) `+ - * /` are the exact field operations
  and a decimal literal of the source denotes its exact decimal value;
* where the outcome is discrete and depends on how each operation rounds (the beam number of
  an angle, whether `calcBeamMask` accepts a pair of angles), the same source expressions are
  also evaluated in binary64, every literal and operation rounded to nearest, ties to even:
  these are the definitions under `Binary64`;
* `int` values are `Int`; the conversion `double → int` truncates toward zero and delivers
  `INT_MIN` beyond the range of the 32-bit `int`;
* `EIP_BYTE`, `EIP_UINT`, `EIP_UDINT` values are `Nat` (stores into an `EIP_BYTE` reduce
  modulo 256);
* a function that may throw returns the thrown message (`none` when it returns normally)
  together with the state the caller observes afterwards.
-/

namespace OS32C

/-! ## Geometry constants (`os32c.h` 47-48, `os32c.cpp` 55-59) -/

/-- The `<cmath>` constant `M_PI`, by its defining decimal literal. -/
def M_PI : ℚ := 3.14159265358979323846

/-- The source has `#define DEG2RAD(a) (a * M_PI / 180.0)`. -/
def DEG2RAD (a : ℚ) : ℚ := a * M_PI / 180.0

/-- The source has `#define RAD2DEG(a) (a * 180.0 / M_PI)`. -/
def RAD2DEG (a : ℚ) : ℚ := a * 180.0 / M_PI

def ANGLE_MIN : ℚ := DEG2RAD (-135.2)
def ANGLE_MAX : ℚ := DEG2RAD 135.2
def ANGLE_INC : ℚ := DEG2RAD 0.4
def DISTANCE_MIN : ℚ := 0.002
def DISTANCE_MAX : ℚ := 50

/-- Range format codes, `OS32C_RANGE_FORMAT`. -/
def NO_TOF_MEASUREMENTS : Nat := 0
def RANGE_MEASURE_50M : Nat := 1
def RANGE_MEASURE_32M_PZ : Nat := 2
def RANGE_MEASURE_16M_WZ1PZ : Nat := 3
def RANGE_MEASURE_8M_WZ2WZ1PZ : Nat := 4
def RANGE_MEASURE_TOF_4PS : Nat := 5

/-- Conversion of a `double` to `int`: the fractional part is discarded (truncation
toward zero). When the truncated value lies outside the range of the 32-bit `int`, C++ leaves
the conversion undefined; the conversion instruction of x86-64 then delivers `INT_MIN`, and
that is the value taken here. -/
def doubleToInt (x : ℚ) : Int :=
  let t : Int := if 0 ≤ x then ⌊x⌋ else ⌈x⌉
  if -2 ^ 31 ≤ t ∧ t < 2 ^ 31 then t else -2 ^ 31

/-- The source has `return (ANGLE_MAX - angle + ANGLE_INC / 2) / ANGLE_INC;` with return
type `int`. -/
def calcBeamNumber (angle : ℚ) : Int :=
  doubleToInt ((ANGLE_MAX - angle + ANGLE_INC / 2) / ANGLE_INC)

/-- The source has `return ANGLE_MAX - beam_num * ANGLE_INC;`. -/
def calcBeamCentre (beam_num : Int) : ℚ := ANGLE_MAX - beam_num * ANGLE_INC

/-! ## The session object and `calcBeamMask` (`os32c.cpp` 85-136) -/

/-- The data members of `OS32C` that `calcBeamMask` and `fillLaserScanStaticConfig` use. -/
structure Session where
  start_angle_ : ℚ
  end_angle_ : ℚ

/-- Member initialisers of the constructor: `start_angle_(ANGLE_MAX), end_angle_(ANGLE_MIN)`. -/
def Session.new : Session := { start_angle_ := ANGLE_MAX, end_angle_ := ANGLE_MIN }

/-- Caller memory around the pointer `mask`: `m i` is the byte at `mask + i`. -/
abbrev Memory := Int → Nat

/-- Value stored by assigning an `int` expression to an `EIP_BYTE`. -/
def toByte (x : Int) : Nat := (x % 256).toNat

/-- The `int` expression `1 << n`. -/
def shl1 (n : Int) : Int := 2 ^ n.toNat

/-- The call `memset(mask + p, v, n)`: the `int` count `n` is converted to `size_t`, and that
many bytes from offset `p` on receive `v`. A negative `n` converts to a count of `2^63` or
more, which no object holds: such a call does not complete (it runs out of the mapped memory),
and the result is `none`. -/
def memset (m : Memory) (p : Int) (v : Nat) (n : Int) : Option Memory :=
  if n % 2 ^ 64 < 2 ^ 63 then
    some (fun i => if p ≤ i ∧ i < p + n % 2 ^ 64 then v % 256 else m i)
  else none

/-- The assignment `mask[p] = x`. -/
def store (m : Memory) (p : Int) (x : Int) : Memory :=
  fun i => if i = p then toByte x else m i

/-- What a call of `calcBeamMask` leaves behind: the message of the `std::invalid_argument`
thrown (if any), the object, and the caller memory; `fault` is set when a `memset` of the
bit-packing steps did not complete (the other members then repeat the state before the
call). -/
structure MaskResult where
  thrown : Option String
  self : Session
  mask : Memory
  fault : Bool := false

/-- Lines 100-135 of `calcBeamMask`, from the two local variables `start_beam` and
`end_beam` on; `none` when one of the `memset` calls does not complete. -/
def packBeams (start_beam end_beam : Int) (self : Session) (mask : Memory) :
    Option (Session × Memory) :=
  let self := { self with start_angle_ := calcBeamCentre start_beam }
  let self := { self with end_angle_ := calcBeamCentre end_beam }
  -- figure out where we're starting and ending in the array
  let start_byte := Int.tdiv start_beam 8
  let start_bit := start_beam - start_byte * 8
  let end_byte := Int.tdiv end_beam 8
  let end_bit := end_beam - end_byte * 8
  -- clear out all of the whole bytes that need to be set in one shot
  (if start_byte > 0 then memset mask 0 0 start_byte else some mask).bind fun mask =>
  -- if we're starting in the middle of the byte, then we need to do some bit math
  let mask1 := if start_bit ≠ 0 then store mask start_byte (-((shl1 start_bit) - 1) - 1) else mask
  let start_byte := if start_bit ≠ 0 then start_byte else start_byte - 1
  -- mark all of the whole bytes
  (memset mask1 (start_byte + 1) 0xFF (end_byte - start_byte - 1)).bind fun mask =>
  -- clear out the bits above the end beam
  let mask := store mask end_byte ((shl1 (end_bit + 1)) - 1)
  -- zero out everything after the end
  (memset mask (end_byte + 1) 0 (87 - end_byte)).bind fun mask =>
  some (self, mask)

/-- The method `void OS32C::calcBeamMask(double start_angle, double end_angle, EIP_BYTE mask[])`.
The source sets `start_beam = 0` and `end_beam = 676` (the calls of `calcBeamNumber` are
commented out). -/
def calcBeamMask (self : Session) (start_angle end_angle : ℚ) (mask : Memory) : MaskResult :=
  if start_angle > (ANGLE_MAX + ANGLE_INC / 2) then
    { thrown := some "Start angle is greater than max", self := self, mask := mask }
  else if end_angle < (ANGLE_MIN - ANGLE_INC / 2) then
    { thrown := some "End angle is greater than max", self := self, mask := mask }
  else if start_angle - end_angle ≤ ANGLE_INC then
    { thrown := some "Starting angle is less than ending angle", self := self, mask := mask }
  else
    let start_beam : Int := 0 -- calcBeamNumber(start_angle);
    let end_beam : Int := 676 -- calcBeamNumber(end_angle);
    match packBeams start_beam end_beam self mask with
    | some r => { thrown := none, self := r.1, mask := r.2 }
    | none => { thrown := none, self := self, mask := mask, fault := true }

/-! ## Binary64 evaluation of the geometry (`os32c.h` 47-48 and 154-170, `os32c.cpp` 55-59
and 85-99)

Which beam an angle belongs to, and which angles `calcBeamMask` accepts, depends on how every
operation on `double` rounds. The definitions under `Binary64` evaluate the same source
expressions with each literal and each `+ - * /` rounded to the nearest binary64 number, ties
to even, as IEEE-754 arithmetic in its default rounding mode does (no extended precision, no
fused multiply-add). A finite `double` is the rational number it denotes; infinities and NaN
are not represented, and no operation of these functions comes near overflow. -/

/-- Rounding of a rational to an integer, ties to the even neighbour. -/
def Binary64.roundHalfEven (q : ℚ) : Int :=
  if q - ⌊q⌋ < 1 / 2 then ⌊q⌋
  else if 1 / 2 < q - ⌊q⌋ then ⌊q⌋ + 1
  else if ⌊q⌋ % 2 = 0 then ⌊q⌋ else ⌊q⌋ + 1

/-- The power `2^e` of an integer exponent `e`. -/
def Binary64.pow2 (e : Int) : ℚ :=
  if 0 ≤ e then ((2 ^ e.toNat : Nat) : ℚ) else 1 / ((2 ^ (-e).toNat : Nat) : ℚ)

/-- Bisection for the binade: given `2^lo <= y < 2^(lo + 2^fuel)`, the `e` with
`2^e <= y < 2^(e + 1)`. -/
def Binary64.searchExp : Nat → Int → ℚ → Int
  | 0, lo, _ => lo
  | fuel + 1, lo, y =>
    if Binary64.pow2 (lo + 2 ^ fuel) ≤ y then Binary64.searchExp fuel (lo + 2 ^ fuel) y
    else Binary64.searchExp fuel lo y

/-- The largest `e` with `2^e <= |x|`, which is `Int.log 2 |x|`; within
`2^(-2048) <= |x| < 2^2048` it is found by bisection. -/
def Binary64.ilog2 (x : ℚ) : Int :=
  if Binary64.pow2 (-2048) ≤ |x| ∧ |x| < Binary64.pow2 2048 then
    Binary64.searchExp 12 (-2048) |x|
  else Int.log 2 |x|

/-- Exponent of the binade of `x`: the largest `e` with `2^e <= |x|`, and `-1022` (the
exponent of the subnormal numbers) when that is smaller. -/
def Binary64.exponent (x : ℚ) : Int := max (Binary64.ilog2 x) (-1022)

/-- Distance between neighbouring binary64 numbers in the binade of `x` (53 significant
bits): `2^(exponent x - 52)`. -/
def Binary64.ulp (x : ℚ) : ℚ := Binary64.pow2 (Binary64.exponent x - 52)

/-- The binary64 number nearest to `x`, ties to even: the value of a literal or of the exact
result of an operation once it is stored in a `double`. -/
def Binary64.fl (x : ℚ) : ℚ := Binary64.roundHalfEven (x / Binary64.ulp x) * Binary64.ulp x

/-- The `double` operation `x + y`. -/
def Binary64.add (x y : ℚ) : ℚ := Binary64.fl (x + y)

/-- The `double` operation `x - y`. -/
def Binary64.sub (x y : ℚ) : ℚ := Binary64.fl (x - y)

/-- The `double` operation `x * y`. -/
def Binary64.mul (x y : ℚ) : ℚ := Binary64.fl (x * y)

/-- The `double` operation `x / y`. -/
def Binary64.div (x y : ℚ) : ℚ := Binary64.fl (x / y)

/-- The `<cmath>` constant `M_PI`, the `double` of the literal `3.14159265358979323846`. -/
def Binary64.M_PI : ℚ := Binary64.fl 3.14159265358979323846

/-- The source has `#define DEG2RAD(a) (a * M_PI / 180.0)`, applied to a `double`. -/
def Binary64.DEG2RAD (a : ℚ) : ℚ := Binary64.div (Binary64.mul a Binary64.M_PI) 180.0

/-- The source has `const double OS32C::ANGLE_MIN = DEG2RAD(-135.2);`. -/
def Binary64.ANGLE_MIN : ℚ := Binary64.DEG2RAD (-Binary64.fl 135.2)

/-- The source has `const double OS32C::ANGLE_MAX = DEG2RAD(135.2);`. -/
def Binary64.ANGLE_MAX : ℚ := Binary64.DEG2RAD (Binary64.fl 135.2)

/-- The source has `const double OS32C::ANGLE_INC = DEG2RAD(0.4);`. -/
def Binary64.ANGLE_INC : ℚ := Binary64.DEG2RAD (Binary64.fl 0.4)

/-- The `double` that `calcBeamNumber` converts to `int`:
`(ANGLE_MAX - angle + ANGLE_INC / 2) / ANGLE_INC`. -/
def Binary64.beamQuotient (angle : ℚ) : ℚ :=
  Binary64.div (Binary64.add (Binary64.sub Binary64.ANGLE_MAX angle)
    (Binary64.div Binary64.ANGLE_INC 2)) Binary64.ANGLE_INC

/-- The source has `return (ANGLE_MAX - angle + ANGLE_INC / 2) / ANGLE_INC;` with return
type `int`. -/
def Binary64.calcBeamNumber (angle : ℚ) : Int := doubleToInt (Binary64.beamQuotient angle)

/-- The source has `return ANGLE_MAX - beam_num * ANGLE_INC;`. -/
def Binary64.calcBeamCentre (beam_num : Int) : ℚ :=
  Binary64.sub Binary64.ANGLE_MAX (Binary64.mul beam_num Binary64.ANGLE_INC)

/-- The method `calcBeamMask` with its three guards and the two beam centres evaluated in
binary64; the mask bytes are those of `packBeams`. -/
def Binary64.calcBeamMask (self : Session) (start_angle end_angle : ℚ) (mask : Memory) :
    MaskResult :=
  if start_angle > Binary64.add Binary64.ANGLE_MAX (Binary64.div Binary64.ANGLE_INC 2) then
    { thrown := some "Start angle is greater than max", self := self, mask := mask }
  else if end_angle < Binary64.sub Binary64.ANGLE_MIN (Binary64.div Binary64.ANGLE_INC 2) then
    { thrown := some "End angle is greater than max", self := self, mask := mask }
  else if Binary64.sub start_angle end_angle ≤ Binary64.ANGLE_INC then
    { thrown := some "Starting angle is less than ending angle", self := self, mask := mask }
  else
    let start_beam : Int := 0 -- calcBeamNumber(start_angle);
    let end_beam : Int := 676 -- calcBeamNumber(end_angle);
    match packBeams start_beam end_beam self mask with
    | some r =>
      { thrown := none,
        self := { start_angle_ := Binary64.calcBeamCentre start_beam,
                  end_angle_ := Binary64.calcBeamCentre end_beam },
        mask := r.2 }
    | none => { thrown := none, self := self, mask := mask, fault := true }

/-! ## Conversion to `sensor_msgs::LaserScan` (`os32c.cpp` 153-238) -/

/-- Modelled from the spec: the record `MeasurementReportHeader`, declared in
`omron_os32c_driver/measurement_report_header.h`, a header that is not available.
The fields are those of the 56-byte header of the data model (four `u32`, then `u16`),
in wire order; the reserved bytes carry no field. -/
structure MeasurementReportHeader where
  scan_count : Nat
  scan_rate : Nat
  scan_timestamp : Nat
  scan_beam_period : Nat
  machine_state : Nat
  machine_stop_reasons : Nat
  active_zone_set : Nat
  zone_inputs : Nat
  detection_zone_status : Nat
  output_status : Nat
  input_status : Nat
  display_status : Nat
  non_safety_config_checksum : Nat
  safety_config_checksum : Nat
  range_report_format : Nat
  reflectivity_report_format : Nat
  num_beams : Nat

/-- Modelled from the spec: `RangeAndReflectanceMeasurement`
(`range_and_reflectance_measurement.h`, a header that is not available): a header followed by
the `vector<EIP_UINT>` members `range_data` and `reflectance_data`. -/
structure RangeAndReflectanceMeasurement where
  header : MeasurementReportHeader
  range_data : List Nat
  reflectance_data : List Nat

/-- Modelled from the spec: `MeasurementReport` (`measurement_report.h`, a header that is not
available): a header followed by the `vector<EIP_UINT>` member `measurement_data`. -/
structure MeasurementReport where
  header : MeasurementReportHeader
  measurement_data : List Nat

/-- The fields of the ROS message `sensor_msgs::LaserScan` that the driver writes (the
`std_msgs/Header` part is never touched by `OS32C`). -/
structure LaserScan where
  angle_min : ℚ
  angle_max : ℚ
  angle_increment : ℚ
  time_increment : ℚ
  scan_time : ℚ
  range_min : ℚ
  range_max : ℚ
  ranges : List ℚ
  intensities : List ℚ

/-- The call `v.resize(n)` on a `std::vector<float>`: the first `n` elements are kept and new
elements are value-initialised. -/
def resize (v : List ℚ) (n : Nat) : List ℚ := v.take n ++ List.replicate (n - v.length) 0

/-- The statement `for (int i = 0; i < n; ++i) body`. -/
def forLoop {σ : Type} (n : Nat) (body : Nat → σ → σ) (s : σ) : σ :=
  (List.range n).foldl (fun acc i => body i acc) s

/-- The method `void OS32C::fillLaserScanStaticConfig(sensor_msgs::LaserScan* ls)`. -/
def fillLaserScanStaticConfig (self : Session) (ls : LaserScan) : LaserScan :=
  let ls := { ls with angle_max := self.end_angle_ }
  let ls := { ls with angle_min := self.start_angle_ }
  let ls := { ls with angle_increment := -ANGLE_INC }
  let ls := { ls with range_min := DISTANCE_MIN }
  { ls with range_max := DISTANCE_MAX }

/-- What a call of `convertToLaserScan` leaves behind: the message of the
`std::invalid_argument` thrown (if any) and the message `*ls`. -/
structure ScanResult where
  thrown : Option String
  ls : LaserScan

/-- Body of the loop at `os32c.cpp` 179-196. -/
def RangeAndReflectanceMeasurement.loopBody (rr : RangeAndReflectanceMeasurement) (i : Nat)
    (ls : LaserScan) : LaserScan :=
  let ls :=
    if rr.range_data.getD i 0 = 0x0001 then
      -- noisy beam detected
      { ls with ranges := ls.ranges.set i 0 }
    else if rr.range_data.getD i 0 = 0xFFFF then
      -- no return
      { ls with ranges := ls.ranges.set i DISTANCE_MAX }
    else
      { ls with ranges := ls.ranges.set i (rr.range_data.getD i 0 / 1000.0) }
  { ls with intensities := ls.intensities.set i (rr.reflectance_data.getD i 0) }

/-- The overload
`OS32C::convertToLaserScan(const RangeAndReflectanceMeasurement& rr, sensor_msgs::LaserScan* ls)`. -/
def RangeAndReflectanceMeasurement.convertToLaserScan (rr : RangeAndReflectanceMeasurement)
    (ls : LaserScan) : ScanResult :=
  if rr.range_data.length ≠ rr.header.num_beams ∨
      rr.reflectance_data.length ≠ rr.header.num_beams then
    { thrown := some "Number of beams does not match vector size", ls := ls }
  else
    -- Beam period is in ns
    let ls := { ls with time_increment := rr.header.scan_beam_period / 1000000000.0 }
    -- Scan period is in microseconds.
    let ls := { ls with scan_time := rr.header.scan_rate / 1000000.0 }
    let ls := { ls with ranges := resize ls.ranges rr.header.num_beams }
    let ls := { ls with intensities := resize ls.intensities rr.header.num_beams }
    { thrown := none, ls := forLoop rr.header.num_beams rr.loopBody ls }

/-- Body of the loop at `os32c.cpp` 214-237. -/
def MeasurementReport.loopBody (mr : MeasurementReport) (i : Nat) (ls : LaserScan) : LaserScan :=
  if mr.measurement_data.getD i 0 = 0x0001 then
    -- noisy beam detected
    { ls with ranges := ls.ranges.set i 0.0 }
  else if mr.measurement_data.getD i 0 = 0xFFFF then
    -- no return
    { ls with ranges := ls.ranges.set i DISTANCE_MAX }
  else
    if mr.header.range_report_format = RANGE_MEASURE_TOF_4PS then
      let METER_PER_8PS : ℚ := 0.00119916983 * 0.5
      let tof : Nat := mr.measurement_data.getD i 0 -- x 4ps
      { ls with ranges := ls.ranges.set i (METER_PER_8PS * tof) }
    else
      { ls with ranges := ls.ranges.set i (mr.measurement_data.getD i 0 / 1000.0) }

/-- The overload
`OS32C::convertToLaserScan(const MeasurementReport& mr, sensor_msgs::LaserScan* ls)`. -/
def MeasurementReport.convertToLaserScan (mr : MeasurementReport) (ls : LaserScan) :
    ScanResult :=
  if mr.measurement_data.length ≠ mr.header.num_beams then
    { thrown := some "Number of beams does not match vector size", ls := ls }
  else
    -- Beam period is in ns.
    let ls := { ls with time_increment := mr.header.scan_beam_period / 1000000000.0 }
    -- Scan period is in microseconds.
    let ls := { ls with scan_time := mr.header.scan_rate / 1000000.0 }
    let ls := { ls with ranges := resize ls.ranges mr.header.num_beams }
    { thrown := none, ls := forLoop mr.header.num_beams mr.loopBody ls }

/-! ## Fixtures of `test/os32c_test.cpp` -/

/-- The header set up in `test_convert_to_laserscan`, with the range format and the number of
beams left open (fields the test does not assign are zero). -/
def testHeader (range_report_format num_beams : Nat) : MeasurementReportHeader :=
  { scan_count := 0xDEADBEEF
    scan_rate := 38609
    scan_timestamp := 140420933
    scan_beam_period := 42898
    machine_state := 3
    machine_stop_reasons := 7
    active_zone_set := 0
    zone_inputs := 0
    detection_zone_status := 0
    output_status := 0
    input_status := 0
    display_status := 0x1B1B
    non_safety_config_checksum := 0
    safety_config_checksum := 0
    range_report_format := range_report_format
    reflectivity_report_format := 2
    num_beams := num_beams }

/-- The measurement of `test_convert_to_laserscan`, with the range format left open. -/
def testMeasurement (range_report_format : Nat) : RangeAndReflectanceMeasurement :=
  { header := testHeader range_report_format 10
    range_data := [1000, 1253, 1000, 1, 48750, 49999, 50001, 48135, 0xFFFF, 0xFFFF]
    reflectance_data := [44000, 42123, 53987, 0, 123, 555, 65535, 1013, 0, 0] }

/-- A default-constructed `sensor_msgs::LaserScan`. -/
def LaserScan.empty : LaserScan :=
  { angle_min := 0, angle_max := 0, angle_increment := 0, time_increment := 0, scan_time := 0,
    range_min := 0, range_max := 0, ranges := [], intensities := [] }

/-! ## Wire format of the measurement records

The serialisation methods of `MeasurementReportHeader`, `MeasurementReport` and
`RangeAndReflectanceMeasurement` live in headers that are not available; they are modelled
from the data model and the wire-format table of the specification. A byte is a `Nat`. -/

/-- Modelled from the spec: the failure kinds of the error taxonomy (the exception types of the
record headers and of the transport are not available). -/
inductive ErrorKind where
  | ValidationError
  | FormatError
  | ProtocolError
  | TransportError
  deriving DecidableEq

/-- Modelled from the spec: a `u16` on the wire, little-endian (the writer of the absent
serialisation layer). -/
def encodeU16 (v : Nat) : List Nat := [v % 256, v / 256 % 256]

/-- Modelled from the spec: a `u32` on the wire, little-endian (the writer of the absent
serialisation layer). -/
def encodeU32 (v : Nat) : List Nat :=
  [v % 256, v / 256 % 256, v / 65536 % 256, v / 16777216 % 256]

/-- Modelled from the spec: the reader of the absent serialisation layer, a byte sequence
and the number of bytes consumed so far. -/
structure Reader where
  buf : List Nat
  pos : Nat

/-- Modelled from the spec: read one little-endian `u16`; a format error when fewer than two
bytes are left (reader of the absent serialisation layer). -/
def Reader.readU16 (r : Reader) : Except ErrorKind (Nat × Reader) :=
  if r.pos + 2 ≤ r.buf.length then
    .ok (r.buf.getD r.pos 0 + 256 * r.buf.getD (r.pos + 1) 0, { r with pos := r.pos + 2 })
  else .error .FormatError

/-- Modelled from the spec: read one little-endian `u32`; a format error when fewer than four
bytes are left (reader of the absent serialisation layer). -/
def Reader.readU32 (r : Reader) : Except ErrorKind (Nat × Reader) :=
  if r.pos + 4 ≤ r.buf.length then
    .ok (r.buf.getD r.pos 0 + 256 * r.buf.getD (r.pos + 1) 0 + 65536 * r.buf.getD (r.pos + 2) 0
          + 16777216 * r.buf.getD (r.pos + 3) 0, { r with pos := r.pos + 4 })
  else .error .FormatError

/-- Modelled from the spec: pass over `n` reserved bytes, which are ignored on read; a format
error when fewer than `n` bytes are left (reader of the absent serialisation layer). -/
def Reader.skip (r : Reader) (n : Nat) : Except ErrorKind Reader :=
  if r.pos + n ≤ r.buf.length then .ok { r with pos := r.pos + n } else .error .FormatError

/-- Modelled from the spec: read `n` consecutive little-endian `u16` values, in order (the
payload arrays of the absent report headers). -/
def Reader.readArray : Nat → Reader → Except ErrorKind (List Nat × Reader)
  | 0, r => .ok ([], r)
  | n + 1, r => do
    let (v, r) ← r.readU16
    let (vs, r) ← Reader.readArray n r
    pure (v :: vs, r)

/-- Modelled from the spec: the widths of the header fields of the absent
`measurement_report_header.h`, four `u32` followed by thirteen `u16`. -/
def MeasurementReportHeader.InRange (h : MeasurementReportHeader) : Prop :=
  h.scan_count < 2 ^ 32 ∧ h.scan_rate < 2 ^ 32 ∧ h.scan_timestamp < 2 ^ 32 ∧
  h.scan_beam_period < 2 ^ 32 ∧ h.machine_state < 2 ^ 16 ∧ h.machine_stop_reasons < 2 ^ 16 ∧
  h.active_zone_set < 2 ^ 16 ∧ h.zone_inputs < 2 ^ 16 ∧ h.detection_zone_status < 2 ^ 16 ∧
  h.output_status < 2 ^ 16 ∧ h.input_status < 2 ^ 16 ∧ h.display_status < 2 ^ 16 ∧
  h.non_safety_config_checksum < 2 ^ 16 ∧ h.safety_config_checksum < 2 ^ 16 ∧
  h.range_report_format < 2 ^ 16 ∧ h.reflectivity_report_format < 2 ^ 16 ∧
  h.num_beams < 2 ^ 16

/-- Modelled from the spec: `MeasurementReportHeader::getLength` of the absent
`measurement_report_header.h`; the header is a fixed 56-byte record. -/
def MeasurementReportHeader.getLength (_h : MeasurementReportHeader) : Nat := 56

/-- Modelled from the spec: `MeasurementReportHeader::serialize` of the absent
`measurement_report_header.h`: the fields in the order of the data model, little-endian,
no padding, reserved bytes written as zero. -/
def MeasurementReportHeader.serialize (h : MeasurementReportHeader) : List Nat :=
  encodeU32 h.scan_count ++ encodeU32 h.scan_rate ++ encodeU32 h.scan_timestamp ++
  encodeU32 h.scan_beam_period ++ encodeU16 h.machine_state ++
  encodeU16 h.machine_stop_reasons ++ encodeU16 h.active_zone_set ++
  encodeU16 h.zone_inputs ++ encodeU16 h.detection_zone_status ++
  encodeU16 h.output_status ++ encodeU16 h.input_status ++ encodeU16 h.display_status ++
  encodeU16 h.non_safety_config_checksum ++ encodeU16 h.safety_config_checksum ++
  List.replicate 12 0 ++ encodeU16 h.range_report_format ++
  encodeU16 h.reflectivity_report_format ++ List.replicate 2 0 ++ encodeU16 h.num_beams

/-- Modelled from the spec: `MeasurementReportHeader::deserialize` of the absent
`measurement_report_header.h`: the fields are read in the order of the data model, the
reserved bytes are passed over, and the reader reports the bytes consumed. -/
def MeasurementReportHeader.deserialize (r : Reader) :
    Except ErrorKind (MeasurementReportHeader × Reader) := do
  let (scan_count, r) ← r.readU32
  let (scan_rate, r) ← r.readU32
  let (scan_timestamp, r) ← r.readU32
  let (scan_beam_period, r) ← r.readU32
  let (machine_state, r) ← r.readU16
  let (machine_stop_reasons, r) ← r.readU16
  let (active_zone_set, r) ← r.readU16
  let (zone_inputs, r) ← r.readU16
  let (detection_zone_status, r) ← r.readU16
  let (output_status, r) ← r.readU16
  let (input_status, r) ← r.readU16
  let (display_status, r) ← r.readU16
  let (non_safety_config_checksum, r) ← r.readU16
  let (safety_config_checksum, r) ← r.readU16
  let r ← r.skip 12
  let (range_report_format, r) ← r.readU16
  let (reflectivity_report_format, r) ← r.readU16
  let r ← r.skip 2
  let (num_beams, r) ← r.readU16
  pure ({ scan_count, scan_rate, scan_timestamp, scan_beam_period, machine_state,
          machine_stop_reasons, active_zone_set, zone_inputs, detection_zone_status,
          output_status, input_status, display_status, non_safety_config_checksum,
          safety_config_checksum, range_report_format, reflectivity_report_format,
          num_beams }, r)

/-- Modelled from the spec: `MeasurementReport::getLength` of the absent
`measurement_report.h`: the header and two bytes for each value of `measurement_data`. -/
def MeasurementReport.getLength (mr : MeasurementReport) : Nat :=
  mr.header.getLength + 2 * mr.measurement_data.length

/-- Modelled from the spec: `MeasurementReport::serialize` of the absent
`measurement_report.h`: the header, immediately followed by the values of
`measurement_data` in order. -/
def MeasurementReport.serialize (mr : MeasurementReport) : List Nat :=
  mr.header.serialize ++ (mr.measurement_data.map encodeU16).flatten

/-- Modelled from the spec: `MeasurementReport::deserialize` of the absent
`measurement_report.h`: the header, then `header.num_beams` values. -/
def MeasurementReport.deserialize (r : Reader) : Except ErrorKind (MeasurementReport × Reader) := do
  let (header, r) ← MeasurementReportHeader.deserialize r
  let (measurement_data, r) ← r.readArray header.num_beams
  pure ({ header, measurement_data }, r)

/-- Modelled from the spec: `RangeAndReflectanceMeasurement::deserialize` of the absent
`range_and_reflectance_measurement.h`: the header, then `header.num_beams` range values, then
`header.num_beams` reflectance values. -/
def RangeAndReflectanceMeasurement.deserialize (r : Reader) :
    Except ErrorKind (RangeAndReflectanceMeasurement × Reader) := do
  let (header, r) ← MeasurementReportHeader.deserialize r
  let (range_data, r) ← r.readArray header.num_beams
  let (reflectance_data, r) ← r.readArray header.num_beams
  pure ({ header, range_data, reflectance_data }, r)

/-- Little-endian `u16` at offset `p` of a byte sequence. -/
def u16At (b : List Nat) (p : Nat) : Nat := b.getD p 0 + 256 * b.getD (p + 1) 0

/-- Little-endian `u32` at offset `p` of a byte sequence. -/
def u32At (b : List Nat) (p : Nat) : Nat :=
  b.getD p 0 + 256 * b.getD (p + 1) 0 + 65536 * b.getD (p + 2) 0 + 16777216 * b.getD (p + 3) 0

/-- The header whose fields sit at the offsets of the wire-format table of the specification,
counted from position `p`. -/
def headerAt (b : List Nat) (p : Nat) : MeasurementReportHeader :=
  { scan_count := u32At b p
    scan_rate := u32At b (p + 4)
    scan_timestamp := u32At b (p + 8)
    scan_beam_period := u32At b (p + 12)
    machine_state := u16At b (p + 16)
    machine_stop_reasons := u16At b (p + 18)
    active_zone_set := u16At b (p + 20)
    zone_inputs := u16At b (p + 22)
    detection_zone_status := u16At b (p + 24)
    output_status := u16At b (p + 26)
    input_status := u16At b (p + 28)
    display_status := u16At b (p + 30)
    non_safety_config_checksum := u16At b (p + 32)
    safety_config_checksum := u16At b (p + 34)
    range_report_format := u16At b (p + 48)
    reflectivity_report_format := u16At b (p + 50)
    num_beams := u16At b (p + 54) }

/-- The `u16` values found at offsets `p`, `p + 2`, ... of a byte sequence, `n` of them. -/
def arrayAt (b : List Nat) (p n : Nat) : List Nat :=
  (List.range n).map (fun i => u16At b (p + 2 * i))

/-! ## Fixtures of `test/measurement_report_header_test.cpp` and of
`test_receive_measurement_report` -/

/-- The header assigned in `test_serialize` and `test_serialize_and_deserialize`. -/
def wireTestHeader : MeasurementReportHeader :=
  { scan_count := 0xDEADBEEF
    scan_rate := 40000
    scan_timestamp := 0x55AA55AA
    scan_beam_period := 43333
    machine_state := 3
    machine_stop_reasons := 7
    active_zone_set := 0x45
    zone_inputs := 0xAA
    detection_zone_status := 0x0F
    output_status := 7
    input_status := 3
    display_status := 0x0402
    non_safety_config_checksum := 0x55AA
    safety_config_checksum := 0x5AA5
    range_report_format := 1
    reflectivity_report_format := 1
    num_beams := 677 }

/-- The 56 bytes `d[]` of `test_deserialize`, with `0xFF` in the reserved positions. -/
def wireTestBytes : List Nat :=
  [0xEF, 0xBE, 0xAD, 0xDE, 0x40, 0x9C, 0, 0, 0xAA, 0x55, 0xAA, 0x55, 0x45, 0xA9, 0, 0,
   3, 0, 7, 0, 0x45, 0, 0xAA, 0, 0x0F, 0, 0x07, 0, 0x03, 0, 0x02, 0x04, 0xAA, 0x55, 0xA5, 0x5A,
   0xFF, 0xFF, 0xFF, 0xFF, 0xFF, 0xFF, 0xFF, 0xFF, 0xFF, 0xFF, 0xFF, 0xFF,
   1, 0, 1, 0, 0xFF, 0xFF, 0xA5, 0x02]

/-- The 96 bytes of the measurement report inside `io_packet` of
`test_receive_measurement_report` (the packet from its 19th byte on). -/
def ioPacketReport : List Nat :=
  [0x76, 0x53, 0x04, 0x00, 0x64, 0x96, 0x00, 0x00, 0x18, 0xBE, 0x97, 0x8A,
   0x19, 0xA7, 0x00, 0x00, 0x03, 0x00, 0x07, 0x00,
   0x00, 0x00, 0x00, 0x00, 0x00, 0x00, 0x01, 0x00,
   0x00, 0x00, 0x08, 0x07, 0x88, 0x33, 0xAE, 0x31,
   0x00, 0x00, 0x00, 0x00, 0x00, 0x00, 0x00, 0x00,
   0x00, 0x00, 0x00, 0x00, 0x01, 0x00, 0x02, 0x00,
   0x00, 0x00, 0x14, 0x00, 0x52, 0x08, 0x42, 0x08,
   0x52, 0x08, 0x40, 0x08, 0x52, 0x08, 0x40, 0x08,
   0x53, 0x08, 0x58, 0x08, 0x52, 0x08, 0x40, 0x08,
   0x58, 0x08, 0x58, 0x08, 0x58, 0x08, 0x5E, 0x08,
   0x67, 0x08, 0x5D, 0x08, 0x67, 0x08, 0x5E, 0x08,
   0x5E, 0x08, 0x6F, 0x08]

/-! ## The driver object and its transport (`os32c.h` 75-86, `os32c.cpp` 138-151, 240-282)

`OS32C` derives from `eip::Session` of the transport library, which is external. Its
operations are modelled by their interface: requests that went out are logged, a call throws
when the transport is not available, and the values the transport returns are fields of the
transport state. -/

/-- An exception leaving a method of `OS32C`: `std::invalid_argument` and `std::logic_error`
with their message, or a failure raised by code outside `os32c.cpp` (record decoding, the
transport), named by its kind in the error taxonomy. -/
inductive Exn where
  | invalid_argument (what : String)
  | logic_error (what : String)
  | other (kind : ErrorKind)

/-- Modelled from the spec: the configuration record `MeasurementReportConfig`
(`measurement_report_config.h`, a header that is not available), with the members that
`os32c.cpp` uses: the two format codes and the array `EIP_BYTE beam_selection_mask[88]`.
The array is addressed like the `mask` pointer of `calcBeamMask`: index `i` is the byte at
`beam_selection_mask + i`, the array itself being the indices 0..87. -/
structure MeasurementReportConfig where
  range_report_format : Nat
  reflectivity_report_format : Nat
  beam_selection_mask : Memory

/-- The bytes `boost::asio::buffer(mrc_.beam_selection_mask)` of the 88-byte array. -/
def MeasurementReportConfig.maskBytes (mrc : MeasurementReportConfig) : List Nat :=
  (List.range 88).map (fun i : Nat => mrc.beam_selection_mask (i : Int))

/-- A set-attribute request handed to the transport: class, instance, attribute, payload. -/
structure SetAttributeRequest where
  class_id : Nat
  instance_id : Nat
  attribute_id : Nat
  payload : List Nat

/-- The members of `EIP_CONNECTION_INFO_T` that `startUDPIO` assigns. -/
structure ConnectionInfo where
  assembly_id : Nat
  buffer_size : Nat
  rpi : Nat
  deriving DecidableEq

/-- The object attached to an item of a packet that is sent. -/
inductive ItemData where
  | sequencedAddress (connection_id sequence_num : Nat)
  | reportConfig (mrc : MeasurementReportConfig)

/-- An item of a packet that is sent: `CPFItem(type, data)`. -/
structure CPFItemOut where
  item_type : Nat
  data : ItemData

/-- State of the transport collaborator (`eip::Session` and its sockets): whether its calls
succeed, the requests issued so far, the connection id it reports for a connection number
(`getConnection(n).o_to_t_connection_id`) and the number the next `createConnection` returns. -/
structure Transport where
  online : Bool
  setRequests : List SetAttributeRequest
  ioSent : List (List CPFItemOut)
  connectionRequests : List (ConnectionInfo × ConnectionInfo)
  o_to_t_connection_id : Int → Nat
  nextConnection : Int

/-- The transport call `setSingleAttributeSerializable(class, instance, attribute, sb)`. -/
def Transport.setSingleAttributeSerializable (t : Transport) (class_id instance_id
    attribute_id : Nat) (sb : List Nat) : Option Exn × Transport :=
  if t.online then
    (none, { t with setRequests := t.setRequests ++ [⟨class_id, instance_id, attribute_id, sb⟩] })
  else (some (.other .TransportError), t)

/-- The transport call `sendIOPacket(pkt)`. -/
def Transport.sendIOPacket (t : Transport) (pkt : List CPFItemOut) : Option Exn × Transport :=
  if t.online then (none, { t with ioSent := t.ioSent ++ [pkt] })
  else (some (.other .TransportError), t)

/-- The transport call `createConnection(o_to_t, t_to_o)` and the connection number it
returns. -/
def Transport.createConnection (t : Transport) (o_to_t t_to_o : ConnectionInfo) :
    Option Exn × Int × Transport :=
  if t.online then
    (none, t.nextConnection,
      { t with connectionRequests := t.connectionRequests ++ [(o_to_t, t_to_o)] })
  else (some (.other .TransportError), t.nextConnection, t)

/-- The object `OS32C`: its data members (`os32c.h` 219-225, the two angles grouped in
`angles`) and the state of its base class. -/
structure Driver where
  angles : Session
  connection_num_ : Int
  mrc_ : MeasurementReportConfig
  mrc_sequence_num_ : Nat
  transport : Transport

/-- The constructor `OS32C(socket, io_socket)`: `start_angle_(ANGLE_MAX), end_angle_(ANGLE_MIN),
connection_num_(-1), mrc_sequence_num_(1)`; `mrc_` is default-constructed (its value is a
parameter, the header being unavailable). -/
def Driver.new (mrc : MeasurementReportConfig) (transport : Transport) : Driver :=
  { angles := Session.new, connection_num_ := -1, mrc_ := mrc, mrc_sequence_num_ := 1,
    transport := transport }

/-- What a call of a `void` method of `OS32C` leaves behind: the exception thrown (if any)
and the object. -/
structure DriverResult where
  thrown : Option Exn
  self : Driver

/-- The method `void OS32C::selectBeams(double start_angle, double end_angle)`. -/
def selectBeams (d : Driver) (start_angle end_angle : ℚ) : DriverResult :=
  let r := calcBeamMask d.angles start_angle end_angle d.mrc_.beam_selection_mask
  let d := { d with angles := r.self, mrc_ := { d.mrc_ with beam_selection_mask := r.mask } }
  match r.thrown with
  | some what => { thrown := some (.invalid_argument what), self := d }
  | none =>
    let sb := d.mrc_.maskBytes
    let t := d.transport.setSingleAttributeSerializable 0x73 1 12 sb
    { thrown := t.1, self := { d with transport := t.2 } }

/-- The method `void OS32C::sendMeasurementReportConfigUDP()`; `mrc_sequence_num_++` on an
`EIP_UDINT` yields the old value and wraps at `2^32`. -/
def sendMeasurementReportConfigUDP (d : Driver) : DriverResult :=
  let address := ItemData.sequencedAddress
    (d.transport.o_to_t_connection_id d.connection_num_) d.mrc_sequence_num_
  let d := { d with mrc_sequence_num_ := (d.mrc_sequence_num_ + 1) % 2 ^ 32 }
  let data := ItemData.reportConfig d.mrc_
  let pkt : List CPFItemOut := [⟨0x8002, address⟩, ⟨0x00B1, data⟩]
  let t := d.transport.sendIOPacket pkt
  { thrown := t.1, self := { d with transport := t.2 } }

/-- The object after `n` successive calls of `sendMeasurementReportConfigUDP`. -/
def sendRepeatedly : Nat → Driver → Driver
  | 0, d => d
  | n + 1, d => (sendMeasurementReportConfigUDP (sendRepeatedly n d)).self

/-- The method `void OS32C::startUDPIO()`. -/
def startUDPIO (d : Driver) : DriverResult :=
  let o_to_t : ConnectionInfo := { assembly_id := 0x71, buffer_size := 0x006E, rpi := 0x00177FA0 }
  let t_to_o : ConnectionInfo := { assembly_id := 0x66, buffer_size := 0x0584, rpi := 40000 }
  match d.transport.createConnection o_to_t t_to_o with
  | (some e, _, t) => { thrown := some e, self := { d with transport := t } }
  | (none, n, t) => { thrown := none, self := { d with connection_num_ := n, transport := t } }

/-! ## Further fixtures of the tests -/

/-- The report of `test_deserialize` in `test/measurement_report_test.cpp`: the header of
that test with `num_beams = 1000` and the values `10000 .. 10999`. -/
def testReport1000 : MeasurementReport :=
  { header := { wireTestHeader with num_beams := 1000 }
    measurement_data := (List.range 1000).map (fun i => i + 10000) }

/-- A transport that accepts every call and has issued nothing yet. -/
def Transport.idle : Transport :=
  { online := true, setRequests := [], ioSent := [], connectionRequests := [],
    o_to_t_connection_id := fun _ => 0, nextConnection := 0 }

/-- A configuration record with both formats zero and an all-zero mask. -/
def MeasurementReportConfig.zero : MeasurementReportConfig :=
  { range_report_format := 0, reflectivity_report_format := 0, beam_selection_mask := fun _ => 0 }

/-! ## Format setters and repeated beam selection (`os32c.cpp` 67-83) -/

/-- The transport call `setSingleAttribute(class, instance, attribute, v)` for an `EIP_UINT`
value: the library template hands the value, two bytes little-endian, to
`setSingleAttributeSerializable`. -/
def Transport.setSingleAttribute (t : Transport) (class_id instance_id attribute_id : Nat)
    (v : Nat) : Option Exn × Transport :=
  t.setSingleAttributeSerializable class_id instance_id attribute_id (encodeU16 v)

/-- The method `void OS32C::setRangeFormat(EIP_UINT format)`: the transport call, then the
assignment `mrc_.range_report_format = format`. -/
def setRangeFormat (d : Driver) (format : Nat) : DriverResult :=
  let t := d.transport.setSingleAttribute 0x73 1 4 format
  match t.1 with
  | some e => { thrown := some e, self := { d with transport := t.2 } }
  | none =>
    { thrown := none,
      self := { d with transport := t.2, mrc_ := { d.mrc_ with range_report_format := format } } }

/-- The method `void OS32C::setReflectivityFormat(EIP_UINT format)`: the transport call, then
the assignment `mrc_.reflectivity_report_format = format`. -/
def setReflectivityFormat (d : Driver) (format : Nat) : DriverResult :=
  let t := d.transport.setSingleAttribute 0x73 1 5 format
  match t.1 with
  | some e => { thrown := some e, self := { d with transport := t.2 } }
  | none =>
    { thrown := none,
      self := { d with transport := t.2,
                       mrc_ := { d.mrc_ with reflectivity_report_format := format } } }

/-- The angles of the object after a succession of calls of `calcBeamMask`, each given by its
two angles and the buffer it writes to, whether the calls return or throw. -/
def afterMaskCalls : List (ℚ × ℚ × Memory) → Session → Session
  | [], self => self
  | (start_angle, end_angle, mask) :: rest, self =>
    afterMaskCalls rest (calcBeamMask self start_angle end_angle mask).self

/-! # Theorems -/

/-! ## Facts about the geometry constants -/

theorem M_PI_pos : 0 < M_PI := by norm_num [M_PI]

theorem ANGLE_INC_pos : 0 < ANGLE_INC := by
  have := M_PI_pos
  unfold ANGLE_INC DEG2RAD
  positivity

theorem ANGLE_MAX_eq : ANGLE_MAX = 338 * ANGLE_INC := by
  unfold ANGLE_MAX ANGLE_INC DEG2RAD
  ring

theorem ANGLE_MIN_eq : ANGLE_MIN = -338 * ANGLE_INC := by
  unfold ANGLE_MIN ANGLE_INC DEG2RAD
  ring

/-- A non-negative `double` lying in `[k, k + 1)`, `k` an `int`, converts to `k`. -/
theorem doubleToInt_of_mem (x : ℚ) (k : Int) (hk : 0 ≤ k) (hk2 : k < 2 ^ 31)
    (h1 : (k : ℚ) ≤ x) (h2 : x < k + 1) : doubleToInt x = k := by
  have hx : (0 : ℚ) ≤ x := le_trans (by exact_mod_cast hk) h1
  have hf : ⌊x⌋ = k := by
    rw [Int.floor_eq_iff]
    exact ⟨h1, h2⟩
  unfold doubleToInt
  simp only [if_pos hx, hf]
  rw [if_pos ⟨by omega, hk2⟩]

/-- A `double` in `(-1, 0]` converts to the `int` `0`. -/
theorem doubleToInt_of_neg_frac (x : ℚ) (h1 : -1 < x) (h2 : x ≤ 0) : doubleToInt x = 0 := by
  have ht : (if 0 ≤ x then ⌊x⌋ else ⌈x⌉) = 0 := by
    split
    · rename_i h0
      have : x = 0 := le_antisymm h2 h0
      subst this
      simp
    · rw [Int.ceil_eq_iff]
      constructor
      · simpa using h1
      · simpa using h2
  unfold doubleToInt
  simp only [ht]
  norm_num

/-- A conversion that delivers a value other than `INT_MIN` delivers the truncated value. -/
theorem doubleToInt_eq_imp (x : ℚ) (k : Int) (hk : k ≠ -2 ^ 31) (h : doubleToInt x = k) :
    (if 0 ≤ x then ⌊x⌋ else ⌈x⌉) = k := by
  unfold doubleToInt at h
  simp only at h
  split_ifs at h with h0 hr hr
  · rw [if_pos h0]
    exact h
  · exact absurd h.symm hk
  · rw [if_neg h0]
    exact h
  · exact absurd h.symm hk

/-! ## The `memset` calls -/

theorem memset_of_nonneg (m : Memory) (p : Int) (v : Nat) (n : Int) (h0 : 0 ≤ n)
    (h1 : n < 2 ^ 63) :
    memset m p v n = some (fun i => if p ≤ i ∧ i < p + n then v % 256 else m i) := by
  have hn : n % 2 ^ 64 = n := Int.emod_eq_of_lt h0 (by omega)
  unfold memset
  rw [hn, if_pos h1]

/-- The mask written for the beam range the source fixes, `start_beam = 0`, `end_beam = 676`. -/
theorem packBeams_full (self : Session) (mask : Memory) :
    ∃ r : Session × Memory, packBeams 0 676 self mask = some r ∧
      r.1 = { start_angle_ := calcBeamCentre 0, end_angle_ := calcBeamCentre 676 } ∧
      ∀ i : Int, r.2 i =
        if 0 ≤ i ∧ i < 84 then 0xFF else if i = 84 then 0x1F
        else if 85 ≤ i ∧ i ≤ 87 then 0 else mask i := by
  have h0 : Int.tdiv 0 8 = 0 := by decide
  have h84 : Int.tdiv 676 8 = 84 := by decide
  refine Exists.intro ?w ⟨?h1, ?h2, ?h3⟩
  case h1 =>
    simp only [packBeams, h0, h84]
    norm_num
    rw [memset_of_nonneg _ _ _ 84 (by norm_num) (by norm_num)]
    simp only [Option.some_bind]
    rw [memset_of_nonneg _ _ _ 3 (by norm_num) (by norm_num)]
    exact rfl
  case h2 => rfl
  case h3 =>
    intro i
    simp only [store, shl1, toByte]
    norm_num
    split_ifs <;> first | rfl | omega

/-- A call whose angles pass the three guards returns the state that the bit-packing steps
leave for beams 0 and 676. -/
theorem calcBeamMask_accept (self : Session) (s e : ℚ) (mask : Memory)
    (h1 : ¬ s > ANGLE_MAX + ANGLE_INC / 2) (h2 : ¬ e < ANGLE_MIN - ANGLE_INC / 2)
    (h3 : ¬ s - e ≤ ANGLE_INC) :
    ∃ r : Session × Memory,
      calcBeamMask self s e mask = { thrown := none, self := r.1, mask := r.2 } ∧
      r.1 = { start_angle_ := calcBeamCentre 0, end_angle_ := calcBeamCentre 676 } ∧
      ∀ i : Int, r.2 i =
        if 0 ≤ i ∧ i < 84 then 0xFF else if i = 84 then 0x1F
        else if 85 ≤ i ∧ i ≤ 87 then 0 else mask i := by
  obtain ⟨r, hr, hs, hm⟩ := packBeams_full self mask
  refine ⟨r, ?_, hs, hm⟩
  unfold calcBeamMask
  rw [if_neg h1, if_neg h2, if_neg h3]
  simp only [hr]

theorem calcBeamMask_of_valid (self : Session) (s e : ℚ) (mask : Memory)
    (h1 : s ≤ ANGLE_MAX + ANGLE_INC / 2) (h2 : ANGLE_MIN - ANGLE_INC / 2 ≤ e)
    (h3 : ANGLE_INC < s - e) :
    ∃ r : Session × Memory,
      calcBeamMask self s e mask = { thrown := none, self := r.1, mask := r.2 } ∧
      r.1 = { start_angle_ := calcBeamCentre 0, end_angle_ := calcBeamCentre 676 } ∧
      ∀ i : Int, r.2 i =
        if 0 ≤ i ∧ i < 84 then 0xFF else if i = 84 then 0x1F
        else if 85 ≤ i ∧ i ≤ 87 then 0 else mask i :=
  calcBeamMask_accept self s e mask (not_lt.mpr h1) (not_lt.mpr h2) (not_le.mpr h3)

/-- No call of `calcBeamMask` ends in a `memset` that does not complete: the beams are fixed
at 0 and 676. -/
theorem calcBeamMask_no_fault (self : Session) (s e : ℚ) (mask : Memory) :
    (calcBeamMask self s e mask).fault = false := by
  by_cases h1 : s > ANGLE_MAX + ANGLE_INC / 2
  · simp [calcBeamMask, h1]
  · by_cases h2 : e < ANGLE_MIN - ANGLE_INC / 2
    · simp [calcBeamMask, h1, h2]
    · by_cases h3 : s - e ≤ ANGLE_INC
      · simp [calcBeamMask, h1, h2, h3]
      · obtain ⟨r, hr, -, -⟩ := calcBeamMask_accept self s e mask h1 h2 h3
        rw [hr]

/-- C2: for every pair of angles that passes validation `calcBeamMask` returns normally with
mask bytes 0..83 = 0xFF, byte 84 = 0x1F, bytes 85..87 = 0x00, and with the effective angles
`start_angle_ = calcBeamCentre(0) = ANGLE_MAX`, `end_angle_ = calcBeamCentre(676) = ANGLE_MIN`,
whatever the angles supplied. -/
theorem calcBeamMask_selects_all (self : Session) (s e : ℚ) (mask : Memory)
    (h1 : s ≤ ANGLE_MAX + ANGLE_INC / 2) (h2 : ANGLE_MIN - ANGLE_INC / 2 ≤ e)
    (h3 : ANGLE_INC < s - e) :
    (calcBeamMask self s e mask).thrown = none ∧
    (∀ i : Int, 0 ≤ i → i ≤ 83 → (calcBeamMask self s e mask).mask i = 0xFF) ∧
    (calcBeamMask self s e mask).mask 84 = 0x1F ∧
    (∀ i : Int, 85 ≤ i → i ≤ 87 → (calcBeamMask self s e mask).mask i = 0x00) ∧
    (calcBeamMask self s e mask).self.start_angle_ = calcBeamCentre 0 ∧
    calcBeamCentre 0 = ANGLE_MAX ∧
    (calcBeamMask self s e mask).self.end_angle_ = calcBeamCentre 676 ∧
    calcBeamCentre 676 = ANGLE_MIN := by
  obtain ⟨r, hr, hself, hmask⟩ := calcBeamMask_of_valid self s e mask h1 h2 h3
  rw [hr]
  refine ⟨rfl, ?_, ?_, ?_, ?_, ?_, ?_, ?_⟩
  · intro i hi0 hi
    show r.2 i = 0xFF
    rw [hmask, if_pos ⟨hi0, by omega⟩]
  · show r.2 84 = 0x1F
    rw [hmask]
    norm_num
  · intro i hi0 hi
    show r.2 i = 0x00
    rw [hmask, if_neg (by omega), if_neg (by omega), if_pos ⟨hi0, hi⟩]
  · show r.1.start_angle_ = _
    rw [hself]
  · simp [calcBeamCentre]
  · show r.1.end_angle_ = _
    rw [hself]
  · rw [calcBeamCentre, ANGLE_MAX_eq, ANGLE_MIN_eq]
    push_cast
    ring

theorem calcBeamMask_selects_all_witness :
    (ANGLE_MAX ≤ ANGLE_MAX + ANGLE_INC / 2 ∧ ANGLE_MIN - ANGLE_INC / 2 ≤ ANGLE_MIN ∧
      ANGLE_INC < ANGLE_MAX - ANGLE_MIN) ∧
    (calcBeamMask Session.new ANGLE_MAX ANGLE_MIN (fun _ => 0xAA)).thrown = none ∧
    (∀ i : Int, 0 ≤ i → i ≤ 83 →
      (calcBeamMask Session.new ANGLE_MAX ANGLE_MIN (fun _ => 0xAA)).mask i = 0xFF) ∧
    (calcBeamMask Session.new ANGLE_MAX ANGLE_MIN (fun _ => 0xAA)).mask 84 = 0x1F ∧
    (∀ i : Int, 85 ≤ i → i ≤ 87 →
      (calcBeamMask Session.new ANGLE_MAX ANGLE_MIN (fun _ => 0xAA)).mask i = 0x00) ∧
    (calcBeamMask Session.new ANGLE_MAX ANGLE_MIN (fun _ => 0xAA)).self.start_angle_ =
      calcBeamCentre 0 ∧
    calcBeamCentre 0 = ANGLE_MAX ∧
    (calcBeamMask Session.new ANGLE_MAX ANGLE_MIN (fun _ => 0xAA)).self.end_angle_ =
      calcBeamCentre 676 ∧
    calcBeamCentre 676 = ANGLE_MIN :=
  have h1 : ANGLE_MAX ≤ ANGLE_MAX + ANGLE_INC / 2 := by
    norm_num [ANGLE_MAX, ANGLE_INC, DEG2RAD, M_PI]
  have h2 : ANGLE_MIN - ANGLE_INC / 2 ≤ ANGLE_MIN := by
    norm_num [ANGLE_MIN, ANGLE_INC, DEG2RAD, M_PI]
  have h3 : ANGLE_INC < ANGLE_MAX - ANGLE_MIN := by
    norm_num [ANGLE_MAX, ANGLE_MIN, ANGLE_INC, DEG2RAD, M_PI]
  ⟨⟨h1, h2, h3⟩, calcBeamMask_selects_all Session.new ANGLE_MAX ANGLE_MIN (fun _ => 0xAA) h1 h2 h3⟩

/-- C3: at the angles of `test_calc_beam_boundaries` (39.6 deg, -40.4 deg) the call returns
normally, `calcBeamNumber` gives beams 239 and 439, yet mask byte 0 is 0xFF (a mask of beams
239..439 has 0x00 there) and `start_angle_` is `ANGLE_MAX`, not `calcBeamCentre(239)`. -/
theorem calcBeamMask_ignores_beam_numbers :
    (calcBeamMask Session.new 0.6911503837897546 (-0.7051130178057091) (fun _ => 0xAA)).thrown
      = none ∧
    calcBeamNumber 0.6911503837897546 = 239 ∧
    calcBeamNumber (-0.7051130178057091) = 439 ∧
    (calcBeamMask Session.new 0.6911503837897546 (-0.7051130178057091) (fun _ => 0xAA)).mask 0
      = 0xFF ∧
    (packBeams 239 439 Session.new (fun _ => 0xAA)).map (fun r => r.2 0) = some 0x00 ∧
    (calcBeamMask Session.new 0.6911503837897546 (-0.7051130178057091)
      (fun _ => 0xAA)).self.start_angle_ = ANGLE_MAX ∧
    calcBeamCentre 239 ≠ ANGLE_MAX := by
  have h1 : (0.6911503837897546 : ℚ) ≤ ANGLE_MAX + ANGLE_INC / 2 := by
    norm_num [ANGLE_MAX, ANGLE_INC, DEG2RAD, M_PI]
  have h2 : ANGLE_MIN - ANGLE_INC / 2 ≤ (-0.7051130178057091 : ℚ) := by
    norm_num [ANGLE_MIN, ANGLE_INC, DEG2RAD, M_PI]
  have h3 : ANGLE_INC < (0.6911503837897546 : ℚ) - (-0.7051130178057091) := by
    norm_num [ANGLE_INC, DEG2RAD, M_PI]
  obtain ⟨r, hr, hself, hmask⟩ :=
    calcBeamMask_of_valid Session.new _ _ (fun _ => 0xAA) h1 h2 h3
  rw [hr]
  refine ⟨rfl, ?_, ?_, ?_, ?_, ?_, ?_⟩
  · apply doubleToInt_of_mem _ 239 (by norm_num) (by norm_num) <;>
      norm_num [ANGLE_MAX, ANGLE_INC, DEG2RAD, M_PI]
  · apply doubleToInt_of_mem _ 439 (by norm_num) (by norm_num) <;>
      norm_num [ANGLE_MAX, ANGLE_INC, DEG2RAD, M_PI]
  · show r.2 0 = 0xFF
    rw [hmask]
    norm_num
  · have h239 : Int.tdiv 239 8 = 29 := by decide
    have h439 : Int.tdiv 439 8 = 54 := by decide
    simp only [packBeams, h239, h439]
    norm_num
    rw [memset_of_nonneg _ _ _ 29 (by norm_num) (by norm_num)]
    simp only [Option.some_bind]
    rw [memset_of_nonneg _ _ _ 24 (by norm_num) (by norm_num)]
    simp only [Option.some_bind]
    rw [memset_of_nonneg _ _ _ 33 (by norm_num) (by norm_num)]
    simp [store]
  · show r.1.start_angle_ = _
    rw [hself]
    simp [calcBeamCentre]
  · have := ANGLE_INC_pos
    rw [calcBeamCentre]
    push_cast
    linarith

/-- C8: `calcBeamCentre(k) = ANGLE_MAX - k * ANGLE_INC` for every `k`; `calcBeamCentre(0)` is
+135.2 deg, `calcBeamCentre(338) = 0`, `calcBeamCentre(676)` is -135.2 deg `= ANGLE_MIN`, and
`ANGLE_MAX - ANGLE_MIN = (677 - 1) * ANGLE_INC`. -/
theorem calcBeamCentre_values :
    (∀ k : Int, calcBeamCentre k = ANGLE_MAX - k * ANGLE_INC) ∧
    calcBeamCentre 0 = DEG2RAD 135.2 ∧
    calcBeamCentre 338 = 0 ∧
    calcBeamCentre 676 = DEG2RAD (-135.2) ∧
    calcBeamCentre 676 = ANGLE_MIN ∧
    ANGLE_MAX - ANGLE_MIN = (677 - 1) * ANGLE_INC := by
  refine ⟨fun k => rfl, ?_, ?_, ?_, ?_, ?_⟩
  · simp [calcBeamCentre, ANGLE_MAX]
  · rw [calcBeamCentre, ANGLE_MAX_eq]
    push_cast
    ring
  · rw [calcBeamCentre, ANGLE_MAX_eq]
    unfold ANGLE_INC DEG2RAD
    push_cast
    ring
  · rw [calcBeamCentre, ANGLE_MAX_eq, ANGLE_MIN_eq]
    push_cast
    ring
  · rw [ANGLE_MAX_eq, ANGLE_MIN_eq]
    ring

/-! ## Conversion to a laser scan -/

theorem forLoop_zero {σ : Type} (body : Nat → σ → σ) (s : σ) : forLoop 0 body s = s := rfl

theorem forLoop_succ {σ : Type} (n : Nat) (body : Nat → σ → σ) (s : σ) :
    forLoop (n + 1) body s = body n (forLoop n body s) := by
  simp [forLoop, List.range_succ, List.foldl_append]

theorem length_resize (v : List ℚ) (n : Nat) : (resize v n).length = n := by
  simp [resize]
  omega

/-- A loop that assigns `f i` to element `i` of the vector selected by `get`/`put`, for
`i = 0 .. m - 1`, leaves the list whose element `j < m` is `f j`. -/
theorem forLoop_set {σ : Type} (get : σ → List ℚ) (f : Nat → ℚ) (body : Nat → σ → σ)
    (hbody : ∀ i s, get (body i s) = (get s).set i (f i)) (m : Nat) (s : σ) (j : Nat) :
    (get (forLoop m body s))[j]? =
      if j < m ∧ j < (get s).length then some (f j) else (get s)[j]? := by
  induction m with
  | zero => simp [forLoop_zero]
  | succ m ih =>
    rw [forLoop_succ, hbody, List.getElem?_set, ih]
    have hlen : (get (forLoop m body s)).length = (get s).length := by
      clear ih
      induction m with
      | zero => simp [forLoop_zero]
      | succ m ihm => rw [forLoop_succ, hbody, List.length_set, ihm]
    rw [hlen]
    by_cases hj : m = j
    · subst hj
      by_cases hl : m < (get s).length
      · simp [hl]
      · have hle : (get s).length ≤ m := by omega
        simp [hl]
        exact hle
    · rw [if_neg hj]
      by_cases hl : j < (get s).length
      · have : (j < m + 1) ↔ (j < m) := by omega
        simp [hl, this]
      · simp [hl]

/-- After a loop as in `forLoop_set` over a vector of length `n`, the vector is
`data.map g` when `f i = g (data[i])` and `data` has `n` elements. -/
theorem forLoop_set_eq_map {σ : Type} (get : σ → List ℚ) (data : List Nat) (g : Nat → ℚ)
    (body : Nat → σ → σ)
    (hbody : ∀ i s, get (body i s) = (get s).set i (g (data.getD i 0)))
    (s : σ) (hs : (get s).length = data.length) :
    get (forLoop data.length body s) = data.map g := by
  apply List.ext_getElem?
  intro j
  rw [forLoop_set get (fun i => g (data.getD i 0)) body hbody, hs]
  by_cases hj : j < data.length
  · simp [hj, List.getD_eq_getElem?_getD]
  · have hle : (get s).length ≤ j := by omega
    have hle2 : data.length ≤ j := by omega
    have h1 : (get s)[j]? = none := List.getElem?_eq_none hle
    have h2 : data[j]? = none := List.getElem?_eq_none hle2
    simp [hj, h1, h2]

theorem rr_loopBody_ranges (rr : RangeAndReflectanceMeasurement) (i : Nat) (ls : LaserScan) :
    (rr.loopBody i ls).ranges = ls.ranges.set i
      ((fun raw : Nat => if raw = 0x0001 then (0 : ℚ) else if raw = 0xFFFF then 50
        else (raw : ℚ) / 1000) (rr.range_data.getD i 0)) := by
  unfold RangeAndReflectanceMeasurement.loopBody
  generalize rr.range_data.getD i 0 = raw
  by_cases h1 : raw = 1
  · simp [h1]
  · by_cases h2 : raw = 65535
    · simp [h2, DISTANCE_MAX]
    · simp only [if_neg h1, if_neg h2]
      norm_num

theorem mr_loopBody_ranges (mr : MeasurementReport) (i : Nat) (ls : LaserScan) :
    (mr.loopBody i ls).ranges = ls.ranges.set i
      ((fun raw : Nat => if raw = 0x0001 then (0 : ℚ) else if raw = 0xFFFF then 50
        else if mr.header.range_report_format = 5 then (raw : ℚ) * 0.00119916983 * 0.5
        else (raw : ℚ) / 1000) (mr.measurement_data.getD i 0)) := by
  unfold MeasurementReport.loopBody
  generalize mr.measurement_data.getD i 0 = raw
  by_cases h1 : raw = 1
  · simp only [h1, if_true]
    norm_num
  · by_cases h2 : raw = 65535
    · simp [h2, DISTANCE_MAX]
    · by_cases h3 : mr.header.range_report_format = 5
      · simp only [if_neg h1, if_neg h2, RANGE_MEASURE_TOF_4PS, if_pos h3]
        congr 1
        ring
      · simp only [if_neg h1, if_neg h2, RANGE_MEASURE_TOF_4PS, if_neg h3]
        norm_num

/-- C9: on a range-and-reflectance measurement whose vectors have `num_beams` elements,
`convertToLaserScan` returns normally with `ranges` of length `num_beams` and
`ranges[i] = 0.0` if `range_data[i] = 0x0001`, `50.0` if `range_data[i] = 0xFFFF`, and
`range_data[i] / 1000` otherwise; replacing `header.range_report_format` by any value `fmt`
(also the 4 ps time-of-flight code) gives the same ranges. -/
theorem convertToLaserScan_rr_ranges (rr : RangeAndReflectanceMeasurement) (ls : LaserScan)
    (fmt : Nat)
    (h1 : rr.range_data.length = rr.header.num_beams)
    (h2 : rr.reflectance_data.length = rr.header.num_beams) :
    (rr.convertToLaserScan ls).thrown = none ∧
    (rr.convertToLaserScan ls).ls.ranges.length = rr.header.num_beams ∧
    (rr.convertToLaserScan ls).ls.ranges =
      rr.range_data.map (fun raw : Nat =>
        if raw = 0x0001 then (0 : ℚ) else if raw = 0xFFFF then 50 else (raw : ℚ) / 1000) ∧
    (RangeAndReflectanceMeasurement.convertToLaserScan
        { rr with header := { rr.header with range_report_format := fmt } } ls).ls.ranges =
      (rr.convertToLaserScan ls).ls.ranges := by
  have key : ∀ r : RangeAndReflectanceMeasurement, r.range_data.length = r.header.num_beams →
      r.reflectance_data.length = r.header.num_beams →
      (r.convertToLaserScan ls).thrown = none ∧
      (r.convertToLaserScan ls).ls.ranges =
        r.range_data.map (fun raw : Nat =>
          if raw = 0x0001 then (0 : ℚ) else if raw = 0xFFFF then 50 else (raw : ℚ) / 1000) := by
    intro r hr1 hr2
    unfold RangeAndReflectanceMeasurement.convertToLaserScan
    rw [if_neg (by simp [hr1, hr2])]
    refine ⟨rfl, ?_⟩
    show (forLoop r.header.num_beams r.loopBody _).ranges = _
    rw [← hr1]
    apply forLoop_set_eq_map LaserScan.ranges r.range_data _ r.loopBody
      (fun i s => rr_loopBody_ranges r i s)
    show (resize ls.ranges r.range_data.length).length = _
    exact length_resize _ _
  have k1 := key rr h1 h2
  have k2 := key { rr with header := { rr.header with range_report_format := fmt } } h1 h2
  refine ⟨k1.1, ?_, k1.2, ?_⟩
  · rw [k1.2, List.length_map, h1]
  · rw [k1.2, k2.2]

theorem convertToLaserScan_rr_ranges_witness :
    ((testMeasurement RANGE_MEASURE_TOF_4PS).range_data.length =
        (testMeasurement RANGE_MEASURE_TOF_4PS).header.num_beams ∧
      (testMeasurement RANGE_MEASURE_TOF_4PS).reflectance_data.length =
        (testMeasurement RANGE_MEASURE_TOF_4PS).header.num_beams) ∧
    ((testMeasurement RANGE_MEASURE_TOF_4PS).convertToLaserScan LaserScan.empty).ls.ranges =
      [1.0, 1.253, 1.0, 0.0, 48.75, 49.999, 50.001, 48.135, 50.0, 50.0] :=
  ⟨⟨rfl, rfl⟩,
    (convertToLaserScan_rr_ranges (testMeasurement RANGE_MEASURE_TOF_4PS) LaserScan.empty
      RANGE_MEASURE_50M rfl rfl).2.2.1.trans (by norm_num [testMeasurement])⟩

/-- C10: on a measurement report whose `measurement_data` has `num_beams` elements,
`convertToLaserScan` returns normally with `ranges` of length `num_beams` and, for every
element, `0.0` if the raw value is `0x0001` and `50.0` if it is `0xFFFF` whatever the range
format, otherwise `raw * 0.00119916983 * 0.5` when `header.range_report_format` is
`RANGE_MEASURE_TOF_4PS` (5) and `raw / 1000` for every other format value. -/
theorem convertToLaserScan_mr_ranges (mr : MeasurementReport) (ls : LaserScan)
    (h : mr.measurement_data.length = mr.header.num_beams) :
    (mr.convertToLaserScan ls).thrown = none ∧
    (mr.convertToLaserScan ls).ls.ranges.length = mr.header.num_beams ∧
    (mr.convertToLaserScan ls).ls.ranges =
      mr.measurement_data.map (fun raw : Nat =>
        if raw = 0x0001 then (0 : ℚ) else if raw = 0xFFFF then 50
        else if mr.header.range_report_format = RANGE_MEASURE_TOF_4PS then
          (raw : ℚ) * 0.00119916983 * 0.5
        else (raw : ℚ) / 1000) := by
  have key : (mr.convertToLaserScan ls).ls.ranges =
      mr.measurement_data.map (fun raw : Nat =>
        if raw = 0x0001 then (0 : ℚ) else if raw = 0xFFFF then 50
        else if mr.header.range_report_format = 5 then (raw : ℚ) * 0.00119916983 * 0.5
        else (raw : ℚ) / 1000) := by
    unfold MeasurementReport.convertToLaserScan
    rw [if_neg (by simp [h])]
    show (forLoop mr.header.num_beams mr.loopBody _).ranges = _
    rw [← h]
    apply forLoop_set_eq_map LaserScan.ranges mr.measurement_data _ mr.loopBody
      (fun i s => mr_loopBody_ranges mr i s)
    show (resize ls.ranges mr.measurement_data.length).length = _
    exact length_resize _ _
  refine ⟨?_, ?_, key⟩
  · unfold MeasurementReport.convertToLaserScan
    rw [if_neg (by simp [h])]
  · rw [key, List.length_map, h]

theorem convertToLaserScan_mr_ranges_witness :
    (MeasurementReport.mk (testHeader RANGE_MEASURE_TOF_4PS 4)
        [1000, 0x0001, 0xFFFF, 2000]).measurement_data.length =
      (MeasurementReport.mk (testHeader RANGE_MEASURE_TOF_4PS 4)
        [1000, 0x0001, 0xFFFF, 2000]).header.num_beams ∧
    ((MeasurementReport.mk (testHeader RANGE_MEASURE_TOF_4PS 4)
        [1000, 0x0001, 0xFFFF, 2000]).convertToLaserScan LaserScan.empty).ls.ranges =
      [1000 * 0.00119916983 * 0.5, 0, 50, 2000 * 0.00119916983 * 0.5] ∧
    ((MeasurementReport.mk (testHeader RANGE_MEASURE_50M 4)
        [1000, 0x0001, 0xFFFF, 2000]).convertToLaserScan LaserScan.empty).ls.ranges =
      [1, 0, 50, 2] :=
  ⟨rfl,
    (convertToLaserScan_mr_ranges (MeasurementReport.mk (testHeader RANGE_MEASURE_TOF_4PS 4)
      [1000, 0x0001, 0xFFFF, 2000]) LaserScan.empty rfl).2.2.trans
        (by norm_num [testHeader, RANGE_MEASURE_TOF_4PS]),
    (convertToLaserScan_mr_ranges (MeasurementReport.mk (testHeader RANGE_MEASURE_50M 4)
      [1000, 0x0001, 0xFFFF, 2000]) LaserScan.empty rfl).2.2.trans
        (by norm_num [testHeader, RANGE_MEASURE_TOF_4PS, RANGE_MEASURE_50M])⟩

/-! ## Acceptance, intensities, timing and static fields of a scan -/

/-- A loop whose body leaves a component of the state alone leaves it alone. -/
theorem forLoop_preserves {σ α : Type} (proj : σ → α) (body : Nat → σ → σ)
    (hbody : ∀ i s, proj (body i s) = proj s) (n : Nat) (s : σ) :
    proj (forLoop n body s) = proj s := by
  induction n with
  | zero => rfl
  | succ n ih => rw [forLoop_succ, hbody, ih]

theorem rr_thrown_iff (rr : RangeAndReflectanceMeasurement) (ls : LaserScan) :
    (rr.convertToLaserScan ls).thrown ≠ none ↔
      (rr.range_data.length ≠ rr.header.num_beams ∨
        rr.reflectance_data.length ≠ rr.header.num_beams) := by
  unfold RangeAndReflectanceMeasurement.convertToLaserScan
  split_ifs with h
  · simp [h]
  · simp [h]

theorem mr_thrown_iff (mr : MeasurementReport) (ls : LaserScan) :
    (mr.convertToLaserScan ls).thrown ≠ none ↔
      mr.measurement_data.length ≠ mr.header.num_beams := by
  unfold MeasurementReport.convertToLaserScan
  split_ifs with h
  · simp [h]
  · simp [h]

theorem rr_loopBody_intensities (rr : RangeAndReflectanceMeasurement) (i : Nat)
    (ls : LaserScan) :
    (rr.loopBody i ls).intensities =
      ls.intensities.set i ((fun raw : Nat => (raw : ℚ)) (rr.reflectance_data.getD i 0)) := by
  unfold RangeAndReflectanceMeasurement.loopBody
  split_ifs <;> rfl

theorem rr_loopBody_frame (rr : RangeAndReflectanceMeasurement) (i : Nat) (ls : LaserScan) :
    (rr.loopBody i ls).time_increment = ls.time_increment ∧
    (rr.loopBody i ls).scan_time = ls.scan_time ∧
    (rr.loopBody i ls).angle_min = ls.angle_min ∧
    (rr.loopBody i ls).angle_max = ls.angle_max ∧
    (rr.loopBody i ls).angle_increment = ls.angle_increment ∧
    (rr.loopBody i ls).range_min = ls.range_min ∧
    (rr.loopBody i ls).range_max = ls.range_max := by
  unfold RangeAndReflectanceMeasurement.loopBody
  split_ifs <;> exact ⟨rfl, rfl, rfl, rfl, rfl, rfl, rfl⟩

theorem mr_loopBody_frame (mr : MeasurementReport) (i : Nat) (ls : LaserScan) :
    (mr.loopBody i ls).time_increment = ls.time_increment ∧
    (mr.loopBody i ls).scan_time = ls.scan_time ∧
    (mr.loopBody i ls).angle_min = ls.angle_min ∧
    (mr.loopBody i ls).angle_max = ls.angle_max ∧
    (mr.loopBody i ls).angle_increment = ls.angle_increment ∧
    (mr.loopBody i ls).range_min = ls.range_min ∧
    (mr.loopBody i ls).range_max = ls.range_max ∧
    (mr.loopBody i ls).intensities = ls.intensities := by
  unfold MeasurementReport.loopBody
  split_ifs <;> exact ⟨rfl, rfl, rfl, rfl, rfl, rfl, rfl, rfl⟩

/-- C11: each overload of `convertToLaserScan` throws exactly when a data vector's length
differs from `header.num_beams` (`range_data` or `reflectance_data`; `measurement_data`), and
when it throws the `LaserScan` passed in is unchanged. -/
theorem convertToLaserScan_throws_iff (rr : RangeAndReflectanceMeasurement)
    (mr : MeasurementReport) (ls : LaserScan) :
    ((rr.convertToLaserScan ls).thrown ≠ none ↔
      (rr.range_data.length ≠ rr.header.num_beams ∨
        rr.reflectance_data.length ≠ rr.header.num_beams)) ∧
    ((mr.convertToLaserScan ls).thrown ≠ none ↔
      mr.measurement_data.length ≠ mr.header.num_beams) ∧
    ((rr.convertToLaserScan ls).thrown ≠ none → (rr.convertToLaserScan ls).ls = ls) ∧
    ((mr.convertToLaserScan ls).thrown ≠ none → (mr.convertToLaserScan ls).ls = ls) := by
  refine ⟨rr_thrown_iff rr ls, mr_thrown_iff mr ls, ?_, ?_⟩
  · intro h
    unfold RangeAndReflectanceMeasurement.convertToLaserScan at h ⊢
    split_ifs at h ⊢ with hc
    · rfl
    · exact absurd rfl h
  · intro h
    unfold MeasurementReport.convertToLaserScan at h ⊢
    split_ifs at h ⊢ with hc
    · rfl
    · exact absurd rfl h

theorem convertToLaserScan_throws_iff_witness :
    ((RangeAndReflectanceMeasurement.mk (testHeader RANGE_MEASURE_50M 10) [1000, 1253]
        [44000, 42123]).convertToLaserScan
          { LaserScan.empty with ranges := [7, 8, 9], intensities := [5] }).thrown ≠ none ∧
    ((RangeAndReflectanceMeasurement.mk (testHeader RANGE_MEASURE_50M 10) [1000, 1253]
        [44000, 42123]).convertToLaserScan
          { LaserScan.empty with ranges := [7, 8, 9], intensities := [5] }).ls =
      { LaserScan.empty with ranges := [7, 8, 9], intensities := [5] } ∧
    ((MeasurementReport.mk (testHeader RANGE_MEASURE_50M 10) [1000, 1253]).convertToLaserScan
          { LaserScan.empty with ranges := [7, 8, 9], intensities := [5] }).thrown ≠ none ∧
    ((MeasurementReport.mk (testHeader RANGE_MEASURE_50M 10) [1000, 1253]).convertToLaserScan
          { LaserScan.empty with ranges := [7, 8, 9], intensities := [5] }).ls =
      { LaserScan.empty with ranges := [7, 8, 9], intensities := [5] } :=
  have t := convertToLaserScan_throws_iff
    (RangeAndReflectanceMeasurement.mk (testHeader RANGE_MEASURE_50M 10) [1000, 1253]
      [44000, 42123])
    (MeasurementReport.mk (testHeader RANGE_MEASURE_50M 10) [1000, 1253])
    { LaserScan.empty with ranges := [7, 8, 9], intensities := [5] }
  have h1 := t.1.mpr (Or.inl (by decide))
  have h2 := t.2.1.mpr (by decide)
  ⟨h1, t.2.2.1 h1, h2, t.2.2.2 h2⟩

/-- C12: for a range-and-reflectance measurement that `convertToLaserScan` accepts,
`intensities` has length `num_beams` and `intensities[i]` is the raw count
`reflectance_data[i]` for every `i`, unscaled and with no sentinel substitution. -/
theorem convertToLaserScan_rr_intensities (rr : RangeAndReflectanceMeasurement)
    (ls : LaserScan)
    (h1 : rr.range_data.length = rr.header.num_beams)
    (h2 : rr.reflectance_data.length = rr.header.num_beams) :
    (rr.convertToLaserScan ls).thrown = none ∧
    (rr.convertToLaserScan ls).ls.intensities.length = rr.header.num_beams ∧
    (rr.convertToLaserScan ls).ls.intensities =
      rr.reflectance_data.map (fun raw : Nat => (raw : ℚ)) := by
  have key : (rr.convertToLaserScan ls).ls.intensities =
      rr.reflectance_data.map (fun raw : Nat => (raw : ℚ)) := by
    unfold RangeAndReflectanceMeasurement.convertToLaserScan
    rw [if_neg (by simp [h1, h2])]
    show (forLoop rr.header.num_beams rr.loopBody _).intensities = _
    rw [← h2]
    apply forLoop_set_eq_map LaserScan.intensities rr.reflectance_data _ rr.loopBody
      (fun i s => rr_loopBody_intensities rr i s)
    show (resize ls.intensities rr.reflectance_data.length).length = _
    exact length_resize _ _
  refine ⟨?_, ?_, key⟩
  · unfold RangeAndReflectanceMeasurement.convertToLaserScan
    rw [if_neg (by simp [h1, h2])]
  · rw [key, List.length_map, h2]

theorem convertToLaserScan_rr_intensities_witness :
    ((testMeasurement RANGE_MEASURE_50M).convertToLaserScan LaserScan.empty).ls.intensities =
      [44000, 42123, 53987, 0, 123, 555, 65535, 1013, 0, 0] ∧
    ((RangeAndReflectanceMeasurement.mk (testHeader RANGE_MEASURE_50M 3) [1000, 1000, 1000]
        [0, 0x0001, 0xFFFF]).convertToLaserScan LaserScan.empty).ls.intensities =
      [0, 1, 65535] :=
  ⟨(convertToLaserScan_rr_intensities (testMeasurement RANGE_MEASURE_50M) LaserScan.empty
      rfl rfl).2.2.trans (by norm_num [testMeasurement]),
    (convertToLaserScan_rr_intensities
      (RangeAndReflectanceMeasurement.mk (testHeader RANGE_MEASURE_50M 3) [1000, 1000, 1000]
        [0, 0x0001, 0xFFFF]) LaserScan.empty rfl rfl).2.2.trans (by norm_num)⟩

/-- C13: for a measurement accepted by either overload of `convertToLaserScan`,
`time_increment = header.scan_beam_period / 10^9` and `scan_time = header.scan_rate / 10^6`. -/
theorem convertToLaserScan_timing (rr : RangeAndReflectanceMeasurement)
    (mr : MeasurementReport) (ls : LaserScan)
    (h1 : rr.range_data.length = rr.header.num_beams)
    (h2 : rr.reflectance_data.length = rr.header.num_beams)
    (h3 : mr.measurement_data.length = mr.header.num_beams) :
    ((rr.convertToLaserScan ls).thrown = none ∧
      (rr.convertToLaserScan ls).ls.time_increment = (rr.header.scan_beam_period : ℚ) / 10 ^ 9 ∧
      (rr.convertToLaserScan ls).ls.scan_time = (rr.header.scan_rate : ℚ) / 10 ^ 6) ∧
    ((mr.convertToLaserScan ls).thrown = none ∧
      (mr.convertToLaserScan ls).ls.time_increment = (mr.header.scan_beam_period : ℚ) / 10 ^ 9 ∧
      (mr.convertToLaserScan ls).ls.scan_time = (mr.header.scan_rate : ℚ) / 10 ^ 6) := by
  constructor
  · unfold RangeAndReflectanceMeasurement.convertToLaserScan
    rw [if_neg (by simp [h1, h2])]
    refine ⟨rfl, ?_, ?_⟩
    · show (forLoop rr.header.num_beams rr.loopBody _).time_increment = _
      rw [forLoop_preserves LaserScan.time_increment rr.loopBody
        (fun i s => (rr_loopBody_frame rr i s).1)]
      norm_num
    · show (forLoop rr.header.num_beams rr.loopBody _).scan_time = _
      rw [forLoop_preserves LaserScan.scan_time rr.loopBody
        (fun i s => (rr_loopBody_frame rr i s).2.1)]
      norm_num
  · unfold MeasurementReport.convertToLaserScan
    rw [if_neg (by simp [h3])]
    refine ⟨rfl, ?_, ?_⟩
    · show (forLoop mr.header.num_beams mr.loopBody _).time_increment = _
      rw [forLoop_preserves LaserScan.time_increment mr.loopBody
        (fun i s => (mr_loopBody_frame mr i s).1)]
      norm_num
    · show (forLoop mr.header.num_beams mr.loopBody _).scan_time = _
      rw [forLoop_preserves LaserScan.scan_time mr.loopBody
        (fun i s => (mr_loopBody_frame mr i s).2.1)]
      norm_num

theorem convertToLaserScan_timing_witness :
    ((testMeasurement RANGE_MEASURE_50M).convertToLaserScan LaserScan.empty).ls.time_increment
      = 0.000042898 ∧
    ((testMeasurement RANGE_MEASURE_50M).convertToLaserScan LaserScan.empty).ls.scan_time
      = 0.038609 ∧
    ((MeasurementReport.mk (testHeader RANGE_MEASURE_50M 2) [1000, 1253]).convertToLaserScan
      LaserScan.empty).ls.time_increment = 0.000042898 ∧
    ((MeasurementReport.mk (testHeader RANGE_MEASURE_50M 2) [1000, 1253]).convertToLaserScan
      LaserScan.empty).ls.scan_time = 0.038609 :=
  have t := convertToLaserScan_timing (testMeasurement RANGE_MEASURE_50M)
    (MeasurementReport.mk (testHeader RANGE_MEASURE_50M 2) [1000, 1253]) LaserScan.empty
    rfl rfl rfl
  ⟨t.1.2.1.trans (by norm_num [testMeasurement, testHeader]),
    t.1.2.2.trans (by norm_num [testMeasurement, testHeader]),
    t.2.2.1.trans (by norm_num [testHeader]),
    t.2.2.2.trans (by norm_num [testHeader])⟩

/-- C14: `fillLaserScanStaticConfig` sets `angle_min` to the effective start angle
`start_angle_`, `angle_max` to the effective end angle `end_angle_`, `angle_increment` to
`-ANGLE_INC` (-0.4 deg), `range_min` to 0.002 and `range_max` to 50.0; on a freshly constructed
object the effective angles are `ANGLE_MAX` and `ANGLE_MIN`. -/
theorem fillLaserScanStaticConfig_fields (self : Session) (ls : LaserScan) :
    (fillLaserScanStaticConfig self ls).angle_min = self.start_angle_ ∧
    (fillLaserScanStaticConfig self ls).angle_max = self.end_angle_ ∧
    (fillLaserScanStaticConfig self ls).angle_increment = -ANGLE_INC ∧
    -ANGLE_INC = DEG2RAD (-0.4) ∧
    (fillLaserScanStaticConfig self ls).range_min = 0.002 ∧
    (fillLaserScanStaticConfig self ls).range_max = 50.0 ∧
    Session.new.start_angle_ = ANGLE_MAX ∧
    Session.new.end_angle_ = ANGLE_MIN ∧
    (fillLaserScanStaticConfig Session.new ls).angle_min = ANGLE_MAX ∧
    (fillLaserScanStaticConfig Session.new ls).angle_max = ANGLE_MIN := by
  refine ⟨rfl, rfl, rfl, ?_, ?_, ?_, rfl, rfl, rfl, rfl⟩
  · unfold ANGLE_INC DEG2RAD
    ring
  · simp [fillLaserScanStaticConfig, DISTANCE_MIN]
  · simp [fillLaserScanStaticConfig, DISTANCE_MAX]
    norm_num

/-! ## Wire format: header -/

theorem readU16_ok (b : List Nat) (p : Nat) (h : p + 2 ≤ b.length) :
    Reader.readU16 ⟨b, p⟩ = .ok (u16At b p, ⟨b, p + 2⟩) := by
  simp [Reader.readU16, u16At, h]

theorem readU32_ok (b : List Nat) (p : Nat) (h : p + 4 ≤ b.length) :
    Reader.readU32 ⟨b, p⟩ = .ok (u32At b p, ⟨b, p + 4⟩) := by
  simp [Reader.readU32, u32At, h]

theorem skip_ok (b : List Nat) (p n : Nat) (h : p + n ≤ b.length) :
    Reader.skip ⟨b, p⟩ n = .ok ⟨b, p + n⟩ := by
  simp [Reader.skip, h]

/-- With 56 bytes left, the header is read from the offsets of the wire-format table and 56
bytes are consumed. -/
theorem header_deserialize_ok (b : List Nat) (p : Nat) (h : p + 56 ≤ b.length) :
    MeasurementReportHeader.deserialize ⟨b, p⟩ = .ok (headerAt b p, ⟨b, p + 56⟩) := by
  have e0 := readU32_ok b p (by omega)
  have e4 := readU32_ok b (p + 4) (by omega)
  have e8 := readU32_ok b (p + 8) (by omega)
  have e12 := readU32_ok b (p + 12) (by omega)
  have e16 := readU16_ok b (p + 16) (by omega)
  have e18 := readU16_ok b (p + 18) (by omega)
  have e20 := readU16_ok b (p + 20) (by omega)
  have e22 := readU16_ok b (p + 22) (by omega)
  have e24 := readU16_ok b (p + 24) (by omega)
  have e26 := readU16_ok b (p + 26) (by omega)
  have e28 := readU16_ok b (p + 28) (by omega)
  have e30 := readU16_ok b (p + 30) (by omega)
  have e32 := readU16_ok b (p + 32) (by omega)
  have e34 := readU16_ok b (p + 34) (by omega)
  have e36 := skip_ok b (p + 36) 12 (by omega)
  have e48 := readU16_ok b (p + 48) (by omega)
  have e50 := readU16_ok b (p + 50) (by omega)
  have e52 := skip_ok b (p + 52) 2 (by omega)
  have e54 := readU16_ok b (p + 54) (by omega)
  simp only [Nat.add_assoc, Nat.reduceAdd] at e0 e4 e8 e12 e16 e18 e20 e22 e24 e26
  simp only [Nat.add_assoc, Nat.reduceAdd] at e28 e30 e32 e34 e36 e48 e50 e52 e54
  simp only [MeasurementReportHeader.deserialize, bind, Except.bind, pure, Except.pure, e0, e4,
    e8, e12, e16, e18, e20, e22, e24, e26, e28, e30, e32, e34, e36, e48, e50, e52, e54, headerAt]

theorem header_serialize_eq (h : MeasurementReportHeader) :
    h.serialize =
      [h.scan_count % 256, h.scan_count / 256 % 256, h.scan_count / 65536 % 256,
        h.scan_count / 16777216 % 256,
       h.scan_rate % 256, h.scan_rate / 256 % 256, h.scan_rate / 65536 % 256,
        h.scan_rate / 16777216 % 256,
       h.scan_timestamp % 256, h.scan_timestamp / 256 % 256, h.scan_timestamp / 65536 % 256,
        h.scan_timestamp / 16777216 % 256,
       h.scan_beam_period % 256, h.scan_beam_period / 256 % 256,
        h.scan_beam_period / 65536 % 256, h.scan_beam_period / 16777216 % 256,
       h.machine_state % 256, h.machine_state / 256 % 256,
       h.machine_stop_reasons % 256, h.machine_stop_reasons / 256 % 256,
       h.active_zone_set % 256, h.active_zone_set / 256 % 256,
       h.zone_inputs % 256, h.zone_inputs / 256 % 256,
       h.detection_zone_status % 256, h.detection_zone_status / 256 % 256,
       h.output_status % 256, h.output_status / 256 % 256,
       h.input_status % 256, h.input_status / 256 % 256,
       h.display_status % 256, h.display_status / 256 % 256,
       h.non_safety_config_checksum % 256, h.non_safety_config_checksum / 256 % 256,
       h.safety_config_checksum % 256, h.safety_config_checksum / 256 % 256,
       0, 0, 0, 0, 0, 0, 0, 0, 0, 0, 0, 0,
       h.range_report_format % 256, h.range_report_format / 256 % 256,
       h.reflectivity_report_format % 256, h.reflectivity_report_format / 256 % 256,
       0, 0,
       h.num_beams % 256, h.num_beams / 256 % 256] := by
  simp [MeasurementReportHeader.serialize, encodeU16, encodeU32, List.replicate]

theorem header_serialize_length (h : MeasurementReportHeader) : h.serialize.length = 56 := by
  rw [header_serialize_eq]
  rfl

theorem headerAt_serialize (h : MeasurementReportHeader) (hv : h.InRange) :
    headerAt h.serialize 0 = h := by
  obtain ⟨h1, h2, h3, h4, h5, h6, h7, h8, h9, h10, h11, h12, h13, h14, h15, h16, h17⟩ := hv
  rw [header_serialize_eq]
  cases h
  simp only [headerAt, u32At, u16At, List.getD_cons_zero, List.getD_cons_succ, Nat.zero_add,
    Nat.reduceAdd] at *
  simp only [MeasurementReportHeader.mk.injEq]
  refine ⟨?_, ?_, ?_, ?_, ?_, ?_, ?_, ?_, ?_, ?_, ?_, ?_, ?_, ?_, ?_, ?_, ?_⟩ <;> omega

/-- C15: for every header `h` whose 17 fields fit their widths, `serialize(h)` is exactly 56
bytes and `deserialize(serialize(h))` succeeds, consumes the 56 bytes and returns a header
equal to `h`. -/
theorem header_roundtrip (h : MeasurementReportHeader) (hv : h.InRange) :
    h.serialize.length = 56 ∧
    MeasurementReportHeader.deserialize ⟨h.serialize, 0⟩ = .ok (h, ⟨h.serialize, 56⟩) := by
  refine ⟨header_serialize_length h, ?_⟩
  have hd := header_deserialize_ok h.serialize 0 (by rw [header_serialize_length])
  rw [hd, headerAt_serialize h hv]

theorem header_roundtrip_witness :
    wireTestHeader.InRange ∧
    wireTestHeader.serialize.length = 56 ∧
    MeasurementReportHeader.deserialize ⟨wireTestHeader.serialize, 0⟩ =
      .ok (wireTestHeader, ⟨wireTestHeader.serialize, 56⟩) :=
  have hv : wireTestHeader.InRange := by
    simp [MeasurementReportHeader.InRange, wireTestHeader]
  ⟨hv, header_roundtrip wireTestHeader hv⟩

/-- C16: `serialize(h)` is the 56-byte sequence with every field little-endian at its fixed
offset (`scan_count` 0, `scan_rate` 4, `scan_timestamp` 8, `scan_beam_period` 12 as `u32`;
`machine_state` 16 through `safety_config_checksum` 34, `range_report_format` 48,
`reflectivity_report_format` 50, `num_beams` 54 as `u16`) and zero in the reserved bytes
36..47 and 52..53; `getLength() = 56` is the number of bytes written. -/
theorem header_serialize_layout (h : MeasurementReportHeader) :
    h.serialize =
      [h.scan_count % 256, h.scan_count / 256 % 256, h.scan_count / 65536 % 256,
        h.scan_count / 16777216 % 256,
       h.scan_rate % 256, h.scan_rate / 256 % 256, h.scan_rate / 65536 % 256,
        h.scan_rate / 16777216 % 256,
       h.scan_timestamp % 256, h.scan_timestamp / 256 % 256, h.scan_timestamp / 65536 % 256,
        h.scan_timestamp / 16777216 % 256,
       h.scan_beam_period % 256, h.scan_beam_period / 256 % 256,
        h.scan_beam_period / 65536 % 256, h.scan_beam_period / 16777216 % 256,
       h.machine_state % 256, h.machine_state / 256 % 256,
       h.machine_stop_reasons % 256, h.machine_stop_reasons / 256 % 256,
       h.active_zone_set % 256, h.active_zone_set / 256 % 256,
       h.zone_inputs % 256, h.zone_inputs / 256 % 256,
       h.detection_zone_status % 256, h.detection_zone_status / 256 % 256,
       h.output_status % 256, h.output_status / 256 % 256,
       h.input_status % 256, h.input_status / 256 % 256,
       h.display_status % 256, h.display_status / 256 % 256,
       h.non_safety_config_checksum % 256, h.non_safety_config_checksum / 256 % 256,
       h.safety_config_checksum % 256, h.safety_config_checksum / 256 % 256,
       0, 0, 0, 0, 0, 0, 0, 0, 0, 0, 0, 0,
       h.range_report_format % 256, h.range_report_format / 256 % 256,
       h.reflectivity_report_format % 256, h.reflectivity_report_format / 256 % 256,
       0, 0,
       h.num_beams % 256, h.num_beams / 256 % 256] ∧
    (∀ i, 36 ≤ i → i ≤ 47 → h.serialize.getD i 1 = 0) ∧
    (∀ i, 52 ≤ i → i ≤ 53 → h.serialize.getD i 1 = 0) ∧
    h.getLength = 56 ∧
    h.serialize.length = h.getLength ∧
    wireTestHeader.serialize =
      [0xEF, 0xBE, 0xAD, 0xDE, 0x40, 0x9C, 0, 0, 0xAA, 0x55, 0xAA, 0x55, 0x45, 0xA9, 0, 0,
       3, 0, 7, 0, 0x45, 0, 0xAA, 0, 0x0F, 0, 0x07, 0, 0x03, 0, 0x02, 0x04, 0xAA, 0x55,
       0xA5, 0x5A, 0, 0, 0, 0, 0, 0, 0, 0, 0, 0, 0, 0, 1, 0, 1, 0, 0, 0, 0xA5, 0x02] := by
  refine ⟨header_serialize_eq h, ?_, ?_, rfl, header_serialize_length h, ?_⟩
  · intro i h1 h2
    rw [header_serialize_eq]
    interval_cases i <;> rfl
  · intro i h1 h2
    rw [header_serialize_eq]
    interval_cases i <;> rfl
  · rw [header_serialize_eq]
    simp [wireTestHeader]

/-- C17: on every byte sequence of at least 56 bytes, header `deserialize` succeeds,
consumes exactly 56 bytes and returns the fields read little-endian from their fixed offsets;
a second sequence that differs from the first only in the reserved bytes 36..47 and 52..53
deserializes to the same header. -/
theorem header_deserialize_layout (b b2 : List Nat) (hb : 56 ≤ b.length)
    (hb2 : 56 ≤ b2.length)
    (hsame : ∀ i, i < 56 → ¬ (36 ≤ i ∧ i ≤ 47) → ¬ (52 ≤ i ∧ i ≤ 53) →
      b2.getD i 0 = b.getD i 0) :
    MeasurementReportHeader.deserialize ⟨b, 0⟩ = .ok (headerAt b 0, ⟨b, 56⟩) ∧
    (headerAt b 0).scan_count =
      b.getD 0 0 + 256 * b.getD 1 0 + 65536 * b.getD 2 0 + 16777216 * b.getD 3 0 ∧
    (headerAt b 0).scan_rate =
      b.getD 4 0 + 256 * b.getD 5 0 + 65536 * b.getD 6 0 + 16777216 * b.getD 7 0 ∧
    (headerAt b 0).scan_timestamp =
      b.getD 8 0 + 256 * b.getD 9 0 + 65536 * b.getD 10 0 + 16777216 * b.getD 11 0 ∧
    (headerAt b 0).scan_beam_period =
      b.getD 12 0 + 256 * b.getD 13 0 + 65536 * b.getD 14 0 + 16777216 * b.getD 15 0 ∧
    (headerAt b 0).machine_state = b.getD 16 0 + 256 * b.getD 17 0 ∧
    (headerAt b 0).machine_stop_reasons = b.getD 18 0 + 256 * b.getD 19 0 ∧
    (headerAt b 0).active_zone_set = b.getD 20 0 + 256 * b.getD 21 0 ∧
    (headerAt b 0).zone_inputs = b.getD 22 0 + 256 * b.getD 23 0 ∧
    (headerAt b 0).detection_zone_status = b.getD 24 0 + 256 * b.getD 25 0 ∧
    (headerAt b 0).output_status = b.getD 26 0 + 256 * b.getD 27 0 ∧
    (headerAt b 0).input_status = b.getD 28 0 + 256 * b.getD 29 0 ∧
    (headerAt b 0).display_status = b.getD 30 0 + 256 * b.getD 31 0 ∧
    (headerAt b 0).non_safety_config_checksum = b.getD 32 0 + 256 * b.getD 33 0 ∧
    (headerAt b 0).safety_config_checksum = b.getD 34 0 + 256 * b.getD 35 0 ∧
    (headerAt b 0).range_report_format = b.getD 48 0 + 256 * b.getD 49 0 ∧
    (headerAt b 0).reflectivity_report_format = b.getD 50 0 + 256 * b.getD 51 0 ∧
    (headerAt b 0).num_beams = b.getD 54 0 + 256 * b.getD 55 0 ∧
    MeasurementReportHeader.deserialize ⟨b2, 0⟩ = .ok (headerAt b 0, ⟨b2, 56⟩) := by
  refine ⟨header_deserialize_ok b 0 (by omega), rfl, rfl, rfl, rfl, rfl, rfl, rfl, rfl, rfl, rfl,
    rfl, rfl, rfl, rfl, rfl, rfl, rfl, ?_⟩
  rw [header_deserialize_ok b2 0 (by omega)]
  have e : headerAt b2 0 = headerAt b 0 := by
    simp only [headerAt, u32At, u16At, Nat.zero_add, Nat.reduceAdd]
    rw [hsame 0 (by omega) (by omega) (by omega), hsame 1 (by omega) (by omega) (by omega),
      hsame 2 (by omega) (by omega) (by omega), hsame 3 (by omega) (by omega) (by omega),
      hsame 4 (by omega) (by omega) (by omega), hsame 5 (by omega) (by omega) (by omega),
      hsame 6 (by omega) (by omega) (by omega), hsame 7 (by omega) (by omega) (by omega),
      hsame 8 (by omega) (by omega) (by omega), hsame 9 (by omega) (by omega) (by omega),
      hsame 10 (by omega) (by omega) (by omega), hsame 11 (by omega) (by omega) (by omega),
      hsame 12 (by omega) (by omega) (by omega), hsame 13 (by omega) (by omega) (by omega),
      hsame 14 (by omega) (by omega) (by omega), hsame 15 (by omega) (by omega) (by omega),
      hsame 16 (by omega) (by omega) (by omega), hsame 17 (by omega) (by omega) (by omega),
      hsame 18 (by omega) (by omega) (by omega), hsame 19 (by omega) (by omega) (by omega),
      hsame 20 (by omega) (by omega) (by omega), hsame 21 (by omega) (by omega) (by omega),
      hsame 22 (by omega) (by omega) (by omega), hsame 23 (by omega) (by omega) (by omega),
      hsame 24 (by omega) (by omega) (by omega), hsame 25 (by omega) (by omega) (by omega),
      hsame 26 (by omega) (by omega) (by omega), hsame 27 (by omega) (by omega) (by omega),
      hsame 28 (by omega) (by omega) (by omega), hsame 29 (by omega) (by omega) (by omega),
      hsame 30 (by omega) (by omega) (by omega), hsame 31 (by omega) (by omega) (by omega),
      hsame 32 (by omega) (by omega) (by omega), hsame 33 (by omega) (by omega) (by omega),
      hsame 34 (by omega) (by omega) (by omega), hsame 35 (by omega) (by omega) (by omega),
      hsame 48 (by omega) (by omega) (by omega), hsame 49 (by omega) (by omega) (by omega),
      hsame 50 (by omega) (by omega) (by omega), hsame 51 (by omega) (by omega) (by omega),
      hsame 54 (by omega) (by omega) (by omega), hsame 55 (by omega) (by omega) (by omega)]
  rw [e]

theorem header_deserialize_layout_witness :
    (56 ≤ wireTestBytes.length ∧ 56 ≤ wireTestHeader.serialize.length) ∧
    MeasurementReportHeader.deserialize ⟨wireTestBytes, 0⟩ =
      .ok (wireTestHeader, ⟨wireTestBytes, 56⟩) ∧
    MeasurementReportHeader.deserialize ⟨wireTestHeader.serialize, 0⟩ =
      .ok (wireTestHeader, ⟨wireTestHeader.serialize, 56⟩) :=
  have hb : 56 ≤ wireTestBytes.length := by decide
  have hb2 : 56 ≤ wireTestHeader.serialize.length := by
    rw [header_serialize_length]
  have hsame : ∀ i, i < 56 → ¬ (36 ≤ i ∧ i ≤ 47) → ¬ (52 ≤ i ∧ i ≤ 53) →
      wireTestHeader.serialize.getD i 0 = wireTestBytes.getD i 0 := by
    intro i h1 h2 h3
    rw [header_serialize_eq]
    interval_cases i <;> first | rfl | omega
  have e : headerAt wireTestBytes 0 = wireTestHeader := by
    simp [headerAt, u32At, u16At, wireTestBytes, wireTestHeader]
  have t := header_deserialize_layout wireTestBytes wireTestHeader.serialize hb hb2 hsame
  ⟨⟨hb, hb2⟩, e ▸ t.1, e ▸ t.2.2.2.2.2.2.2.2.2.2.2.2.2.2.2.2.2.2⟩

/-! ## Wire format: reports -/

theorem arrayAt_zero (b : List Nat) (p : Nat) : arrayAt b p 0 = [] := rfl

theorem arrayAt_succ (b : List Nat) (p n : Nat) :
    arrayAt b p (n + 1) = u16At b p :: arrayAt b (p + 2) n := by
  simp only [arrayAt, List.range_succ_eq_map, List.map_cons, List.map_map, Nat.mul_zero,
    Nat.add_zero]
  congr 1
  apply List.map_congr_left
  intro i _
  simp only [Function.comp, Nat.succ_eq_add_one]
  congr 1
  omega

theorem arrayAt_length (b : List Nat) (p n : Nat) : (arrayAt b p n).length = n := by
  simp [arrayAt]

theorem arrayAt_getElem? (b : List Nat) (p n i : Nat) (h : i < n) :
    (arrayAt b p n)[i]? = some (b.getD (p + 2 * i) 0 + 256 * b.getD (p + 2 * i + 1) 0) := by
  simp [arrayAt, h, u16At]

/-- With `2 * n` bytes left, `n` values are read in order and `2 * n` bytes are consumed. -/
theorem readArray_ok (b : List Nat) (n : Nat) (p : Nat) (h : p + 2 * n ≤ b.length) :
    Reader.readArray n ⟨b, p⟩ = .ok (arrayAt b p n, ⟨b, p + 2 * n⟩) := by
  induction n generalizing p with
  | zero => rfl
  | succ n ih =>
    have e1 := readU16_ok b p (by omega)
    have e2 := ih (p + 2) (by omega)
    have e3 : p + 2 + 2 * n = p + 2 * (n + 1) := by omega
    simp only [Reader.readArray, bind, Except.bind, pure, Except.pure, e1, e2, arrayAt_succ, e3]

theorem mr_deserialize_ok (b : List Nat) (p : Nat)
    (h : p + 56 + 2 * u16At b (p + 54) ≤ b.length) :
    MeasurementReport.deserialize ⟨b, p⟩ =
      .ok ({ header := headerAt b p,
             measurement_data := arrayAt b (p + 56) (u16At b (p + 54)) },
           ⟨b, p + 56 + 2 * u16At b (p + 54)⟩) := by
  have e1 := header_deserialize_ok b p (by omega)
  have e2 := readArray_ok b (u16At b (p + 54)) (p + 56) h
  have e3 : (headerAt b p).num_beams = u16At b (p + 54) := rfl
  simp only [MeasurementReport.deserialize, bind, Except.bind, pure, Except.pure, e1, e3, e2]

theorem rr_deserialize_ok (b : List Nat) (p : Nat)
    (h : p + 56 + 4 * u16At b (p + 54) ≤ b.length) :
    RangeAndReflectanceMeasurement.deserialize ⟨b, p⟩ =
      .ok ({ header := headerAt b p,
             range_data := arrayAt b (p + 56) (u16At b (p + 54)),
             reflectance_data :=
               arrayAt b (p + 56 + 2 * u16At b (p + 54)) (u16At b (p + 54)) },
           ⟨b, p + 56 + 4 * u16At b (p + 54)⟩) := by
  have e1 := header_deserialize_ok b p (by omega)
  have e2 := readArray_ok b (u16At b (p + 54)) (p + 56) (by omega)
  have e4 := readArray_ok b (u16At b (p + 54)) (p + 56 + 2 * u16At b (p + 54)) (by omega)
  have e3 : (headerAt b p).num_beams = u16At b (p + 54) := rfl
  have e5 : p + 56 + 2 * u16At b (p + 54) + 2 * u16At b (p + 54)
      = p + 56 + 4 * u16At b (p + 54) := by omega
  simp only [RangeAndReflectanceMeasurement.deserialize, bind, Except.bind, pure, Except.pure,
    e1, e3, e2, e4, e5]

theorem flatten_encodeU16_length (l : List Nat) : (l.map encodeU16).flatten.length = 2 * l.length := by
  induction l with
  | nil => rfl
  | cons a l ih =>
    simp only [List.map_cons, List.flatten_cons, List.length_append, ih, List.length_cons,
      encodeU16, List.length_nil]
    omega

theorem flatten_encodeU16_getD (l : List Nat) (i : Nat) (h : i < l.length) :
    (l.map encodeU16).flatten.getD (2 * i) 0 = l.getD i 0 % 256 ∧
    (l.map encodeU16).flatten.getD (2 * i + 1) 0 = l.getD i 0 / 256 % 256 := by
  induction l generalizing i with
  | nil => simp at h
  | cons a l ih =>
    cases i with
    | zero => simp [encodeU16]
    | succ i =>
      have h2 : i < l.length := by simpa using h
      have e1 : 2 * (i + 1) = 2 * i + 1 + 1 := by omega
      rw [e1]
      simpa [encodeU16] using ih i h2

/-- C18: when the bytes `b` hold the 56-byte header and `2 * num_beams` payload bytes
(`num_beams` being the `u16` at offset 54), deserializing a plain report succeeds, reads the
header and then exactly `num_beams` values with
`measurement_data[i] = b[56+2i] + 256*b[57+2i]`, in order, and consumes `56 + 2*num_beams`
bytes, so that `measurement_data.size = header.num_beams`. -/
theorem measurementReport_deserialize (b : List Nat)
    (hb : 56 + 2 * (b.getD 54 0 + 256 * b.getD 55 0) ≤ b.length) :
    MeasurementReport.deserialize ⟨b, 0⟩ =
      .ok ({ header := headerAt b 0,
             measurement_data := arrayAt b 56 (b.getD 54 0 + 256 * b.getD 55 0) },
           ⟨b, 56 + 2 * (b.getD 54 0 + 256 * b.getD 55 0)⟩) ∧
    (headerAt b 0).num_beams = b.getD 54 0 + 256 * b.getD 55 0 ∧
    (arrayAt b 56 (b.getD 54 0 + 256 * b.getD 55 0)).length = (headerAt b 0).num_beams ∧
    ∀ i, i < (headerAt b 0).num_beams →
      (arrayAt b 56 (b.getD 54 0 + 256 * b.getD 55 0))[i]? =
        some (b.getD (56 + 2 * i) 0 + 256 * b.getD (57 + 2 * i) 0) := by
  have e : u16At b (0 + 54) = b.getD 54 0 + 256 * b.getD 55 0 := by simp [u16At]
  have t := mr_deserialize_ok b 0 (by rw [e]; omega)
  rw [e] at t
  simp only [Nat.zero_add] at t
  refine ⟨t, ?_, ?_, ?_⟩
  · simp [headerAt, u16At]
  · rw [arrayAt_length]
    simp [headerAt, u16At]
  · intro i hi
    have hi2 : i < b.getD 54 0 + 256 * b.getD 55 0 := by
      simpa [headerAt, u16At] using hi
    rw [arrayAt_getElem? b 56 _ i hi2]
    have : 56 + 2 * i + 1 = 57 + 2 * i := by omega
    rw [this]

theorem measurementReport_deserialize_witness :
    56 + 2 * (ioPacketReport.getD 54 0 + 256 * ioPacketReport.getD 55 0)
      ≤ ioPacketReport.length ∧
    MeasurementReport.deserialize ⟨ioPacketReport, 0⟩ =
      .ok ({ header :=
               { scan_count := 0x00045376
                 scan_rate := 0x00009664
                 scan_timestamp := 0x8a97BE18
                 scan_beam_period := 0x0000A719
                 machine_state := 3
                 machine_stop_reasons := 7
                 active_zone_set := 0
                 zone_inputs := 0
                 detection_zone_status := 0
                 output_status := 1
                 input_status := 0
                 display_status := 0x0708
                 non_safety_config_checksum := 0x3388
                 safety_config_checksum := 0x31AE
                 range_report_format := 1
                 reflectivity_report_format := 2
                 num_beams := 20 },
             measurement_data :=
               [0x0852, 0x0842, 0x0852, 0x0840, 0x0852, 0x0840, 0x0853, 0x0858, 0x0852, 0x0840,
                0x0858, 0x0858, 0x0858, 0x085E, 0x0867, 0x085D, 0x0867, 0x085E, 0x085E,
                0x086F] },
           ⟨ioPacketReport, 96⟩) :=
  have hb : 56 + 2 * (ioPacketReport.getD 54 0 + 256 * ioPacketReport.getD 55 0)
      ≤ ioPacketReport.length := by decide
  ⟨hb, (measurementReport_deserialize ioPacketReport hb).1.trans (by rfl)⟩

/-- C19: for a report whose `measurement_data` has `header.num_beams` elements,
`getLength() = 56 + 2*num_beams`, `serialize` writes exactly that many bytes, the first 56 are
the serialized header, and `measurement_data[i]` stands little-endian at offset `56 + 2i`. -/
theorem measurementReport_serialize (mr : MeasurementReport)
    (h : mr.measurement_data.length = mr.header.num_beams) :
    mr.getLength = 56 + 2 * mr.header.num_beams ∧
    mr.serialize.length = 56 + 2 * mr.header.num_beams ∧
    mr.serialize.take 56 = mr.header.serialize ∧
    ∀ i, i < mr.header.num_beams →
      mr.serialize.getD (56 + 2 * i) 0 = mr.measurement_data.getD i 0 % 256 ∧
      mr.serialize.getD (56 + 2 * i + 1) 0 = mr.measurement_data.getD i 0 / 256 % 256 := by
  refine ⟨?_, ?_, ?_, ?_⟩
  · simp [MeasurementReport.getLength, MeasurementReportHeader.getLength, h]
  · unfold MeasurementReport.serialize
    rw [List.length_append, header_serialize_length, flatten_encodeU16_length, h]
  · unfold MeasurementReport.serialize
    rw [List.take_left' (header_serialize_length mr.header)]
  · intro i hi
    have hi2 : i < mr.measurement_data.length := by omega
    have hl := header_serialize_length mr.header
    unfold MeasurementReport.serialize
    rw [List.getD_append_right _ _ _ _ (by omega), List.getD_append_right _ _ _ _ (by omega), hl]
    have e1 : 56 + 2 * i - 56 = 2 * i := by omega
    have e2 : 56 + 2 * i + 1 - 56 = 2 * i + 1 := by omega
    rw [e1, e2]
    exact flatten_encodeU16_getD mr.measurement_data i hi2

theorem measurementReport_serialize_witness :
    (MeasurementReport.mk { wireTestHeader with num_beams := 2 }
        [30000, 30001]).measurement_data.length =
      (MeasurementReport.mk { wireTestHeader with num_beams := 2 } [30000, 30001]).header.num_beams ∧
    (MeasurementReport.mk { wireTestHeader with num_beams := 2 } [30000, 30001]).getLength = 60 ∧
    (MeasurementReport.mk { wireTestHeader with num_beams := 2 } [30000, 30001]).serialize =
      [0xEF, 0xBE, 0xAD, 0xDE, 0x40, 0x9C, 0, 0, 0xAA, 0x55, 0xAA, 0x55, 0x45, 0xA9, 0, 0,
       3, 0, 7, 0, 0x45, 0, 0xAA, 0, 0x0F, 0, 0x07, 0, 0x03, 0, 0x02, 0x04, 0xAA, 0x55,
       0xA5, 0x5A, 0, 0, 0, 0, 0, 0, 0, 0, 0, 0, 0, 0, 1, 0, 1, 0, 0, 0, 2, 0,
       0x30, 0x75, 0x31, 0x75] :=
  ⟨rfl,
    (measurementReport_serialize
      (MeasurementReport.mk { wireTestHeader with num_beams := 2 } [30000, 30001]) rfl).1,
    by decide⟩

/-- C20: when the bytes `b` hold the 56-byte header and `4 * num_beams` payload bytes,
deserializing a range-and-reflectance report succeeds, reads the header, then `num_beams`
little-endian `u16` values into `range_data`, then the next `num_beams` into
`reflectance_data`, and consumes `56 + 4*num_beams` bytes; both vectors have `num_beams`
elements. -/
theorem rangeAndReflectance_deserialize (b : List Nat)
    (hb : 56 + 4 * (b.getD 54 0 + 256 * b.getD 55 0) ≤ b.length) :
    RangeAndReflectanceMeasurement.deserialize ⟨b, 0⟩ =
      .ok ({ header := headerAt b 0,
             range_data := arrayAt b 56 (b.getD 54 0 + 256 * b.getD 55 0),
             reflectance_data :=
               arrayAt b (56 + 2 * (b.getD 54 0 + 256 * b.getD 55 0))
                 (b.getD 54 0 + 256 * b.getD 55 0) },
           ⟨b, 56 + 4 * (b.getD 54 0 + 256 * b.getD 55 0)⟩) ∧
    (headerAt b 0).num_beams = b.getD 54 0 + 256 * b.getD 55 0 ∧
    (arrayAt b 56 (b.getD 54 0 + 256 * b.getD 55 0)).length = (headerAt b 0).num_beams ∧
    (arrayAt b (56 + 2 * (b.getD 54 0 + 256 * b.getD 55 0))
      (b.getD 54 0 + 256 * b.getD 55 0)).length = (headerAt b 0).num_beams ∧
    ∀ i, i < (headerAt b 0).num_beams →
      (arrayAt b 56 (b.getD 54 0 + 256 * b.getD 55 0))[i]? =
        some (b.getD (56 + 2 * i) 0 + 256 * b.getD (56 + 2 * i + 1) 0) ∧
      (arrayAt b (56 + 2 * (b.getD 54 0 + 256 * b.getD 55 0))
          (b.getD 54 0 + 256 * b.getD 55 0))[i]? =
        some (b.getD (56 + 2 * (headerAt b 0).num_beams + 2 * i) 0 +
          256 * b.getD (56 + 2 * (headerAt b 0).num_beams + 2 * i + 1) 0) := by
  have e : u16At b (0 + 54) = b.getD 54 0 + 256 * b.getD 55 0 := by simp [u16At]
  have t := rr_deserialize_ok b 0 (by rw [e]; omega)
  rw [e] at t
  simp only [Nat.zero_add] at t
  have hn : (headerAt b 0).num_beams = b.getD 54 0 + 256 * b.getD 55 0 := by
    simp [headerAt, u16At]
  refine ⟨t, hn, ?_, ?_, ?_⟩
  · rw [arrayAt_length, hn]
  · rw [arrayAt_length, hn]
  · intro i hi
    rw [hn] at hi ⊢
    exact ⟨arrayAt_getElem? b 56 _ i hi, arrayAt_getElem? b _ _ i hi⟩

theorem rangeAndReflectance_deserialize_witness :
    56 + 4 * ((wireTestBytes.take 54 ++ [2, 0, 0xE8, 0x03, 0xE5, 0x04, 0xE0, 0xAB, 0x8B,
      0xA4]).getD 54 0 + 256 * (wireTestBytes.take 54 ++ [2, 0, 0xE8, 0x03, 0xE5, 0x04, 0xE0,
      0xAB, 0x8B, 0xA4]).getD 55 0) ≤
      (wireTestBytes.take 54 ++ [2, 0, 0xE8, 0x03, 0xE5, 0x04, 0xE0, 0xAB, 0x8B, 0xA4]).length ∧
    RangeAndReflectanceMeasurement.deserialize
        ⟨wireTestBytes.take 54 ++ [2, 0, 0xE8, 0x03, 0xE5, 0x04, 0xE0, 0xAB, 0x8B, 0xA4], 0⟩ =
      .ok ({ header := { wireTestHeader with num_beams := 2 },
             range_data := [1000, 1253],
             reflectance_data := [44000, 42123] },
           ⟨wireTestBytes.take 54 ++ [2, 0, 0xE8, 0x03, 0xE5, 0x04, 0xE0, 0xAB, 0x8B, 0xA4],
            64⟩) :=
  have hb : 56 + 4 * ((wireTestBytes.take 54 ++ [2, 0, 0xE8, 0x03, 0xE5, 0x04, 0xE0, 0xAB, 0x8B,
      0xA4]).getD 54 0 + 256 * (wireTestBytes.take 54 ++ [2, 0, 0xE8, 0x03, 0xE5, 0x04, 0xE0,
      0xAB, 0x8B, 0xA4]).getD 55 0) ≤
      (wireTestBytes.take 54 ++ [2, 0, 0xE8, 0x03, 0xE5, 0x04, 0xE0, 0xAB, 0x8B,
        0xA4]).length := by decide
  ⟨hb, (rangeAndReflectance_deserialize _ hb).1.trans (by rfl)⟩

/-! ## Wire format: inputs that are too short -/

theorem readU16_err (b : List Nat) (p : Nat) (h : b.length < p + 2) :
    Reader.readU16 ⟨b, p⟩ = .error .FormatError := by
  simp [Reader.readU16]
  omega

theorem readU32_err (b : List Nat) (p : Nat) (h : b.length < p + 4) :
    Reader.readU32 ⟨b, p⟩ = .error .FormatError := by
  simp [Reader.readU32]
  omega

theorem skip_err (b : List Nat) (p n : Nat) (h : b.length < p + n) :
    Reader.skip ⟨b, p⟩ n = .error .FormatError := by
  simp [Reader.skip]
  omega

/-- A read of `k` bytes followed by a continuation that needs `m` more bytes fails with a
format error when fewer than `k + m` bytes are left. -/
theorem bind_read_err {α β : Type} (b : List Nat) (p k m : Nat)
    (x : Except ErrorKind (α × Reader)) (f : α × Reader → Except ErrorKind β) (v : α)
    (hok : p + k ≤ b.length → x = .ok (v, ⟨b, p + k⟩))
    (herr : b.length < p + k → x = .error .FormatError)
    (hf : b.length < p + k + m → p + k ≤ b.length → f (v, ⟨b, p + k⟩) = .error .FormatError)
    (h : b.length < p + k + m) : (x >>= f) = .error .FormatError := by
  by_cases hk : p + k ≤ b.length
  · rw [hok hk]
    exact hf h hk
  · rw [herr (by omega)]
    rfl

theorem bind_skip_err {β : Type} (b : List Nat) (p k m : Nat)
    (f : Reader → Except ErrorKind β)
    (hok : p + k ≤ b.length → Reader.skip ⟨b, p⟩ k = .ok ⟨b, p + k⟩)
    (herr : b.length < p + k → Reader.skip ⟨b, p⟩ k = .error .FormatError)
    (hf : b.length < p + k + m → p + k ≤ b.length → f ⟨b, p + k⟩ = .error .FormatError)
    (h : b.length < p + k + m) : (Reader.skip ⟨b, p⟩ k >>= f) = .error .FormatError := by
  by_cases hk : p + k ≤ b.length
  · rw [hok hk]
    exact hf h hk
  · rw [herr (by omega)]
    rfl

/-- With fewer than 56 bytes left, header `deserialize` fails with a format error. -/
theorem header_deserialize_err (b : List Nat) (p : Nat) (h : b.length < p + 56) :
    MeasurementReportHeader.deserialize ⟨b, p⟩ = .error .FormatError := by
  unfold MeasurementReportHeader.deserialize
  refine bind_read_err b p 4 52 _ _ (u32At b p) (readU32_ok b p) (readU32_err b p) ?_ (by omega)
  intro _ _
  simp only [Nat.add_assoc, Nat.reduceAdd]
  refine bind_read_err b (p + 4) 4 48 _ _ (u32At b (p + 4)) (readU32_ok b (p + 4)) (readU32_err b (p + 4)) ?_ (by omega)
  intro _ _
  simp only [Nat.add_assoc, Nat.reduceAdd]
  refine bind_read_err b (p + 8) 4 44 _ _ (u32At b (p + 8)) (readU32_ok b (p + 8)) (readU32_err b (p + 8)) ?_ (by omega)
  intro _ _
  simp only [Nat.add_assoc, Nat.reduceAdd]
  refine bind_read_err b (p + 12) 4 40 _ _ (u32At b (p + 12)) (readU32_ok b (p + 12)) (readU32_err b (p + 12)) ?_ (by omega)
  intro _ _
  simp only [Nat.add_assoc, Nat.reduceAdd]
  refine bind_read_err b (p + 16) 2 38 _ _ (u16At b (p + 16)) (readU16_ok b (p + 16)) (readU16_err b (p + 16)) ?_ (by omega)
  intro _ _
  simp only [Nat.add_assoc, Nat.reduceAdd]
  refine bind_read_err b (p + 18) 2 36 _ _ (u16At b (p + 18)) (readU16_ok b (p + 18)) (readU16_err b (p + 18)) ?_ (by omega)
  intro _ _
  simp only [Nat.add_assoc, Nat.reduceAdd]
  refine bind_read_err b (p + 20) 2 34 _ _ (u16At b (p + 20)) (readU16_ok b (p + 20)) (readU16_err b (p + 20)) ?_ (by omega)
  intro _ _
  simp only [Nat.add_assoc, Nat.reduceAdd]
  refine bind_read_err b (p + 22) 2 32 _ _ (u16At b (p + 22)) (readU16_ok b (p + 22)) (readU16_err b (p + 22)) ?_ (by omega)
  intro _ _
  simp only [Nat.add_assoc, Nat.reduceAdd]
  refine bind_read_err b (p + 24) 2 30 _ _ (u16At b (p + 24)) (readU16_ok b (p + 24)) (readU16_err b (p + 24)) ?_ (by omega)
  intro _ _
  simp only [Nat.add_assoc, Nat.reduceAdd]
  refine bind_read_err b (p + 26) 2 28 _ _ (u16At b (p + 26)) (readU16_ok b (p + 26)) (readU16_err b (p + 26)) ?_ (by omega)
  intro _ _
  simp only [Nat.add_assoc, Nat.reduceAdd]
  refine bind_read_err b (p + 28) 2 26 _ _ (u16At b (p + 28)) (readU16_ok b (p + 28)) (readU16_err b (p + 28)) ?_ (by omega)
  intro _ _
  simp only [Nat.add_assoc, Nat.reduceAdd]
  refine bind_read_err b (p + 30) 2 24 _ _ (u16At b (p + 30)) (readU16_ok b (p + 30)) (readU16_err b (p + 30)) ?_ (by omega)
  intro _ _
  simp only [Nat.add_assoc, Nat.reduceAdd]
  refine bind_read_err b (p + 32) 2 22 _ _ (u16At b (p + 32)) (readU16_ok b (p + 32)) (readU16_err b (p + 32)) ?_ (by omega)
  intro _ _
  simp only [Nat.add_assoc, Nat.reduceAdd]
  refine bind_read_err b (p + 34) 2 20 _ _ (u16At b (p + 34)) (readU16_ok b (p + 34)) (readU16_err b (p + 34)) ?_ (by omega)
  intro _ _
  simp only [Nat.add_assoc, Nat.reduceAdd]
  refine bind_skip_err b (p + 36) 12 8 _ (skip_ok b (p + 36) 12) (skip_err b (p + 36) 12) ?_ (by omega)
  intro _ _
  simp only [Nat.add_assoc, Nat.reduceAdd]
  refine bind_read_err b (p + 48) 2 6 _ _ (u16At b (p + 48)) (readU16_ok b (p + 48)) (readU16_err b (p + 48)) ?_ (by omega)
  intro _ _
  simp only [Nat.add_assoc, Nat.reduceAdd]
  refine bind_read_err b (p + 50) 2 4 _ _ (u16At b (p + 50)) (readU16_ok b (p + 50)) (readU16_err b (p + 50)) ?_ (by omega)
  intro _ _
  simp only [Nat.add_assoc, Nat.reduceAdd]
  refine bind_skip_err b (p + 52) 2 2 _ (skip_ok b (p + 52) 2) (skip_err b (p + 52) 2) ?_ (by omega)
  intro _ _
  simp only [Nat.add_assoc, Nat.reduceAdd]
  refine bind_read_err b (p + 54) 2 0 _ _ (u16At b (p + 54)) (readU16_ok b (p + 54)) (readU16_err b (p + 54)) ?_ (by omega)
  intro _ _
  omega
/-- With fewer than `2 * n` bytes left, reading `n` values fails with a format error. -/
theorem readArray_err (b : List Nat) (n : Nat) (p : Nat) (hp : p ≤ b.length)
    (h : b.length < p + 2 * n) : Reader.readArray n ⟨b, p⟩ = .error .FormatError := by
  induction n generalizing p with
  | zero => omega
  | succ n ih =>
    unfold Reader.readArray
    refine bind_read_err b p 2 (2 * n) _ _ (u16At b p) (readU16_ok b p) (readU16_err b p) ?_
      (by omega)
    intro h1 h2
    simp only [ih (p + 2) h2 h1]
    rfl

theorem mr_deserialize_err (b : List Nat) (p : Nat)
    (h : b.length < p + 56 + 2 * u16At b (p + 54)) :
    MeasurementReport.deserialize ⟨b, p⟩ = .error .FormatError := by
  unfold MeasurementReport.deserialize
  by_cases hh : p + 56 ≤ b.length
  · rw [header_deserialize_ok b p hh]
    have e3 : (headerAt b p).num_beams = u16At b (p + 54) := rfl
    simp only [bind, Except.bind, e3, readArray_err b _ (p + 56) hh h]
  · rw [header_deserialize_err b p (by omega)]
    rfl

theorem rr_deserialize_err (b : List Nat) (p : Nat)
    (h : b.length < p + 56 + 4 * u16At b (p + 54)) :
    RangeAndReflectanceMeasurement.deserialize ⟨b, p⟩ = .error .FormatError := by
  unfold RangeAndReflectanceMeasurement.deserialize
  by_cases hh : p + 56 ≤ b.length
  · rw [header_deserialize_ok b p hh]
    have e3 : (headerAt b p).num_beams = u16At b (p + 54) := rfl
    by_cases h2 : p + 56 + 2 * u16At b (p + 54) ≤ b.length
    · have e2 := readArray_ok b (u16At b (p + 54)) (p + 56) h2
      have e4 := readArray_err b (u16At b (p + 54)) (p + 56 + 2 * u16At b (p + 54)) h2
        (by omega)
      simp only [bind, Except.bind, e3, e2, e4]
    · have e5 := readArray_err b (u16At b (p + 54)) (p + 56) hh (by omega)
      simp only [bind, Except.bind, e3, e5]
  · rw [header_deserialize_err b p (by omega)]
    rfl

/-- C21: decoding fails with a format error, and so yields no header or report, whenever the
input is too short: header `deserialize` on fewer than 56 bytes, plain report `deserialize`
on fewer than `56 + 2*num_beams` bytes, range-and-reflectance `deserialize` on fewer than
`56 + 4*num_beams` bytes, `num_beams` being the value at offset 54. -/
theorem deserialize_too_short (b : List Nat) :
    (b.length < 56 → MeasurementReportHeader.deserialize ⟨b, 0⟩ = .error .FormatError) ∧
    (b.length < 56 + 2 * (b.getD 54 0 + 256 * b.getD 55 0) →
      MeasurementReport.deserialize ⟨b, 0⟩ = .error .FormatError) ∧
    (b.length < 56 + 4 * (b.getD 54 0 + 256 * b.getD 55 0) →
      RangeAndReflectanceMeasurement.deserialize ⟨b, 0⟩ = .error .FormatError) := by
  have e : u16At b (0 + 54) = b.getD 54 0 + 256 * b.getD 55 0 := by simp [u16At]
  refine ⟨fun h => header_deserialize_err b 0 (by omega), fun h => ?_, fun h => ?_⟩
  · exact mr_deserialize_err b 0 (by rw [e]; omega)
  · exact rr_deserialize_err b 0 (by rw [e]; omega)

theorem deserialize_too_short_witness :
    MeasurementReportHeader.deserialize ⟨wireTestBytes.take 55, 0⟩ = .error .FormatError ∧
    MeasurementReport.deserialize ⟨ioPacketReport.take 95, 0⟩ = .error .FormatError ∧
    RangeAndReflectanceMeasurement.deserialize ⟨ioPacketReport, 0⟩ = .error .FormatError :=
  ⟨(deserialize_too_short (wireTestBytes.take 55)).1 (by decide),
    (deserialize_too_short (ioPacketReport.take 95)).2.1 (by decide),
    (deserialize_too_short ioPacketReport).2.2 (by decide)⟩

/-! ## Number of beams of an accepted measurement -/

theorem rr_thrown_none_iff (rr : RangeAndReflectanceMeasurement) (ls : LaserScan) :
    (rr.convertToLaserScan ls).thrown = none ↔
      (rr.range_data.length = rr.header.num_beams ∧
        rr.reflectance_data.length = rr.header.num_beams) := by
  have h := rr_thrown_iff rr ls
  constructor
  · intro h1
    by_contra hc
    exact (h.mpr (by omega)) h1
  · intro h1
    by_contra hc
    have := h.mp hc
    omega

theorem mr_thrown_none_iff (mr : MeasurementReport) (ls : LaserScan) :
    (mr.convertToLaserScan ls).thrown = none ↔
      mr.measurement_data.length = mr.header.num_beams := by
  have h := mr_thrown_iff mr ls
  constructor
  · intro h1
    by_contra hc
    exact (h.mpr hc) h1
  · intro h1
    by_contra hc
    exact (h.mp hc) h1

theorem testReport1000_serialize_length : testReport1000.serialize.length = 2056 := by
  unfold MeasurementReport.serialize
  rw [List.length_append, header_serialize_length, flatten_encodeU16_length]
  simp [testReport1000]

theorem testReport1000_beams_on_wire :
    testReport1000.serialize.getD 54 0 + 256 * testReport1000.serialize.getD 55 0 = 1000 := by
  unfold MeasurementReport.serialize
  rw [header_serialize_eq]
  simp [testReport1000, wireTestHeader]

/-- C22 as stated fails: the measurement of `test_deserialize` has `num_beams = 1000 > 677`
and 1000 values; both overloads of `convertToLaserScan` succeed on it, and report
deserialization of its bytes returns a report with `num_beams = 1000`. -/
theorem accepts_more_than_677_beams :
    ¬ (testReport1000.header.num_beams ≤ 677) ∧
    (testReport1000.convertToLaserScan LaserScan.empty).thrown = none ∧
    ((RangeAndReflectanceMeasurement.mk testReport1000.header testReport1000.measurement_data
      testReport1000.measurement_data).convertToLaserScan LaserScan.empty).thrown = none ∧
    ∃ mr r, MeasurementReport.deserialize ⟨testReport1000.serialize, 0⟩ = .ok (mr, r) ∧
      mr.header.num_beams = 1000 ∧ ¬ (mr.header.num_beams ≤ 677) := by
  refine ⟨by simp [testReport1000], ?_, ?_, ?_⟩
  · rw [mr_thrown_none_iff]
    simp [testReport1000]
  · rw [rr_thrown_none_iff]
    simp [testReport1000]
  · have hb : 0 + 56 + 2 * u16At testReport1000.serialize (0 + 54)
        ≤ testReport1000.serialize.length := by
      have e : u16At testReport1000.serialize (0 + 54) = 1000 := by
        simpa [u16At] using testReport1000_beams_on_wire
      rw [e, testReport1000_serialize_length]
    have hn : (headerAt testReport1000.serialize 0).num_beams = 1000 := by
      simpa [headerAt, u16At] using testReport1000_beams_on_wire
    exact ⟨_, _, mr_deserialize_ok testReport1000.serialize 0 hb, hn, by rw [hn]; norm_num⟩

theorem mr_deserialize_inv (b : List Nat) (m : MeasurementReport) (r : Reader)
    (h : MeasurementReport.deserialize ⟨b, 0⟩ = .ok (m, r)) :
    m.measurement_data.length = m.header.num_beams := by
  by_cases hb : 0 + 56 + 2 * u16At b (0 + 54) ≤ b.length
  · rw [mr_deserialize_ok b 0 hb] at h
    injection h with h
    injection h with h1 h2
    subst h1
    simp [arrayAt_length, headerAt]
  · rw [mr_deserialize_err b 0 (by omega)] at h
    cases h

theorem rr_deserialize_inv (b : List Nat) (m : RangeAndReflectanceMeasurement) (r : Reader)
    (h : RangeAndReflectanceMeasurement.deserialize ⟨b, 0⟩ = .ok (m, r)) :
    m.range_data.length = m.header.num_beams ∧
    m.reflectance_data.length = m.header.num_beams := by
  by_cases hb : 0 + 56 + 4 * u16At b (0 + 54) ≤ b.length
  · rw [rr_deserialize_ok b 0 hb] at h
    injection h with h
    injection h with h1 h2
    subst h1
    simp [arrayAt_length, headerAt]
  · rw [rr_deserialize_err b 0 (by omega)] at h
    cases h

/-- C22 (amended): what the decode/assemble path checks is the number of values, not the
bound 677: `convertToLaserScan` succeeds only on a measurement whose data vectors have exactly
`header.num_beams` elements, and report deserialization returns only measurements whose data
vectors have exactly `header.num_beams` elements. -/
theorem accepted_beams_match_data (rr : RangeAndReflectanceMeasurement)
    (mr : MeasurementReport) (ls : LaserScan) (b : List Nat) :
    ((rr.convertToLaserScan ls).thrown = none →
      rr.range_data.length = rr.header.num_beams ∧
      rr.reflectance_data.length = rr.header.num_beams) ∧
    ((mr.convertToLaserScan ls).thrown = none →
      mr.measurement_data.length = mr.header.num_beams) ∧
    (∀ m r, MeasurementReport.deserialize ⟨b, 0⟩ = .ok (m, r) →
      m.measurement_data.length = m.header.num_beams) ∧
    (∀ m r, RangeAndReflectanceMeasurement.deserialize ⟨b, 0⟩ = .ok (m, r) →
      m.range_data.length = m.header.num_beams ∧
      m.reflectance_data.length = m.header.num_beams) :=
  ⟨(rr_thrown_none_iff rr ls).mp, (mr_thrown_none_iff mr ls).mp,
    fun m r h => mr_deserialize_inv b m r h, fun m r h => rr_deserialize_inv b m r h⟩

theorem accepted_beams_match_data_witness :
    ((testMeasurement RANGE_MEASURE_50M).convertToLaserScan LaserScan.empty).thrown = none ∧
    (testMeasurement RANGE_MEASURE_50M).range_data.length = 10 ∧
    (testReport1000.convertToLaserScan LaserScan.empty).thrown = none ∧
    testReport1000.measurement_data.length = 1000 :=
  have t := accepted_beams_match_data (testMeasurement RANGE_MEASURE_50M) testReport1000
    LaserScan.empty ioPacketReport
  have h1 : ((testMeasurement RANGE_MEASURE_50M).convertToLaserScan LaserScan.empty).thrown
      = none := (rr_thrown_none_iff _ _).mpr ⟨rfl, rfl⟩
  have h2 : (testReport1000.convertToLaserScan LaserScan.empty).thrown = none :=
    (mr_thrown_none_iff _ _).mpr (by simp [testReport1000])
  ⟨h1, (t.1 h1).1, h2, t.2.1 h2⟩

/-! ## The keepalive sequence number -/

theorem send_online (d : Driver) (h : d.transport.online = true) :
    (sendMeasurementReportConfigUDP d).thrown = none ∧
    (sendMeasurementReportConfigUDP d).self.transport.ioSent =
      d.transport.ioSent ++
        [[⟨0x8002, .sequencedAddress (d.transport.o_to_t_connection_id d.connection_num_)
            d.mrc_sequence_num_⟩, ⟨0x00B1, .reportConfig d.mrc_⟩]] := by
  simp [sendMeasurementReportConfigUDP, Transport.sendIOPacket, h]

theorem send_frame (d : Driver) :
    (sendMeasurementReportConfigUDP d).self.mrc_sequence_num_ =
      (d.mrc_sequence_num_ + 1) % 2 ^ 32 ∧
    (sendMeasurementReportConfigUDP d).self.connection_num_ = d.connection_num_ ∧
    (sendMeasurementReportConfigUDP d).self.mrc_ = d.mrc_ ∧
    (sendMeasurementReportConfigUDP d).self.angles = d.angles ∧
    (sendMeasurementReportConfigUDP d).self.transport.online = d.transport.online ∧
    (sendMeasurementReportConfigUDP d).self.transport.o_to_t_connection_id =
      d.transport.o_to_t_connection_id := by
  unfold sendMeasurementReportConfigUDP Transport.sendIOPacket
  refine ⟨rfl, rfl, rfl, rfl, ?_, ?_⟩ <;> (dsimp only; split <;> rfl)

/-- The object after `n` keepalive calls on a freshly constructed one. -/
theorem sendRepeatedly_fresh (mrc : MeasurementReportConfig) (t : Transport) (n : Nat) :
    (sendRepeatedly n (Driver.new mrc t)).mrc_sequence_num_ = (n + 1) % 2 ^ 32 ∧
    (sendRepeatedly n (Driver.new mrc t)).connection_num_ = -1 ∧
    (sendRepeatedly n (Driver.new mrc t)).mrc_ = mrc ∧
    (sendRepeatedly n (Driver.new mrc t)).transport.online = t.online ∧
    (sendRepeatedly n (Driver.new mrc t)).transport.o_to_t_connection_id =
      t.o_to_t_connection_id := by
  induction n with
  | zero => exact ⟨rfl, rfl, rfl, rfl, rfl⟩
  | succ n ih =>
    obtain ⟨h1, h2, h3, h4, h5⟩ := ih
    have f := send_frame (sendRepeatedly n (Driver.new mrc t))
    refine ⟨?_, ?_, ?_, ?_, ?_⟩
    · show (sendMeasurementReportConfigUDP _).self.mrc_sequence_num_ = _
      rw [f.1, h1]
      omega
    · show (sendMeasurementReportConfigUDP _).self.connection_num_ = _
      rw [f.2.1, h2]
    · show (sendMeasurementReportConfigUDP _).self.mrc_ = _
      rw [f.2.2.1, h3]
    · show (sendMeasurementReportConfigUDP _).self.transport.online = _
      rw [f.2.2.2.2.1, h4]
    · show (sendMeasurementReportConfigUDP _).self.transport.o_to_t_connection_id = _
      rw [f.2.2.2.2.2, h5]

/-- C23: on a freshly constructed object whose transport accepts the packets, the `k`-th call
of `sendMeasurementReportConfigUDP` (`k >= 1`) returns normally and sends one packet, whose
address item carries the sequence number `k mod 2^32` and whose data item carries the
configuration record. -/
theorem keepalive_sequence_number (mrc : MeasurementReportConfig) (t : Transport) (k : Nat)
    (hk : 1 ≤ k) (ht : t.online = true) :
    (sendMeasurementReportConfigUDP (sendRepeatedly (k - 1) (Driver.new mrc t))).thrown
      = none ∧
    (sendMeasurementReportConfigUDP
        (sendRepeatedly (k - 1) (Driver.new mrc t))).self.transport.ioSent =
      (sendRepeatedly (k - 1) (Driver.new mrc t)).transport.ioSent ++
        [[⟨0x8002, .sequencedAddress (t.o_to_t_connection_id (-1)) (k % 2 ^ 32)⟩,
          ⟨0x00B1, .reportConfig mrc⟩]] := by
  obtain ⟨h1, h2, h3, h4, h5⟩ := sendRepeatedly_fresh mrc t (k - 1)
  have s := send_online (sendRepeatedly (k - 1) (Driver.new mrc t)) (by rw [h4, ht])
  have e : k - 1 + 1 = k := by omega
  rw [h1, h2, h3, h5, e] at s
  exact s

theorem keepalive_sequence_number_witness :
    ((sendMeasurementReportConfigUDP
        (sendRepeatedly (1 - 1) (Driver.new .zero .idle))).self.transport.ioSent =
      (sendRepeatedly (1 - 1) (Driver.new .zero .idle)).transport.ioSent ++
        [[⟨0x8002, .sequencedAddress 0 1⟩, ⟨0x00B1, .reportConfig .zero⟩]]) ∧
    ((sendMeasurementReportConfigUDP
        (sendRepeatedly (2 - 1) (Driver.new .zero .idle))).self.transport.ioSent =
      (sendRepeatedly (2 - 1) (Driver.new .zero .idle)).transport.ioSent ++
        [[⟨0x8002, .sequencedAddress 0 2⟩, ⟨0x00B1, .reportConfig .zero⟩]]) ∧
    ((sendMeasurementReportConfigUDP
        (sendRepeatedly (2 ^ 32 - 1 - 1) (Driver.new .zero .idle))).self.transport.ioSent =
      (sendRepeatedly (2 ^ 32 - 1 - 1) (Driver.new .zero .idle)).transport.ioSent ++
        [[⟨0x8002, .sequencedAddress 0 (2 ^ 32 - 1)⟩, ⟨0x00B1, .reportConfig .zero⟩]]) ∧
    ((sendMeasurementReportConfigUDP
        (sendRepeatedly (2 ^ 32 - 1) (Driver.new .zero .idle))).self.transport.ioSent =
      (sendRepeatedly (2 ^ 32 - 1) (Driver.new .zero .idle)).transport.ioSent ++
        [[⟨0x8002, .sequencedAddress 0 0⟩, ⟨0x00B1, .reportConfig .zero⟩]]) :=
  ⟨(keepalive_sequence_number .zero .idle 1 (by norm_num) rfl).2,
    (keepalive_sequence_number .zero .idle 2 (by norm_num) rfl).2,
    (keepalive_sequence_number .zero .idle (2 ^ 32 - 1) (by norm_num) rfl).2,
    (keepalive_sequence_number .zero .idle (2 ^ 32) (by norm_num) rfl).2⟩

/-! ## Receiving a report, selecting beams, opening the I/O connection -/

/-- C25: with angles that pass validation and a transport that accepts the request,
`selectBeams` returns normally after exactly one more set-attribute request, addressed to
class 0x73, instance 1, attribute 12, whose payload is the 88 bytes of the mask that
`calcBeamMask` computes for those angles (84 bytes 0xFF, 0x1F, three zero bytes), and the
configuration record holds that same mask afterwards. -/
theorem selectBeams_request (d : Driver) (s e : ℚ)
    (h1 : s ≤ ANGLE_MAX + ANGLE_INC / 2) (h2 : ANGLE_MIN - ANGLE_INC / 2 ≤ e)
    (h3 : ANGLE_INC < s - e) (ht : d.transport.online = true) :
    (selectBeams d s e).thrown = none ∧
    (selectBeams d s e).self.transport.setRequests =
      d.transport.setRequests ++
        [⟨0x73, 1, 12, (List.range 88).map (fun i : Nat =>
          (calcBeamMask d.angles s e d.mrc_.beam_selection_mask).mask (i : Int))⟩] ∧
    ((List.range 88).map (fun i : Nat =>
        (calcBeamMask d.angles s e d.mrc_.beam_selection_mask).mask (i : Int))).length = 88 ∧
    (List.range 88).map (fun i : Nat =>
        (calcBeamMask d.angles s e d.mrc_.beam_selection_mask).mask (i : Int)) =
      List.replicate 84 0xFF ++ [0x1F, 0, 0, 0] ∧
    (selectBeams d s e).self.mrc_.maskBytes =
      (List.range 88).map (fun i : Nat =>
        (calcBeamMask d.angles s e d.mrc_.beam_selection_mask).mask (i : Int)) ∧
    (selectBeams d s e).self.mrc_.beam_selection_mask =
      (calcBeamMask d.angles s e d.mrc_.beam_selection_mask).mask := by
  obtain ⟨r, hv, -, hmask⟩ :=
    calcBeamMask_of_valid d.angles s e d.mrc_.beam_selection_mask h1 h2 h3
  have hthrown : (calcBeamMask d.angles s e d.mrc_.beam_selection_mask).thrown = none := by
    rw [hv]
  refine ⟨?_, ?_, by rw [List.length_map, List.length_range], ?_, ?_, ?_⟩
  · simp [selectBeams, hthrown, Transport.setSingleAttributeSerializable, ht]
  · simp [selectBeams, hthrown, Transport.setSingleAttributeSerializable, ht,
      MeasurementReportConfig.maskBytes]
  · rw [hv]
    apply List.ext_getElem?
    intro j
    by_cases hj : j < 88
    · have hpk := hmask (j : Int)
      simp only [List.getElem?_map, List.getElem?_range hj, Option.map_some']
      rw [hpk]
      interval_cases j <;> rfl
    · have hl : ((List.range 88).map (fun i : Nat => r.2 (i : Int))).length ≤ j := by
        rw [List.length_map, List.length_range]
        omega
      have hl2 : (List.replicate 84 0xFF ++ [0x1F, 0, 0, 0]).length ≤ j := by
        simp
        omega
      rw [List.getElem?_eq_none hl, List.getElem?_eq_none hl2]
  · simp [selectBeams, hthrown, Transport.setSingleAttributeSerializable, ht,
      MeasurementReportConfig.maskBytes]
  · simp [selectBeams, hthrown, Transport.setSingleAttributeSerializable, ht]

theorem selectBeams_request_witness :
    (selectBeams (Driver.new .zero .idle) ANGLE_MAX ANGLE_MIN).thrown = none ∧
    ((selectBeams (Driver.new .zero .idle) ANGLE_MAX ANGLE_MIN).self.transport.setRequests =
      [⟨0x73, 1, 12, List.replicate 84 0xFF ++ [0x1F, 0, 0, 0]⟩]) ∧
    (selectBeams (Driver.new .zero .idle) ANGLE_MAX ANGLE_MIN).self.mrc_.maskBytes =
      List.replicate 84 0xFF ++ [0x1F, 0, 0, 0] :=
  have h1 : ANGLE_MAX ≤ ANGLE_MAX + ANGLE_INC / 2 := by
    norm_num [ANGLE_MAX, ANGLE_INC, DEG2RAD, M_PI]
  have h2 : ANGLE_MIN - ANGLE_INC / 2 ≤ ANGLE_MIN := by
    norm_num [ANGLE_MIN, ANGLE_INC, DEG2RAD, M_PI]
  have h3 : ANGLE_INC < ANGLE_MAX - ANGLE_MIN := by
    norm_num [ANGLE_MAX, ANGLE_MIN, ANGLE_INC, DEG2RAD, M_PI]
  have t := selectBeams_request (Driver.new .zero .idle) ANGLE_MAX ANGLE_MIN h1 h2 h3 rfl
  ⟨t.1, t.2.1.trans (by rw [t.2.2.2.1]; rfl), t.2.2.2.2.1.trans t.2.2.2.1⟩

/-- C27 as stated fails: the scanner-bound requested packet interval that `startUDPIO` asks
for is `0x00177FA0 = 1540000` us (1.54 s), not 100000 us; the other parameters are as
claimed. -/
theorem startUDPIO_interval_not_100ms :
    ( startUDPIO (Driver.new .zero .idle)).self.transport.connectionRequests =
      [(⟨0x71, 0x6E, 1540000⟩, ⟨0x66, 0x584, 40000⟩)] ∧
    (( startUDPIO (Driver.new .zero .idle)).self.transport.connectionRequests.map
      (fun p => p.1.rpi)) ≠ [100000] := by
  constructor
  · rfl
  · decide

/-- C27 (amended): on a transport that accepts the call, `startUDPIO` issues one connection
request with scanner-bound assembly id 0x71, buffer size 0x6E and requested packet interval
`0x00177FA0 = 1540000` us, host-bound assembly id 0x66, buffer size 0x584 and requested
packet interval 40000 us (40 ms), and stores the connection number returned. -/
theorem startUDPIO_parameters (d : Driver) (ht : d.transport.online = true) :
    ( startUDPIO d).thrown = none ∧
    ( startUDPIO d).self.transport.connectionRequests =
      d.transport.connectionRequests ++ [(⟨0x71, 0x6E, 1540000⟩, ⟨0x66, 0x584, 40000⟩)] ∧
    ( startUDPIO d).self.connection_num_ = d.transport.nextConnection := by
  simp [ startUDPIO, Transport.createConnection, ht]

theorem startUDPIO_parameters_witness :
    ( startUDPIO (Driver.new .zero { Transport.idle with nextConnection := 3 })).thrown = none ∧
    ( startUDPIO (Driver.new .zero
        { Transport.idle with nextConnection := 3 })).self.transport.connectionRequests =
      [(⟨0x71, 0x6E, 1540000⟩, ⟨0x66, 0x584, 40000⟩)] ∧
    ( startUDPIO (Driver.new .zero
        { Transport.idle with nextConnection := 3 })).self.connection_num_ = 3 :=
  startUDPIO_parameters (Driver.new .zero { Transport.idle with nextConnection := 3 }) rfl

/-- C28: a call of `calcBeamMask` that passes validation assigns every one of the 88 mask
bytes and nothing else: bytes 0..87 of the result do not depend on the previous contents of
the buffer, and every byte before index 0 or after index 87 keeps its previous value. -/
theorem calcBeamMask_frame (self : Session) (s e : ℚ) (mask mask2 : Memory)
    (h1 : s ≤ ANGLE_MAX + ANGLE_INC / 2) (h2 : ANGLE_MIN - ANGLE_INC / 2 ≤ e)
    (h3 : ANGLE_INC < s - e) :
    (calcBeamMask self s e mask).thrown = none ∧
    (∀ i : Int, 0 ≤ i → i ≤ 87 →
      (calcBeamMask self s e mask).mask i = (calcBeamMask self s e mask2).mask i) ∧
    (∀ i : Int, i < 0 ∨ 87 < i → (calcBeamMask self s e mask).mask i = mask i) := by
  obtain ⟨r, hr, -, hmask⟩ := calcBeamMask_of_valid self s e mask h1 h2 h3
  obtain ⟨r2, hr2, -, hmask2⟩ := calcBeamMask_of_valid self s e mask2 h1 h2 h3
  rw [hr, hr2]
  refine ⟨rfl, ?_, ?_⟩
  · intro i hi0 hi
    show r.2 i = r2.2 i
    rw [hmask, hmask2]
    split_ifs <;> first | rfl | omega
  · intro i hi
    show r.2 i = mask i
    rw [hmask]
    split_ifs <;> first | rfl | omega

theorem calcBeamMask_frame_witness :
    (calcBeamMask Session.new ANGLE_MAX ANGLE_MIN (fun _ => 0xAA)).thrown = none ∧
    (∀ i : Int, 0 ≤ i → i ≤ 87 →
      (calcBeamMask Session.new ANGLE_MAX ANGLE_MIN (fun _ => 0xAA)).mask i =
        (calcBeamMask Session.new ANGLE_MAX ANGLE_MIN (fun _ => 0)).mask i) ∧
    (∀ i : Int, i < 0 ∨ 87 < i →
      (calcBeamMask Session.new ANGLE_MAX ANGLE_MIN (fun _ => 0xAA)).mask i = 0xAA) :=
  have h1 : ANGLE_MAX ≤ ANGLE_MAX + ANGLE_INC / 2 := by
    norm_num [ANGLE_MAX, ANGLE_INC, DEG2RAD, M_PI]
  have h2 : ANGLE_MIN - ANGLE_INC / 2 ≤ ANGLE_MIN := by
    norm_num [ANGLE_MIN, ANGLE_INC, DEG2RAD, M_PI]
  have h3 : ANGLE_INC < ANGLE_MAX - ANGLE_MIN := by
    norm_num [ANGLE_MAX, ANGLE_MIN, ANGLE_INC, DEG2RAD, M_PI]
  calcBeamMask_frame Session.new ANGLE_MAX ANGLE_MIN (fun _ => 0xAA) (fun _ => 0) h1 h2 h3

/-- C30: `calcBeamNumber(calcBeamCentre(k)) = k` for every beam `k` with `0 <= k <= 676`;
and `calcBeamCentre(calcBeamNumber(a)) = a` can hold only for an angle `a` that is itself a
beam centre. -/
theorem calcBeamNumber_left_inverse (k : Int) (a : ℚ) (hk0 : 0 ≤ k) (hk : k ≤ 676) :
    calcBeamNumber (calcBeamCentre k) = k ∧
    (calcBeamCentre (calcBeamNumber a) = a → ∃ n : Int, a = calcBeamCentre n) := by
  have h := ANGLE_INC_pos
  constructor
  · unfold calcBeamNumber
    apply doubleToInt_of_mem _ _ hk0 (by omega)
    · rw [le_div_iff₀ h]
      unfold calcBeamCentre
      linarith
    · rw [div_lt_iff₀ h]
      unfold calcBeamCentre
      linarith
  · intro ha
    exact ⟨calcBeamNumber a, ha.symm⟩

theorem calcBeamNumber_left_inverse_witness :
    calcBeamNumber (calcBeamCentre 0) = 0 ∧
    calcBeamNumber (calcBeamCentre 338) = 338 ∧
    calcBeamNumber (calcBeamCentre 676) = 676 ∧
    calcBeamNumber (DEG2RAD 0.1) = 338 ∧
    calcBeamCentre (calcBeamNumber (DEG2RAD 0.1)) ≠ DEG2RAD 0.1 ∧
    ¬ ∃ n : Int, DEG2RAD 0.1 = calcBeamCentre n :=
  have h338 : calcBeamNumber (DEG2RAD 0.1) = 338 := by
    apply doubleToInt_of_mem _ 338 (by norm_num) (by norm_num) <;>
      norm_num [ANGLE_MAX, ANGLE_INC, DEG2RAD, M_PI]
  have hne : calcBeamCentre (calcBeamNumber (DEG2RAD 0.1)) ≠ DEG2RAD 0.1 := by
    rw [h338]
    norm_num [calcBeamCentre, ANGLE_MAX, ANGLE_INC, DEG2RAD, M_PI]
  ⟨(calcBeamNumber_left_inverse 0 0 (by norm_num) (by norm_num)).1,
    (calcBeamNumber_left_inverse 338 0 (by norm_num) (by norm_num)).1,
    (calcBeamNumber_left_inverse 676 0 (by norm_num) (by norm_num)).1,
    h338, hne,
    fun hex => hne (by
      obtain ⟨n, hn⟩ := hex
      have hn2 : calcBeamNumber (calcBeamCentre n) = 338 := by rw [← hn]; exact h338
      have hpos := ANGLE_INC_pos
      have hq : (ANGLE_MAX - calcBeamCentre n + ANGLE_INC / 2) / ANGLE_INC = (n : ℚ) + 1 / 2 := by
        unfold calcBeamCentre
        field_simp
        ring
      unfold calcBeamNumber at hn2
      rw [hq] at hn2
      replace hn2 := doubleToInt_eq_imp _ _ (by norm_num) hn2
      have hn338 : n = 338 := by
        split_ifs at hn2 with h0
        · rw [Int.floor_eq_iff] at hn2
          have h1 := hn2.1
          have h2 := hn2.2
          have h3 : (337 : ℚ) < n := by push_cast at h1; linarith
          have h4 : (n : ℚ) < 339 := by push_cast at h2; linarith
          have h5 : (337 : Int) < n := by exact_mod_cast h3
          have h6 : n < (339 : Int) := by exact_mod_cast h4
          omega
        · rw [Int.ceil_eq_iff] at hn2
          have h1 := hn2.1
          push_cast at h1
          push_neg at h0
          linarith
      rw [h338, ← hn338, ← hn])⟩

/-! ## Bit packing for a general beam range -/

theorem toByte_high (r : Nat) (h1 : 1 ≤ r) (h2 : r ≤ 7) :
    toByte (-(shl1 (r : Int) - 1) - 1) = 256 - 2 ^ r := by
  interval_cases r <;> rfl

theorem toByte_low (t : Nat) (h : t ≤ 7) :
    toByte (shl1 ((t : Int) + 1) - 1) = 2 ^ (t + 1) - 1 := by
  interval_cases t <;> rfl

theorem testBit_high (r k : Nat) (h1 : 1 ≤ r) (h2 : r ≤ 7) (hk : k ≤ 7) :
    (256 - 2 ^ r).testBit k = decide (r ≤ k) := by
  interval_cases r <;> interval_cases k <;> rfl

theorem testBit_low (t k : Nat) (h : t ≤ 7) (hk : k ≤ 7) :
    (2 ^ (t + 1) - 1).testBit k = decide (k ≤ t) := by
  interval_cases t <;> interval_cases k <;> rfl

theorem testBit_full (k : Nat) (hk : k ≤ 7) : (0xFF : Nat).testBit k = true := by
  interval_cases k <;> rfl

theorem tdiv_cast (n : Nat) : Int.tdiv (n : Int) 8 = ((n / 8 : Nat) : Int) := by
  have := Int.ofNat_tdiv n 8
  simpa using this.symm

/-- The bytes that lines 105-135 of `calcBeamMask` leave in the mask for a start beam `s` and
an end beam `e`, when the start beam is the first bit of its byte. -/
theorem packBeams_byte_aligned (s e : Nat) (hse : s ≤ e) (he : e ≤ 676) (hr : s % 8 = 0)
    (self : Session) (mask : Memory) :
    ∃ r : Session × Memory, packBeams s e self mask = some r ∧
      ∀ j : Nat, j < 88 → r.2 j =
        if j < s / 8 then 0 else if j < e / 8 then 0xFF
        else if j = e / 8 then 2 ^ (e % 8 + 1) - 1 else 0 := by
  have hsb : (s : Int) - ((s / 8 : Nat) : Int) * 8 = 0 := by omega
  have heb : (e : Int) - ((e / 8 : Nat) : Int) * 8 + 1 = ((e % 8 : Nat) : Int) + 1 := by omega
  have hlow := toByte_low (e % 8) (by omega)
  have m1 : (if ((s / 8 : Nat) : Int) > 0 then memset mask 0 0 ((s / 8 : Nat) : Int)
      else some mask) =
      some (if ((s / 8 : Nat) : Int) > 0 then
        (fun i => if 0 ≤ i ∧ i < 0 + ((s / 8 : Nat) : Int) then 0 % 256 else mask i)
        else mask) := by
    split_ifs
    · exact memset_of_nonneg mask 0 0 _ (by omega) (by omega)
    · rfl
  have m2 := fun m : Memory => memset_of_nonneg m (((s / 8 : Nat) : Int) - 1 + 1) 0xFF
    (((e / 8 : Nat) : Int) - (((s / 8 : Nat) : Int) - 1) - 1) (by omega) (by omega)
  have m3 := fun m : Memory => memset_of_nonneg m (((e / 8 : Nat) : Int) + 1) 0
    (87 - ((e / 8 : Nat) : Int)) (by omega) (by omega)
  refine Exists.intro ?w ⟨?h1, ?h2⟩
  case h1 =>
    simp only [packBeams, tdiv_cast, hsb, ne_eq, not_true_eq_false, if_false, m1,
      Option.some_bind, m2, m3]
    exact rfl
  case h2 =>
    intro j hj
    simp only [heb, store, hlow]
    norm_num
    simp only [ite_apply]
    norm_num
    split_ifs <;> first | rfl | omega

/-- The bytes that lines 105-135 of `calcBeamMask` leave in the mask for a start beam `s` and
an end beam `e`, when the start beam is not the first bit of its byte and the end beam lies
in a later byte. -/
theorem packBeams_byte_split (s e : Nat) (he : e ≤ 676) (hr : s % 8 ≠ 0) (hac : s / 8 < e / 8)
    (self : Session) (mask : Memory) :
    ∃ r : Session × Memory, packBeams s e self mask = some r ∧
      ∀ j : Nat, j < 88 → r.2 j =
        if j < s / 8 then 0 else if j = s / 8 then 256 - 2 ^ (s % 8)
        else if j < e / 8 then 0xFF
        else if j = e / 8 then 2 ^ (e % 8 + 1) - 1 else 0 := by
  have hsb : (s : Int) - ((s / 8 : Nat) : Int) * 8 = ((s % 8 : Nat) : Int) := by omega
  have hsb0 : ¬ (((s % 8 : Nat) : Int) = 0) := by omega
  have heb : (e : Int) - ((e / 8 : Nat) : Int) * 8 + 1 = ((e % 8 : Nat) : Int) + 1 := by omega
  have hlow := toByte_low (e % 8) (by omega)
  have hhigh := toByte_high (s % 8) (by omega) (by omega)
  have m1 : (if ((s / 8 : Nat) : Int) > 0 then memset mask 0 0 ((s / 8 : Nat) : Int)
      else some mask) =
      some (if ((s / 8 : Nat) : Int) > 0 then
        (fun i => if 0 ≤ i ∧ i < 0 + ((s / 8 : Nat) : Int) then 0 % 256 else mask i)
        else mask) := by
    split_ifs
    · exact memset_of_nonneg mask 0 0 _ (by omega) (by omega)
    · rfl
  have m2 := fun m : Memory => memset_of_nonneg m (((s / 8 : Nat) : Int) + 1) 0xFF
    (((e / 8 : Nat) : Int) - ((s / 8 : Nat) : Int) - 1) (by omega) (by omega)
  have m3 := fun m : Memory => memset_of_nonneg m (((e / 8 : Nat) : Int) + 1) 0
    (87 - ((e / 8 : Nat) : Int)) (by omega) (by omega)
  refine Exists.intro ?w ⟨?h1, ?h2⟩
  case h1 =>
    simp only [packBeams, tdiv_cast, hsb, ne_eq, hsb0, not_false_eq_true, if_true, m1,
      Option.some_bind, m2, m3]
    exact rfl
  case h2 =>
    intro j hj
    simp only [heb, store, hlow, hhigh]
    norm_num
    simp only [ite_apply]
    norm_num
    split_ifs <;> first | rfl | omega

/-- For every start beam `s` and end beam `e` with `0 <= s <= e <= 676` such that `s` is the
first bit of its byte or `e` lies in a later byte than `s`, the steps complete and yield an
88-byte mask in which bit `i` (byte `i/8`, bit `i mod 8`) is set exactly when `s <= i <= e`;
in particular bits 677..703 are zero. -/
theorem packBeams_bits (s e : Nat) (hse : s ≤ e) (he : e ≤ 676)
    (hok : s % 8 = 0 ∨ s / 8 < e / 8) (self : Session) (mask : Memory) :
    ∃ r : Session × Memory, packBeams s e self mask = some r ∧
      ∀ i : Nat, i < 704 →
        ((Nat.testBit (r.2 ((i / 8 : Nat) : Int)) (i % 8) = true ↔ (s ≤ i ∧ i ≤ e)) ∧
        (677 ≤ i → Nat.testBit (r.2 ((i / 8 : Nat) : Int)) (i % 8) = false)) := by
  have main : ∃ r : Session × Memory, packBeams s e self mask = some r ∧
      ∀ i : Nat, i < 704 →
        (Nat.testBit (r.2 ((i / 8 : Nat) : Int)) (i % 8) = true ↔ (s ≤ i ∧ i ≤ e)) := by
    by_cases hr : s % 8 = 0
    · obtain ⟨r, hr1, hr2⟩ := packBeams_byte_aligned s e hse he hr self mask
      refine ⟨r, hr1, fun i hi => ?_⟩
      have hj : i / 8 < 88 := by omega
      have hk : i % 8 ≤ 7 := by omega
      rw [hr2 (i / 8) hj]
      split_ifs with c1 c2 c3
      · simp only [Nat.zero_testBit]
        constructor
        · intro h
          cases h
        · intro h
          omega
      · rw [testBit_full _ hk]
        constructor
        · intro _
          omega
        · intro _
          rfl
      · rw [testBit_low (e % 8) (i % 8) (by omega) hk, decide_eq_true_iff]
        omega
      · simp only [Nat.zero_testBit]
        constructor
        · intro h
          cases h
        · intro h
          omega
    · have hac : s / 8 < e / 8 := by
        rcases hok with h | h
        · exact absurd h hr
        · exact h
      obtain ⟨r, hr1, hr2⟩ := packBeams_byte_split s e he hr hac self mask
      refine ⟨r, hr1, fun i hi => ?_⟩
      have hj : i / 8 < 88 := by omega
      have hk : i % 8 ≤ 7 := by omega
      rw [hr2 (i / 8) hj]
      split_ifs with c1 c2 c3 c4
      · simp only [Nat.zero_testBit]
        constructor
        · intro h
          cases h
        · intro h
          omega
      · rw [testBit_high (s % 8) (i % 8) (by omega) (by omega) hk, decide_eq_true_iff]
        omega
      · rw [testBit_full _ hk]
        constructor
        · intro _
          omega
        · intro _
          rfl
      · rw [testBit_low (e % 8) (i % 8) (by omega) hk, decide_eq_true_iff]
        omega
      · simp only [Nat.zero_testBit]
        constructor
        · intro h
          cases h
        · intro h
          omega
  obtain ⟨r, hr1, key⟩ := main
  refine ⟨r, hr1, fun i hi => ⟨key i hi, fun h677 => ?_⟩⟩
  cases hb : Nat.testBit (r.2 ((i / 8 : Nat) : Int)) (i % 8) with
  | false => rfl
  | true =>
    have := (key i hi).mp hb
    omega

theorem calcBeamCentre_zero : calcBeamCentre 0 = ANGLE_MAX := by
  simp [calcBeamCentre]

theorem calcBeamCentre_last : calcBeamCentre 676 = ANGLE_MIN := by
  rw [calcBeamCentre, ANGLE_MAX_eq, ANGLE_MIN_eq]
  push_cast
  ring

/-- A call of `calcBeamMask`, returning or throwing, keeps the effective angles at
`ANGLE_MAX` and `ANGLE_MIN`. -/
theorem calcBeamMask_keeps_full_range (self : Session) (s e : ℚ) (mask : Memory)
    (h : self.start_angle_ = ANGLE_MAX ∧ self.end_angle_ = ANGLE_MIN) :
    (calcBeamMask self s e mask).self.start_angle_ = ANGLE_MAX ∧
    (calcBeamMask self s e mask).self.end_angle_ = ANGLE_MIN := by
  by_cases h1 : s > ANGLE_MAX + ANGLE_INC / 2
  · simpa [calcBeamMask, h1] using h
  · by_cases h2 : e < ANGLE_MIN - ANGLE_INC / 2
    · simpa [calcBeamMask, h1, h2] using h
    · by_cases h3 : s - e ≤ ANGLE_INC
      · simpa [calcBeamMask, h1, h2, h3] using h
      · obtain ⟨r, hr, hself, -⟩ := calcBeamMask_accept self s e mask h1 h2 h3
        rw [hr]
        show r.1.start_angle_ = ANGLE_MAX ∧ r.1.end_angle_ = ANGLE_MIN
        rw [hself]
        exact ⟨calcBeamCentre_zero, calcBeamCentre_last⟩

theorem afterMaskCalls_full_range (calls : List (ℚ × ℚ × Memory)) (self : Session)
    (h : self.start_angle_ = ANGLE_MAX ∧ self.end_angle_ = ANGLE_MIN) :
    (afterMaskCalls calls self).start_angle_ = ANGLE_MAX ∧
    (afterMaskCalls calls self).end_angle_ = ANGLE_MIN := by
  induction calls generalizing self with
  | nil => exact h
  | cons c rest ih =>
    obtain ⟨s, e, m⟩ := c
    exact ih _ (calcBeamMask_keeps_full_range self s e m h)

/-- C32: on a freshly constructed object and after any succession of calls of `calcBeamMask`,
returning or throwing, the static fields that `fillLaserScanStaticConfig` reports satisfy
`angle_max = angle_min + 676 * angle_increment`, with `angle_min` = +135.2 deg,
`angle_increment` = -0.4 deg and `angle_max` = -135.2 deg. -/
theorem static_fields_consistent (calls : List (ℚ × ℚ × Memory)) (ls : LaserScan) :
    (fillLaserScanStaticConfig (afterMaskCalls calls Session.new) ls).angle_max =
      (fillLaserScanStaticConfig (afterMaskCalls calls Session.new) ls).angle_min +
        676 * (fillLaserScanStaticConfig (afterMaskCalls calls Session.new) ls).angle_increment ∧
    (fillLaserScanStaticConfig (afterMaskCalls calls Session.new) ls).angle_min
      = DEG2RAD 135.2 ∧
    (fillLaserScanStaticConfig (afterMaskCalls calls Session.new) ls).angle_increment
      = DEG2RAD (-0.4) ∧
    (fillLaserScanStaticConfig (afterMaskCalls calls Session.new) ls).angle_max
      = DEG2RAD (-135.2) ∧
    (fillLaserScanStaticConfig Session.new ls).angle_max =
      (fillLaserScanStaticConfig Session.new ls).angle_min +
        676 * (fillLaserScanStaticConfig Session.new ls).angle_increment := by
  obtain ⟨h1, h2⟩ := afterMaskCalls_full_range calls Session.new ⟨rfl, rfl⟩
  have hmin : (fillLaserScanStaticConfig (afterMaskCalls calls Session.new) ls).angle_min
      = ANGLE_MAX := h1
  have hmax : (fillLaserScanStaticConfig (afterMaskCalls calls Session.new) ls).angle_max
      = ANGLE_MIN := h2
  have hinc : (fillLaserScanStaticConfig (afterMaskCalls calls Session.new) ls).angle_increment
      = -ANGLE_INC := rfl
  have hmin0 : (fillLaserScanStaticConfig Session.new ls).angle_min = ANGLE_MAX := rfl
  have hmax0 : (fillLaserScanStaticConfig Session.new ls).angle_max = ANGLE_MIN := rfl
  have hinc0 : (fillLaserScanStaticConfig Session.new ls).angle_increment = -ANGLE_INC := rfl
  rw [hmin, hmax, hinc, hmin0, hmax0, hinc0]
  refine ⟨?_, rfl, ?_, rfl, ?_⟩
  · rw [ANGLE_MAX_eq, ANGLE_MIN_eq]
    ring
  · unfold ANGLE_INC DEG2RAD
    ring
  · rw [ANGLE_MAX_eq, ANGLE_MIN_eq]
    ring

theorem mr_convert_frame (mr : MeasurementReport) (ls : LaserScan)
    (h3 : mr.measurement_data.length = mr.header.num_beams) :
    (mr.convertToLaserScan ls).ls.intensities = ls.intensities ∧
    (mr.convertToLaserScan ls).ls.angle_min = ls.angle_min ∧
    (mr.convertToLaserScan ls).ls.angle_max = ls.angle_max ∧
    (mr.convertToLaserScan ls).ls.angle_increment = ls.angle_increment ∧
    (mr.convertToLaserScan ls).ls.range_min = ls.range_min ∧
    (mr.convertToLaserScan ls).ls.range_max = ls.range_max := by
  unfold MeasurementReport.convertToLaserScan
  rw [if_neg (by simp [h3])]
  refine ⟨?_, ?_, ?_, ?_, ?_, ?_⟩
  · show (forLoop mr.header.num_beams mr.loopBody _).intensities = _
    rw [forLoop_preserves LaserScan.intensities mr.loopBody
      (fun i s => (mr_loopBody_frame mr i s).2.2.2.2.2.2.2)]
  · show (forLoop mr.header.num_beams mr.loopBody _).angle_min = _
    rw [forLoop_preserves LaserScan.angle_min mr.loopBody
      (fun i s => (mr_loopBody_frame mr i s).2.2.1)]
  · show (forLoop mr.header.num_beams mr.loopBody _).angle_max = _
    rw [forLoop_preserves LaserScan.angle_max mr.loopBody
      (fun i s => (mr_loopBody_frame mr i s).2.2.2.1)]
  · show (forLoop mr.header.num_beams mr.loopBody _).angle_increment = _
    rw [forLoop_preserves LaserScan.angle_increment mr.loopBody
      (fun i s => (mr_loopBody_frame mr i s).2.2.2.2.1)]
  · show (forLoop mr.header.num_beams mr.loopBody _).range_min = _
    rw [forLoop_preserves LaserScan.range_min mr.loopBody
      (fun i s => (mr_loopBody_frame mr i s).2.2.2.2.2.1)]
  · show (forLoop mr.header.num_beams mr.loopBody _).range_max = _
    rw [forLoop_preserves LaserScan.range_max mr.loopBody
      (fun i s => (mr_loopBody_frame mr i s).2.2.2.2.2.2.1)]

theorem rr_convert_frame (rr : RangeAndReflectanceMeasurement) (ls : LaserScan)
    (h1 : rr.range_data.length = rr.header.num_beams)
    (h2 : rr.reflectance_data.length = rr.header.num_beams) :
    (rr.convertToLaserScan ls).ls.angle_min = ls.angle_min ∧
    (rr.convertToLaserScan ls).ls.angle_max = ls.angle_max ∧
    (rr.convertToLaserScan ls).ls.angle_increment = ls.angle_increment ∧
    (rr.convertToLaserScan ls).ls.range_min = ls.range_min ∧
    (rr.convertToLaserScan ls).ls.range_max = ls.range_max := by
  unfold RangeAndReflectanceMeasurement.convertToLaserScan
  rw [if_neg (by simp [h1, h2])]
  refine ⟨?_, ?_, ?_, ?_, ?_⟩
  · show (forLoop rr.header.num_beams rr.loopBody _).angle_min = _
    rw [forLoop_preserves LaserScan.angle_min rr.loopBody
      (fun i s => (rr_loopBody_frame rr i s).2.2.1)]
  · show (forLoop rr.header.num_beams rr.loopBody _).angle_max = _
    rw [forLoop_preserves LaserScan.angle_max rr.loopBody
      (fun i s => (rr_loopBody_frame rr i s).2.2.2.1)]
  · show (forLoop rr.header.num_beams rr.loopBody _).angle_increment = _
    rw [forLoop_preserves LaserScan.angle_increment rr.loopBody
      (fun i s => (rr_loopBody_frame rr i s).2.2.2.2.1)]
  · show (forLoop rr.header.num_beams rr.loopBody _).range_min = _
    rw [forLoop_preserves LaserScan.range_min rr.loopBody
      (fun i s => (rr_loopBody_frame rr i s).2.2.2.2.2.1)]
  · show (forLoop rr.header.num_beams rr.loopBody _).range_max = _
    rw [forLoop_preserves LaserScan.range_max rr.loopBody
      (fun i s => (rr_loopBody_frame rr i s).2.2.2.2.2.2)]

/-- C33: a `convertToLaserScan` that returns without throwing leaves the static fields alone:
the plain-report overload leaves `intensities`, `angle_min`, `angle_max`, `angle_increment`,
`range_min` and `range_max` unchanged; the range-and-reflectance overload leaves `angle_min`,
`angle_max`, `angle_increment`, `range_min` and `range_max` unchanged. -/
theorem convertToLaserScan_frame (rr : RangeAndReflectanceMeasurement)
    (mr : MeasurementReport) (ls : LaserScan) :
    ((mr.convertToLaserScan ls).thrown = none →
      (mr.convertToLaserScan ls).ls.intensities = ls.intensities ∧
      (mr.convertToLaserScan ls).ls.angle_min = ls.angle_min ∧
      (mr.convertToLaserScan ls).ls.angle_max = ls.angle_max ∧
      (mr.convertToLaserScan ls).ls.angle_increment = ls.angle_increment ∧
      (mr.convertToLaserScan ls).ls.range_min = ls.range_min ∧
      (mr.convertToLaserScan ls).ls.range_max = ls.range_max) ∧
    ((rr.convertToLaserScan ls).thrown = none →
      (rr.convertToLaserScan ls).ls.angle_min = ls.angle_min ∧
      (rr.convertToLaserScan ls).ls.angle_max = ls.angle_max ∧
      (rr.convertToLaserScan ls).ls.angle_increment = ls.angle_increment ∧
      (rr.convertToLaserScan ls).ls.range_min = ls.range_min ∧
      (rr.convertToLaserScan ls).ls.range_max = ls.range_max) :=
  ⟨fun h => mr_convert_frame mr ls ((mr_thrown_none_iff mr ls).mp h),
    fun h => rr_convert_frame rr ls ((rr_thrown_none_iff rr ls).mp h).1
      ((rr_thrown_none_iff rr ls).mp h).2⟩

theorem convertToLaserScan_frame_witness :
    ((testMeasurement RANGE_MEASURE_50M).convertToLaserScan
      (fillLaserScanStaticConfig Session.new LaserScan.empty)).thrown = none ∧
    ((MeasurementReport.mk (testHeader RANGE_MEASURE_50M 2) [1000, 1253]).convertToLaserScan
        ((testMeasurement RANGE_MEASURE_50M).convertToLaserScan
          (fillLaserScanStaticConfig Session.new LaserScan.empty)).ls).thrown = none ∧
    ((MeasurementReport.mk (testHeader RANGE_MEASURE_50M 2) [1000, 1253]).convertToLaserScan
        ((testMeasurement RANGE_MEASURE_50M).convertToLaserScan
          (fillLaserScanStaticConfig Session.new LaserScan.empty)).ls).ls.intensities =
      ((testMeasurement RANGE_MEASURE_50M).convertToLaserScan
          (fillLaserScanStaticConfig Session.new LaserScan.empty)).ls.intensities ∧
    ((testMeasurement RANGE_MEASURE_50M).convertToLaserScan
      (fillLaserScanStaticConfig Session.new LaserScan.empty)).ls.angle_min = ANGLE_MAX ∧
    ((testMeasurement RANGE_MEASURE_50M).convertToLaserScan
      (fillLaserScanStaticConfig Session.new LaserScan.empty)).ls.range_max = DISTANCE_MAX :=
  have hrr : ((testMeasurement RANGE_MEASURE_50M).convertToLaserScan
      (fillLaserScanStaticConfig Session.new LaserScan.empty)).thrown = none := rfl
  have hmr : ((MeasurementReport.mk (testHeader RANGE_MEASURE_50M 2)
      [1000, 1253]).convertToLaserScan
        ((testMeasurement RANGE_MEASURE_50M).convertToLaserScan
          (fillLaserScanStaticConfig Session.new LaserScan.empty)).ls).thrown = none := rfl
  ⟨hrr, hmr,
    ((convertToLaserScan_frame (testMeasurement RANGE_MEASURE_50M)
      (MeasurementReport.mk (testHeader RANGE_MEASURE_50M 2) [1000, 1253])
      ((testMeasurement RANGE_MEASURE_50M).convertToLaserScan
        (fillLaserScanStaticConfig Session.new LaserScan.empty)).ls).1 hmr).1,
    ((convertToLaserScan_frame (testMeasurement RANGE_MEASURE_50M)
      (MeasurementReport.mk (testHeader RANGE_MEASURE_50M 2) [1000, 1253])
      (fillLaserScanStaticConfig Session.new LaserScan.empty)).2 hrr).1,
    ((convertToLaserScan_frame (testMeasurement RANGE_MEASURE_50M)
      (MeasurementReport.mk (testHeader RANGE_MEASURE_50M 2) [1000, 1253])
      (fillLaserScanStaticConfig Session.new LaserScan.empty)).2 hrr).2.2.2.2⟩

/-- C35: `setRangeFormat(f)` and `setReflectivityFormat(f)` issue one set-attribute request to
class 0x73, instance 1, attribute 4 (resp. 5); when the transport accepts it the
configuration record has `range_report_format` (resp. `reflectivity_report_format`) equal to
`f` and every other member as before; when the transport call fails the exception leaves the
method and the whole configuration record is unchanged. -/
theorem set_format (d : Driver) (f : Nat) :
    (d.transport.online = true →
      (setRangeFormat d f).thrown = none ∧
      (setRangeFormat d f).self.mrc_ = { d.mrc_ with range_report_format := f } ∧
      (setRangeFormat d f).self.mrc_.range_report_format = f ∧
      (setRangeFormat d f).self.mrc_.reflectivity_report_format =
        d.mrc_.reflectivity_report_format ∧
      (setRangeFormat d f).self.mrc_.beam_selection_mask = d.mrc_.beam_selection_mask ∧
      (setRangeFormat d f).self.transport.setRequests =
        d.transport.setRequests ++ [⟨0x73, 1, 4, encodeU16 f⟩] ∧
      (setReflectivityFormat d f).thrown = none ∧
      (setReflectivityFormat d f).self.mrc_ = { d.mrc_ with reflectivity_report_format := f } ∧
      (setReflectivityFormat d f).self.mrc_.reflectivity_report_format = f ∧
      (setReflectivityFormat d f).self.mrc_.range_report_format = d.mrc_.range_report_format ∧
      (setReflectivityFormat d f).self.mrc_.beam_selection_mask =
        d.mrc_.beam_selection_mask ∧
      (setReflectivityFormat d f).self.transport.setRequests =
        d.transport.setRequests ++ [⟨0x73, 1, 5, encodeU16 f⟩]) ∧
    (d.transport.online = false →
      (setRangeFormat d f).thrown ≠ none ∧ (setRangeFormat d f).self.mrc_ = d.mrc_ ∧
      (setReflectivityFormat d f).thrown ≠ none ∧
      (setReflectivityFormat d f).self.mrc_ = d.mrc_) := by
  constructor
  · intro ht
    simp [setRangeFormat, setReflectivityFormat, Transport.setSingleAttribute,
      Transport.setSingleAttributeSerializable, ht]
  · intro ht
    simp [setRangeFormat, setReflectivityFormat, Transport.setSingleAttribute,
      Transport.setSingleAttributeSerializable, ht]

theorem set_format_witness :
    (setRangeFormat (Driver.new .zero .idle) RANGE_MEASURE_TOF_4PS).thrown = none ∧
    (setRangeFormat (Driver.new .zero .idle) RANGE_MEASURE_TOF_4PS).self.mrc_.range_report_format
      = 5 ∧
    (setRangeFormat (Driver.new .zero .idle)
      RANGE_MEASURE_TOF_4PS).self.transport.setRequests = [⟨0x73, 1, 4, [5, 0]⟩] ∧
    (setReflectivityFormat (Driver.new .zero .idle) 1).self.transport.setRequests =
      [⟨0x73, 1, 5, [1, 0]⟩] ∧
    (setRangeFormat (Driver.new .zero { Transport.idle with online := false })
      RANGE_MEASURE_TOF_4PS).thrown ≠ none ∧
    (setRangeFormat (Driver.new .zero { Transport.idle with online := false })
      RANGE_MEASURE_TOF_4PS).self.mrc_ = MeasurementReportConfig.zero :=
  have t := (set_format (Driver.new .zero .idle) RANGE_MEASURE_TOF_4PS).1 rfl
  have t1 := (set_format (Driver.new .zero .idle) 1).1 rfl
  have u := (set_format (Driver.new .zero { Transport.idle with online := false })
    RANGE_MEASURE_TOF_4PS).2 rfl
  ⟨t.1, t.2.2.1, t.2.2.2.2.2.1, t1.2.2.2.2.2.2.2.2.2.2.2, u.1, u.2.1⟩

/-! ## Rounding to binary64 -/

theorem pow2_eq (e : Int) : Binary64.pow2 e = (2 : ℚ) ^ e := by
  unfold Binary64.pow2
  split_ifs with h
  · obtain ⟨n, rfl⟩ := Int.eq_ofNat_of_zero_le h
    simp
  · push_neg at h
    obtain ⟨n, hn⟩ := Int.eq_ofNat_of_zero_le (show 0 ≤ -e by omega)
    have he : e = -(n : Int) := by omega
    rw [hn, he]
    simp

theorem ulp_eq (x : ℚ) : Binary64.ulp x = 2 ^ (Binary64.exponent x - 52) := by
  unfold Binary64.ulp
  rw [pow2_eq]

theorem searchExp_spec (fuel : Nat) (lo : Int) (y : ℚ) (h1 : (2 : ℚ) ^ lo ≤ y)
    (h2 : y < (2 : ℚ) ^ (lo + 2 ^ fuel)) :
    (2 : ℚ) ^ Binary64.searchExp fuel lo y ≤ y ∧
      y < (2 : ℚ) ^ (Binary64.searchExp fuel lo y + 1) := by
  induction fuel generalizing lo with
  | zero =>
    simp only [Binary64.searchExp]
    exact ⟨h1, by simpa using h2⟩
  | succ f ih =>
    simp only [Binary64.searchExp, pow2_eq]
    split_ifs with c
    · apply ih _ c
      have e : lo + 2 ^ f + 2 ^ f = lo + 2 ^ (f + 1) := by ring
      rw [e]
      exact h2
    · exact ih lo h1 (lt_of_not_le c)

/-- The bisection computes `Int.log 2 |x|`. -/
theorem ilog2_eq_log (x : ℚ) : Binary64.ilog2 x = Int.log 2 |x| := by
  unfold Binary64.ilog2
  simp only [pow2_eq]
  split_ifs with c
  · have hpos : (0 : ℚ) < |x| := lt_of_lt_of_le (zpow_pos (by norm_num) _) c.1
    have key : ∀ r : Int, ((2 : ℚ) ^ r ≤ |x| ∧ |x| < (2 : ℚ) ^ (r + 1)) →
        r = Int.log 2 |x| := by
      intro r hr
      have l1 := (Int.zpow_le_iff_le_log (b := 2) (by norm_num) hpos).mp
        (by exact_mod_cast hr.1)
      have l2 := (Int.lt_zpow_iff_log_lt (b := 2) (by norm_num) hpos).mp
        (by exact_mod_cast hr.2)
      omega
    apply key
    apply searchExp_spec 12 _ |x| c.1
    change |x| < (2 : ℚ) ^ (2048 : Int)
    exact c.2
  · rfl

theorem exponent_eq_log (x : ℚ) : Binary64.exponent x = max (Int.log 2 |x|) (-1022) := by
  unfold Binary64.exponent
  rw [ilog2_eq_log]

theorem two_pow_mul_zpow (n : Nat) (e : Int) :
    (((2 ^ n : Int) : ℚ)) * 2 ^ (e - 52) = 2 ^ (e - 52 + n) := by
  push_cast
  rw [zpow_add₀ (by norm_num), zpow_natCast]
  ring

theorem roundHalfEven_mem (q : ℚ) :
    Binary64.roundHalfEven q = ⌊q⌋ ∨ Binary64.roundHalfEven q = ⌊q⌋ + 1 := by
  unfold Binary64.roundHalfEven
  split_ifs <;> simp

theorem roundHalfEven_intCast (n : Int) : Binary64.roundHalfEven (n : ℚ) = n := by
  unfold Binary64.roundHalfEven
  simp

theorem roundHalfEven_mono {q1 q2 : ℚ} (h : q1 ≤ q2) :
    Binary64.roundHalfEven q1 ≤ Binary64.roundHalfEven q2 := by
  rcases lt_or_eq_of_le (Int.floor_mono h) with hlt | heq
  · rcases roundHalfEven_mem q1 with h1 | h1 <;> rcases roundHalfEven_mem q2 with h2 | h2 <;>
      omega
  · unfold Binary64.roundHalfEven
    rw [← heq]
    split_ifs <;> first | omega | (exfalso; linarith)

theorem roundHalfEven_err (q : ℚ) : |(Binary64.roundHalfEven q : ℚ) - q| ≤ 1 / 2 := by
  have h1 := Int.floor_le q
  have h2 := Int.lt_floor_add_one q
  rw [abs_le]
  unfold Binary64.roundHalfEven
  split_ifs <;> push_cast <;> constructor <;> linarith

theorem roundHalfEven_neg (q : ℚ) :
    Binary64.roundHalfEven (-q) = -Binary64.roundHalfEven q := by
  have h1 := Int.floor_le q
  have h2 := Int.lt_floor_add_one q
  rcases eq_or_lt_of_le h1 with he | hl
  · rw [← he, ← Int.cast_neg, roundHalfEven_intCast, roundHalfEven_intCast]
  · have hf : ⌊-q⌋ = -⌊q⌋ - 1 := by
      rw [Int.floor_eq_iff]
      push_cast
      constructor <;> linarith
    unfold Binary64.roundHalfEven
    rw [hf]
    push_cast
    split_ifs <;> first | omega | (exfalso; linarith)

theorem ulp_pos (x : ℚ) : 0 < Binary64.ulp x := by
  rw [ulp_eq]
  exact zpow_pos (by norm_num) _

theorem fl_zero : Binary64.fl 0 = 0 := by
  unfold Binary64.fl
  rw [zero_div, ← Int.cast_zero, roundHalfEven_intCast]
  simp

theorem fl_neg (x : ℚ) : Binary64.fl (-x) = -Binary64.fl x := by
  unfold Binary64.fl
  simp only [ulp_eq]
  rw [exponent_eq_log, exponent_eq_log x, abs_neg, neg_div, roundHalfEven_neg]
  push_cast
  ring

theorem fl_nonneg {x : ℚ} (hx : 0 ≤ x) : 0 ≤ Binary64.fl x := by
  unfold Binary64.fl
  have h0 : (0 : Int) ≤ Binary64.roundHalfEven (x / Binary64.ulp x) := by
    have := roundHalfEven_mono (div_nonneg hx (ulp_pos x).le)
    rwa [← Int.cast_zero, roundHalfEven_intCast] at this
  exact mul_nonneg (by exact_mod_cast h0) (ulp_pos x).le

theorem abs_lt_exponent (x : ℚ) : |x| < 2 ^ (Binary64.exponent x + 1) := by
  have h := Int.lt_zpow_succ_log_self (b := 2) (by norm_num) |x|
  refine lt_of_lt_of_le h ?_
  push_cast
  apply zpow_le_zpow_right₀ (by norm_num)
  rw [exponent_eq_log]
  have := le_max_left (Int.log 2 |x|) (-1022)
  omega

theorem exponent_le_abs {x : ℚ} (hx : x ≠ 0) (hn : -1022 ≤ Int.log 2 |x|) :
    2 ^ Binary64.exponent x ≤ |x| := by
  have h := Int.zpow_log_le_self (b := 2) (by norm_num) (abs_pos.mpr hx)
  rw [exponent_eq_log, max_eq_left hn]
  exact_mod_cast h

theorem exponent_mono {x y : ℚ} (hx : 0 < x) (hxy : x ≤ y) : Binary64.exponent x ≤ Binary64.exponent y := by
  rw [exponent_eq_log, exponent_eq_log]
  have hy : 0 < y := lt_of_lt_of_le hx hxy
  rw [abs_of_pos hx, abs_of_pos hy]
  exact max_le_max (Int.log_mono_right hx hxy) le_rfl

theorem fl_le_of_pos {x : ℚ} (hx : 0 < x) : Binary64.fl x ≤ 2 ^ (Binary64.exponent x + 1) := by
  have hu := ulp_pos x
  have h1 : x / Binary64.ulp x ≤ ((2 ^ 53 : Int) : ℚ) := by
    rw [div_le_iff₀ hu]
    have := abs_lt_exponent x
    rw [abs_of_pos hx] at this
    have e : (((2 ^ 53 : Int) : ℚ)) * Binary64.ulp x = 2 ^ (Binary64.exponent x + 1) := by
      simp only [ulp_eq]
      rw [two_pow_mul_zpow]
      congr 1
      push_cast
      ring
    rw [e]
    exact this.le
  have h2 := roundHalfEven_mono h1
  rw [roundHalfEven_intCast] at h2
  unfold Binary64.fl
  calc (Binary64.roundHalfEven (x / Binary64.ulp x) : ℚ) * Binary64.ulp x ≤ ((2 ^ 53 : Int) : ℚ) * Binary64.ulp x :=
        mul_le_mul_of_nonneg_right (by exact_mod_cast h2) hu.le
    _ = 2 ^ (Binary64.exponent x + 1) := by
      simp only [ulp_eq]
      rw [two_pow_mul_zpow]
      congr 1
      push_cast
      ring

theorem le_fl_of_pos {x : ℚ} (hx : 0 < x) (hn : -1022 ≤ Int.log 2 |x|) :
    2 ^ Binary64.exponent x ≤ Binary64.fl x := by
  have hu := ulp_pos x
  have e : (((2 ^ 52 : Int) : ℚ)) * Binary64.ulp x = 2 ^ Binary64.exponent x := by
    simp only [ulp_eq]
    rw [two_pow_mul_zpow]
    congr 1
    push_cast
    ring
  have h1 : ((2 ^ 52 : Int) : ℚ) ≤ x / Binary64.ulp x := by
    rw [le_div_iff₀ hu, e]
    have := exponent_le_abs hx.ne.symm hn
    rwa [abs_of_pos hx] at this
  have h2 := roundHalfEven_mono h1
  rw [roundHalfEven_intCast] at h2
  unfold Binary64.fl
  calc (2 : ℚ) ^ Binary64.exponent x = ((2 ^ 52 : Int) : ℚ) * Binary64.ulp x := e.symm
    _ ≤ (Binary64.roundHalfEven (x / Binary64.ulp x) : ℚ) * Binary64.ulp x :=
        mul_le_mul_of_nonneg_right (by exact_mod_cast h2) hu.le

theorem fl_mono_of_pos {x y : ℚ} (hx : 0 < x) (hxy : x ≤ y) : Binary64.fl x ≤ Binary64.fl y := by
  have hy : 0 < y := lt_of_lt_of_le hx hxy
  rcases eq_or_lt_of_le (exponent_mono hx hxy) with he | hl
  · have hu : Binary64.ulp x = Binary64.ulp y := by simp only [ulp_eq]; rw [he]
    unfold Binary64.fl
    rw [hu]
    have := roundHalfEven_mono (div_le_div_of_nonneg_right hxy (ulp_pos y).le)
    exact mul_le_mul_of_nonneg_right (by exact_mod_cast this) (ulp_pos y).le
  · have hn : -1022 ≤ Int.log 2 |y| := by
      by_contra hc
      have h1 : Binary64.exponent y = -1022 := by
        rw [exponent_eq_log]
        exact max_eq_right (by omega)
      have h2 : -1022 ≤ Binary64.exponent x := by
        rw [exponent_eq_log]
        exact le_max_right _ _
      omega
    calc Binary64.fl x ≤ 2 ^ (Binary64.exponent x + 1) := fl_le_of_pos hx
      _ ≤ 2 ^ Binary64.exponent y := zpow_le_zpow_right₀ (by norm_num) (by omega)
      _ ≤ Binary64.fl y := le_fl_of_pos hy hn

/-- Rounding to binary64 is monotone. -/
theorem fl_mono {x y : ℚ} (hxy : x ≤ y) : Binary64.fl x ≤ Binary64.fl y := by
  rcases lt_trichotomy 0 x with hx | hx | hx
  · exact fl_mono_of_pos hx hxy
  · subst hx
    rw [fl_zero]
    exact fl_nonneg hxy
  · rcases le_or_lt 0 y with hy | hy
    · have h1 : Binary64.fl x ≤ 0 := by
        have := fl_nonneg (x := -x) (by linarith)
        rw [fl_neg] at this
        linarith
      exact le_trans h1 (fl_nonneg hy)
    · have := fl_mono_of_pos (x := -y) (y := -x) (by linarith) (by linarith)
      rw [fl_neg, fl_neg] at this
      linarith

/-- Absolute rounding error in a binade. -/
theorem fl_err (x : ℚ) (E : Int) (hE : -1022 ≤ E) (hx : |x| < 2 ^ (E + 1)) :
    |Binary64.fl x - x| ≤ 2 ^ (E - 53) := by
  rcases eq_or_ne x 0 with h0 | h0
  · subst h0
    rw [fl_zero]
    simp
    exact (zpow_pos (by norm_num) _).le
  · have hu := ulp_pos x
    have hlog : Int.log 2 |x| < E + 1 := by
      rw [← Int.lt_zpow_iff_log_lt (by norm_num) (abs_pos.mpr h0)]
      exact_mod_cast hx
    have he : Binary64.exponent x ≤ E := by
      rw [exponent_eq_log]
      exact max_le (by omega) hE
    have h1 : Binary64.fl x - x = ((Binary64.roundHalfEven (x / Binary64.ulp x) : ℚ) - x / Binary64.ulp x) * Binary64.ulp x := by
      unfold Binary64.fl
      field_simp
    rw [h1, abs_mul, abs_of_pos hu]
    have h2 := roundHalfEven_err (x / Binary64.ulp x)
    have h3 : Binary64.ulp x ≤ 2 ^ (E - 52) := by
      simp only [ulp_eq]
      exact zpow_le_zpow_right₀ (by norm_num) (by omega)
    have h4 : (2 : ℚ) ^ (E - 53) = 1 / 2 * 2 ^ (E - 52) := by
      rw [show E - 52 = (E - 53) + 1 by ring, zpow_add₀ (by norm_num)]
      ring
    rw [h4]
    exact mul_le_mul h2 h3 hu.le (by norm_num)


/-! ## The geometry constants in binary64 -/

theorem b64_M_PI : Binary64.M_PI = 884279719003555 / 281474976710656 := by decide!

theorem b64_ANGLE_MAX : Binary64.ANGLE_MAX = 2656769289095125 / 1125899906842624 := by decide!

theorem b64_ANGLE_MIN : Binary64.ANGLE_MIN = -2656769289095125 / 1125899906842624 := by decide!

theorem b64_ANGLE_INC : Binary64.ANGLE_INC = 8048910508974581 / 1152921504606846976 := by
  decide!

theorem b64_half_INC :
    Binary64.div Binary64.ANGLE_INC 2 = 8048910508974581 / 2305843009213693952 := by decide!

theorem b64_half_INC_exact : Binary64.div Binary64.ANGLE_INC 2 = Binary64.ANGLE_INC / 2 := by
  rw [b64_half_INC, b64_ANGLE_INC]
  norm_num

theorem b64_ANGLE_INC_pos : 0 < Binary64.ANGLE_INC := by
  rw [b64_ANGLE_INC]
  norm_num

/-! ## Order of the beam numbers in binary64 -/

/-- The quotient that `calcBeamNumber` converts does not increase with the angle. -/
theorem beamQuotient_antitone {a1 a2 : ℚ} (h : a1 ≤ a2) :
    Binary64.beamQuotient a2 ≤ Binary64.beamQuotient a1 := by
  unfold Binary64.beamQuotient Binary64.div Binary64.add Binary64.sub
  apply fl_mono
  apply div_le_div_of_nonneg_right _ b64_ANGLE_INC_pos.le
  apply fl_mono
  apply add_le_add_right
  apply fl_mono
  linarith

/-- Conversion of a `double` to `int` is monotone below `2^31`. -/
theorem doubleToInt_mono (x y : ℚ) (h : x ≤ y) (hy : y < 2 ^ 31) :
    doubleToInt x ≤ doubleToInt y := by
  have hxy : (if 0 ≤ x then ⌊x⌋ else ⌈x⌉) ≤ (if 0 ≤ y then ⌊y⌋ else ⌈y⌉) := by
    split_ifs with hx hy0 hy0
    · exact Int.floor_mono h
    · exact absurd (le_trans hx h) hy0
    · have h1 : ⌈x⌉ ≤ 0 := by
        rw [Int.ceil_le]
        push_neg at hx
        exact_mod_cast hx.le
      have h2 : 0 ≤ ⌊y⌋ := Int.floor_nonneg.mpr hy0
      omega
    · exact Int.ceil_mono h
  have hty : (if 0 ≤ y then ⌊y⌋ else ⌈y⌉) < 2 ^ 31 := by
    split_ifs with hy0
    · rw [Int.floor_lt]
      exact_mod_cast hy
    · have h1 : ⌈y⌉ ≤ 0 := by
        rw [Int.ceil_le]
        push_neg at hy0
        exact_mod_cast hy0.le
      omega
  unfold doubleToInt
  simp only
  generalize (if 0 ≤ x then ⌊x⌋ else ⌈x⌉) = tx at hxy ⊢
  generalize (if 0 ≤ y then ⌊y⌋ else ⌈y⌉) = ty at hxy hty ⊢
  split_ifs <;> omega

/-- In binary64 `calcBeamNumber` does not increase with the angle, as long as the quotient of
the smaller angle is below `2^31`. -/
theorem b64_calcBeamNumber_antitone_of_lt {a1 a2 : ℚ} (h : a1 ≤ a2)
    (hq : Binary64.beamQuotient a1 < 2 ^ 31) :
    Binary64.calcBeamNumber a2 ≤ Binary64.calcBeamNumber a1 :=
  doubleToInt_mono _ _ (beamQuotient_antitone h) hq

theorem b64_lower_end :
    Binary64.sub Binary64.ANGLE_MIN (Binary64.div Binary64.ANGLE_INC 2) =
      -2660699421179585 / 1125899906842624 := by decide!

theorem b64_upper_end :
    Binary64.add Binary64.ANGLE_MAX (Binary64.div Binary64.ANGLE_INC 2) =
      2660699421179585 / 1125899906842624 := by decide!

theorem b64_quotient_lower_end :
    Binary64.beamQuotient (-2660699421179585 / 1125899906842624) < 677 := by decide!

theorem b64_quotient_upper_end :
    -1 < Binary64.beamQuotient (2660699421179585 / 1125899906842624) := by decide!

/-- Between the two ends of the extended range the beam number is a beam index. -/
theorem b64_range_of_bounds (a : ℚ) (h1 : -2660699421179585 / 1125899906842624 ≤ a)
    (h2 : a ≤ 2660699421179585 / 1125899906842624) :
    0 ≤ Binary64.calcBeamNumber a ∧ Binary64.calcBeamNumber a ≤ 676 ∧
      Binary64.beamQuotient a < 677 := by
  have q1 := lt_of_le_of_lt (beamQuotient_antitone h1) b64_quotient_lower_end
  have q2 := lt_of_lt_of_le b64_quotient_upper_end (beamQuotient_antitone h2)
  have ht : 0 ≤ (if 0 ≤ Binary64.beamQuotient a then ⌊Binary64.beamQuotient a⌋
      else ⌈Binary64.beamQuotient a⌉) ∧
      (if 0 ≤ Binary64.beamQuotient a then ⌊Binary64.beamQuotient a⌋
        else ⌈Binary64.beamQuotient a⌉) ≤ 676 := by
    split_ifs with h0
    · constructor
      · exact Int.floor_nonneg.mpr h0
      · have : ⌊Binary64.beamQuotient a⌋ < 677 := by
          rw [Int.floor_lt]
          exact_mod_cast q1
        omega
    · push_neg at h0
      have c1 : ⌈Binary64.beamQuotient a⌉ ≤ 0 := by
        rw [Int.ceil_le]
        exact_mod_cast h0.le
      have c2 : -1 < ⌈Binary64.beamQuotient a⌉ := by
        rw [Int.lt_ceil]
        exact_mod_cast q2
      omega
  refine ⟨?_, ?_, q1⟩
  · unfold Binary64.calcBeamNumber doubleToInt
    simp only
    generalize (if 0 ≤ Binary64.beamQuotient a then ⌊Binary64.beamQuotient a⌋
      else ⌈Binary64.beamQuotient a⌉) = t at ht ⊢
    rw [if_pos ⟨by omega, by omega⟩]
    exact ht.1
  · unfold Binary64.calcBeamNumber doubleToInt
    simp only
    generalize (if 0 ≤ Binary64.beamQuotient a then ⌊Binary64.beamQuotient a⌋
      else ⌈Binary64.beamQuotient a⌉) = t at ht ⊢
    rw [if_pos ⟨by omega, by omega⟩]
    exact ht.2

/-- C7: for every `double` `a` with `ANGLE_MIN - ANGLE_INC/2 <= a <= ANGLE_MAX + ANGLE_INC/2`,
`calcBeamNumber(a)`, evaluated in binary64, is a beam index: `0 <= calcBeamNumber(a) <= 676`.
The bounds are compared as real numbers; the `double` values that the two bound expressions
evaluate to lie inside them. -/
theorem b64_calcBeamNumber_range (a : ℚ) (ha : Binary64.fl a = a)
    (hlo : Binary64.ANGLE_MIN - Binary64.ANGLE_INC / 2 ≤ a)
    (hhi : a ≤ Binary64.ANGLE_MAX + Binary64.ANGLE_INC / 2) :
    0 ≤ Binary64.calcBeamNumber a ∧ Binary64.calcBeamNumber a ≤ 676 := by
  have h1 : Binary64.sub Binary64.ANGLE_MIN (Binary64.div Binary64.ANGLE_INC 2) ≤ a := by
    rw [b64_half_INC_exact]
    unfold Binary64.sub
    rw [← ha]
    exact fl_mono hlo
  have h2 : a ≤ Binary64.add Binary64.ANGLE_MAX (Binary64.div Binary64.ANGLE_INC 2) := by
    rw [b64_half_INC_exact]
    unfold Binary64.add
    rw [← ha]
    exact fl_mono hhi
  rw [b64_lower_end] at h1
  rw [b64_upper_end] at h2
  exact ⟨(b64_range_of_bounds a h1 h2).1, (b64_range_of_bounds a h1 h2).2.1⟩

theorem b64_calcBeamNumber_range_witness :
    Binary64.sub Binary64.ANGLE_MIN (Binary64.div Binary64.ANGLE_INC 2) =
      -2660699421179585 / 1125899906842624 ∧
    Binary64.calcBeamNumber (-2660699421179585 / 1125899906842624) = 676 ∧
    (0 ≤ Binary64.calcBeamNumber (-2660699421179585 / 1125899906842624) ∧
      Binary64.calcBeamNumber (-2660699421179585 / 1125899906842624) ≤ 676) :=
  ⟨by decide!, by decide!,
    b64_calcBeamNumber_range (-2660699421179585 / 1125899906842624) (by decide!)
      (by rw [b64_ANGLE_MIN, b64_ANGLE_INC]; norm_num)
      (by rw [b64_ANGLE_MAX, b64_ANGLE_INC]; norm_num)⟩

/-- C34 as stated fails: `-1.0e10 <= 0`, yet `calcBeamNumber(-1.0e10)` is `INT_MIN` (the
quotient, about 1.4e12, is beyond the range of `int`) and `calcBeamNumber(0)` is 338. -/
theorem b64_calcBeamNumber_not_antitone :
    (-10000000000 : ℚ) ≤ 0 ∧
    Binary64.fl (-10000000000) = -10000000000 ∧
    (2 : ℚ) ^ 31 ≤ Binary64.beamQuotient (-10000000000) ∧
    Binary64.calcBeamNumber (-10000000000) = -2147483648 ∧
    Binary64.calcBeamNumber 0 = 338 ∧
    ¬ Binary64.calcBeamNumber (-10000000000) ≥ Binary64.calcBeamNumber 0 := by decide!

theorem b64_quotient_at_minus_1e7 : Binary64.beamQuotient (-10000000) < 2 ^ 31 := by decide!

theorem b64_quotient_at_1e7 : -2 ^ 31 < Binary64.beamQuotient 10000000 := by decide!

/-- C34 (amended): in binary64, for angles `a1 <= a2` between `-1.0e7` and `1.0e7` (where
the quotient is within the range of `int`), `calcBeamNumber(a1) >= calcBeamNumber(a2)`,
and the two results are above `INT_MIN`. -/
theorem b64_calcBeamNumber_antitone (a1 a2 : ℚ) (h1 : -10000000 ≤ a1) (h : a1 ≤ a2)
    (h2 : a2 ≤ 10000000) :
    Binary64.calcBeamNumber a1 ≥ Binary64.calcBeamNumber a2 ∧
      -2 ^ 31 < Binary64.calcBeamNumber a2 := by
  have q1 : Binary64.beamQuotient a1 < 2 ^ 31 :=
    lt_of_le_of_lt (beamQuotient_antitone h1) b64_quotient_at_minus_1e7
  have q2 : -2 ^ 31 < Binary64.beamQuotient a2 :=
    lt_of_lt_of_le b64_quotient_at_1e7 (beamQuotient_antitone h2)
  have q3 : Binary64.beamQuotient a2 < 2 ^ 31 :=
    lt_of_le_of_lt (beamQuotient_antitone h) q1
  refine ⟨b64_calcBeamNumber_antitone_of_lt h q1, ?_⟩
  have ht : -2 ^ 31 < (if 0 ≤ Binary64.beamQuotient a2 then ⌊Binary64.beamQuotient a2⌋
      else ⌈Binary64.beamQuotient a2⌉) ∧
      (if 0 ≤ Binary64.beamQuotient a2 then ⌊Binary64.beamQuotient a2⌋
        else ⌈Binary64.beamQuotient a2⌉) < 2 ^ 31 := by
    split_ifs with h0
    · constructor
      · have := Int.floor_nonneg.mpr h0
        omega
      · rw [Int.floor_lt]
        exact_mod_cast q3
    · push_neg at h0
      constructor
      · rw [Int.lt_ceil]
        exact_mod_cast q2
      · have c1 : ⌈Binary64.beamQuotient a2⌉ ≤ 0 := by
          rw [Int.ceil_le]
          exact_mod_cast h0.le
        omega
  unfold Binary64.calcBeamNumber doubleToInt
  simp only
  generalize (if 0 ≤ Binary64.beamQuotient a2 then ⌊Binary64.beamQuotient a2⌋
    else ⌈Binary64.beamQuotient a2⌉) = t at ht ⊢
  rw [if_pos ⟨by omega, by omega⟩]
  exact ht.1

theorem b64_calcBeamNumber_antitone_witness :
    Binary64.add Binary64.ANGLE_MAX (Binary64.div Binary64.ANGLE_INC 2) <
      Binary64.add Binary64.ANGLE_MAX Binary64.ANGLE_INC ∧
    Binary64.calcBeamNumber (Binary64.add Binary64.ANGLE_MAX Binary64.ANGLE_INC) = 0 ∧
    Binary64.calcBeamNumber
      (Binary64.add Binary64.ANGLE_MAX (Binary64.mul 2 Binary64.ANGLE_INC)) = -1 ∧
    (Binary64.calcBeamNumber (Binary64.add Binary64.ANGLE_MAX Binary64.ANGLE_INC) ≥
      Binary64.calcBeamNumber
        (Binary64.add Binary64.ANGLE_MAX (Binary64.mul 2 Binary64.ANGLE_INC)) ∧
      -2 ^ 31 < Binary64.calcBeamNumber
        (Binary64.add Binary64.ANGLE_MAX (Binary64.mul 2 Binary64.ANGLE_INC))) :=
  ⟨by decide!, by decide!, by decide!,
    b64_calcBeamNumber_antitone _ _ (by decide!) (by decide!) (by decide!)⟩

/-! ## The guards of `calcBeamMask` in binary64 -/

theorem fl_near_of_lt_4 (x : ℚ) (h1 : -4 < x) (h2 : x < 4) :
    -(1 / 4503599627370496 : ℚ) ≤ Binary64.fl x - x ∧
      Binary64.fl x - x ≤ 1 / 4503599627370496 := by
  have h := fl_err x 1 (by norm_num) (by
    rw [abs_lt]
    norm_num
    exact ⟨h1, h2⟩)
  rw [abs_le] at h
  norm_num at h
  constructor <;> linarith [h.1, h.2]

theorem fl_near_of_lt_8 (x : ℚ) (h1 : -8 < x) (h2 : x < 8) :
    -(1 / 2251799813685248 : ℚ) ≤ Binary64.fl x - x ∧
      Binary64.fl x - x ≤ 1 / 2251799813685248 := by
  have h := fl_err x 2 (by norm_num) (by
    rw [abs_lt]
    norm_num
    exact ⟨h1, h2⟩)
  rw [abs_le] at h
  norm_num at h
  constructor <;> linarith [h.1, h.2]

theorem fl_near_of_lt_1024 (x : ℚ) (h1 : -1024 < x) (h2 : x < 1024) :
    -(1 / 17592186044416 : ℚ) ≤ Binary64.fl x - x ∧
      Binary64.fl x - x ≤ 1 / 17592186044416 := by
  have h := fl_err x 9 (by norm_num) (by
    rw [abs_lt]
    norm_num
    exact ⟨h1, h2⟩)
  rw [abs_le] at h
  norm_num at h
  constructor <;> linarith [h.1, h.2]

/-- For an angle within `[-3, 3]` the quotient computed in binary64 differs from the exact
quotient of the same `double` constants by at most `2^-42`. -/
theorem beamQuotient_near (a : ℚ) (h1 : -3 ≤ a) (h2 : a ≤ 3) :
    (Binary64.ANGLE_MAX - a + Binary64.ANGLE_INC / 2) / Binary64.ANGLE_INC
        - 1 / 4398046511104 ≤ Binary64.beamQuotient a ∧
    Binary64.beamQuotient a ≤
      (Binary64.ANGLE_MAX - a + Binary64.ANGLE_INC / 2) / Binary64.ANGLE_INC
        + 1 / 4398046511104 := by
  unfold Binary64.beamQuotient
  rw [b64_half_INC]
  unfold Binary64.div Binary64.add Binary64.sub
  rw [b64_ANGLE_MAX, b64_ANGLE_INC]
  obtain ⟨e1, e2⟩ := fl_near_of_lt_8 (2656769289095125 / 1125899906842624 - a)
    (by linarith) (by linarith)
  obtain ⟨e3, e4⟩ := fl_near_of_lt_8
    (Binary64.fl (2656769289095125 / 1125899906842624 - a) +
      8048910508974581 / 2305843009213693952) (by linarith) (by linarith)
  obtain ⟨e5, e6⟩ := fl_near_of_lt_1024
    ((Binary64.fl (Binary64.fl (2656769289095125 / 1125899906842624 - a) +
      8048910508974581 / 2305843009213693952)) /
      (8048910508974581 / 1152921504606846976)) (by linarith) (by linarith)
  constructor <;> linarith

/-- The beam centre computed in binary64 lies within `3 * 2^-52` of
`ANGLE_MAX - k * ANGLE_INC`. -/
theorem calcBeamCentre_near (k : Int) (hk0 : 0 ≤ k) (hk : k ≤ 676) :
    Binary64.ANGLE_MAX - k * Binary64.ANGLE_INC - 3 / 4503599627370496 ≤
        Binary64.calcBeamCentre k ∧
    Binary64.calcBeamCentre k ≤
      Binary64.ANGLE_MAX - k * Binary64.ANGLE_INC + 3 / 4503599627370496 := by
  have k0 : (0 : ℚ) ≤ k := by exact_mod_cast hk0
  have k1 : (k : ℚ) ≤ 676 := by exact_mod_cast hk
  unfold Binary64.calcBeamCentre Binary64.sub Binary64.mul
  rw [b64_ANGLE_MAX, b64_ANGLE_INC]
  obtain ⟨e1, e2⟩ := fl_near_of_lt_8 ((k : ℚ) * (8048910508974581 / 1152921504606846976))
    (by linarith) (by linarith)
  obtain ⟨e3, e4⟩ := fl_near_of_lt_4 (2656769289095125 / 1125899906842624 -
    Binary64.fl ((k : ℚ) * (8048910508974581 / 1152921504606846976)))
    (by linarith) (by linarith)
  constructor <;> linarith

/-! ## Angle to beam number in binary64 -/

/-- In binary64 the centre of every beam `k` of `0..676` is mapped back to `k`. -/
theorem b64_calcBeamNumber_of_centre (k : Int) (hk0 : 0 ≤ k) (hk : k ≤ 676) :
    Binary64.calcBeamNumber (Binary64.calcBeamCentre k) = k := by
  have k0 : (0 : ℚ) ≤ k := by exact_mod_cast hk0
  have k1 : (k : ℚ) ≤ 676 := by exact_mod_cast hk
  obtain ⟨c1, c2⟩ := calcBeamCentre_near k hk0 hk
  rw [b64_ANGLE_MAX, b64_ANGLE_INC] at c1 c2
  obtain ⟨q1, q2⟩ := beamQuotient_near (Binary64.calcBeamCentre k) (by linarith) (by linarith)
  rw [b64_ANGLE_MAX, b64_ANGLE_INC] at q1 q2
  unfold Binary64.calcBeamNumber
  apply doubleToInt_of_mem _ k hk0 (by omega)
  · linarith
  · linarith

/-- C5 as stated fails: the `double` -1.637118838370681 lies strictly inside the acceptance
window of beam 572, with the window ends taken exactly or in `double` arithmetic, and
`calcBeamNumber` maps it to beam 573. -/
theorem b64_calcBeamNumber_window_fails :
    ((0 : Int) ≤ 572 ∧ (572 : Int) ≤ 676) ∧
    Binary64.fl (-1.637118838370681) = -3686463895223709 / 2251799813685248 ∧
    Binary64.calcBeamCentre 572 - Binary64.ANGLE_INC / 2 <
      -3686463895223709 / 2251799813685248 ∧
    (-3686463895223709 / 2251799813685248 : ℚ) <
      Binary64.calcBeamCentre 572 + Binary64.ANGLE_INC / 2 ∧
    Binary64.sub (Binary64.calcBeamCentre 572) (Binary64.div Binary64.ANGLE_INC 2) <
      -3686463895223709 / 2251799813685248 ∧
    (-3686463895223709 / 2251799813685248 : ℚ) <
      Binary64.add (Binary64.calcBeamCentre 572) (Binary64.div Binary64.ANGLE_INC 2) ∧
    Binary64.calcBeamNumber (-3686463895223709 / 2251799813685248) = 573 ∧
    Binary64.calcBeamNumber (-3686463895223709 / 2251799813685248) ≠ 572 := by decide!

/-- C5 (amended): an angle `a` that lies in the acceptance window of beam `k`
(`0 <= k <= 676`) at least `1e-14` rad away from both window ends,
`calcBeamCentre(k) - ANGLE_INC/2 + 1e-14 <= a <= calcBeamCentre(k) + ANGLE_INC/2 - 1e-14`,
has `calcBeamNumber(a) = k` in binary64. -/
theorem b64_calcBeamNumber_in_window (k : Int) (a : ℚ) (hk0 : 0 ≤ k) (hk : k ≤ 676)
    (hlo : Binary64.calcBeamCentre k - Binary64.ANGLE_INC / 2 + 1e-14 ≤ a)
    (hhi : a ≤ Binary64.calcBeamCentre k + Binary64.ANGLE_INC / 2 - 1e-14) :
    Binary64.calcBeamNumber a = k := by
  have k0 : (0 : ℚ) ≤ k := by exact_mod_cast hk0
  have k1 : (k : ℚ) ≤ 676 := by exact_mod_cast hk
  obtain ⟨c1, c2⟩ := calcBeamCentre_near k hk0 hk
  rw [b64_ANGLE_MAX, b64_ANGLE_INC] at c1 c2
  rw [b64_ANGLE_INC] at hlo hhi
  norm_num at hlo hhi
  obtain ⟨q1, q2⟩ := beamQuotient_near a (by linarith) (by linarith)
  rw [b64_ANGLE_MAX, b64_ANGLE_INC] at q1 q2
  unfold Binary64.calcBeamNumber
  apply doubleToInt_of_mem _ k hk0 (by omega)
  · linarith
  · linarith

theorem b64_calcBeamNumber_in_window_witness :
    Binary64.calcBeamNumber (Binary64.DEG2RAD (Binary64.fl 135.0000001)) = 0 ∧
    Binary64.calcBeamNumber (Binary64.DEG2RAD (Binary64.fl 134.999999999)) = 1 ∧
    Binary64.calcBeamNumber (Binary64.DEG2RAD (Binary64.fl 0.19999999)) = 338 ∧
    Binary64.calcBeamNumber (Binary64.DEG2RAD (-Binary64.fl 0.19999999)) = 338 ∧
    Binary64.calcBeamNumber (Binary64.DEG2RAD (-Binary64.fl 135.0000001)) = 676 :=
  ⟨b64_calcBeamNumber_in_window 0 _ (by decide) (by decide) (by decide!) (by decide!),
    b64_calcBeamNumber_in_window 1 _ (by decide) (by decide) (by decide!) (by decide!),
    b64_calcBeamNumber_in_window 338 _ (by decide) (by decide) (by decide!) (by decide!),
    b64_calcBeamNumber_in_window 338 _ (by decide) (by decide) (by decide!) (by decide!),
    b64_calcBeamNumber_in_window 676 _ (by decide) (by decide) (by decide!) (by decide!)⟩

/-- A non-negative `double` in `[k, k + 2)` converts to `k` or to `k + 1`. -/
theorem doubleToInt_of_mem_two (x : ℚ) (k : Int) (hk : 0 ≤ k) (hk2 : k + 1 < 2 ^ 31)
    (h1 : (k : ℚ) ≤ x) (h2 : x < k + 2) : doubleToInt x = k ∨ doubleToInt x = k + 1 := by
  rcases lt_or_le x (k + 1) with h | h
  · exact Or.inl (doubleToInt_of_mem x k hk (by omega) h1 h)
  · refine Or.inr (doubleToInt_of_mem x (k + 1) (by omega) hk2 (by push_cast; exact h) ?_)
    push_cast
    linarith

/-- C6 as stated fails: for `k = 21` the angle `calcBeamCentre(21) - ANGLE_INC/2`, computed in
binary64, is mapped by `calcBeamNumber` to beam 22, not to the lower index 21. -/
theorem b64_calcBeamNumber_boundary_not_lower :
    ((0 : Int) ≤ 21 ∧ (21 : Int) ≤ 675) ∧
    Binary64.calcBeamNumber
      (Binary64.sub (Binary64.calcBeamCentre 21) (Binary64.div Binary64.ANGLE_INC 2)) = 22 ∧
    Binary64.calcBeamNumber
      (Binary64.sub (Binary64.calcBeamCentre 21) (Binary64.div Binary64.ANGLE_INC 2)) ≠ 21 := by
  decide!

/-- C6 (amended): for every beam `k` in `0..675` the angle on the half-increment boundary
between beams `k` and `k + 1`, `calcBeamCentre(k) - ANGLE_INC/2` computed in binary64, is
mapped by `calcBeamNumber` to `k` or to `k + 1`; for `k = 0` (135.0 deg) it is mapped to 0. -/
theorem b64_calcBeamNumber_boundary (k : Int) (hk0 : 0 ≤ k) (hk : k ≤ 675) :
    (Binary64.calcBeamNumber
        (Binary64.sub (Binary64.calcBeamCentre k) (Binary64.div Binary64.ANGLE_INC 2)) = k ∨
      Binary64.calcBeamNumber
        (Binary64.sub (Binary64.calcBeamCentre k) (Binary64.div Binary64.ANGLE_INC 2)) = k + 1) ∧
    Binary64.calcBeamNumber
      (Binary64.sub (Binary64.calcBeamCentre 0) (Binary64.div Binary64.ANGLE_INC 2)) = 0 ∧
    Binary64.calcBeamNumber (Binary64.DEG2RAD (Binary64.fl 135.0)) = 0 := by
  refine ⟨?_, by decide!, by decide!⟩
  have k0 : (0 : ℚ) ≤ k := by exact_mod_cast hk0
  have k1 : (k : ℚ) ≤ 675 := by exact_mod_cast hk
  obtain ⟨c1, c2⟩ := calcBeamCentre_near k hk0 (by omega)
  rw [b64_ANGLE_MAX, b64_ANGLE_INC] at c1 c2
  rw [b64_half_INC]
  unfold Binary64.sub
  obtain ⟨e1, e2⟩ := fl_near_of_lt_4
    (Binary64.calcBeamCentre k - 8048910508974581 / 2305843009213693952)
    (by linarith) (by linarith)
  obtain ⟨q1, q2⟩ := beamQuotient_near
    (Binary64.fl (Binary64.calcBeamCentre k - 8048910508974581 / 2305843009213693952))
    (by linarith) (by linarith)
  rw [b64_ANGLE_MAX, b64_ANGLE_INC] at q1 q2
  unfold Binary64.calcBeamNumber
  apply doubleToInt_of_mem_two _ k hk0 (by omega)
  · linarith
  · linarith

theorem b64_calcBeamNumber_boundary_witness :
    ((0 : Int) ≤ 22 ∧ (22 : Int) ≤ 675) ∧
    Binary64.calcBeamNumber
      (Binary64.sub (Binary64.calcBeamCentre 22) (Binary64.div Binary64.ANGLE_INC 2)) = 23 ∧
    Binary64.calcBeamNumber
      (Binary64.sub (Binary64.calcBeamCentre 23) (Binary64.div Binary64.ANGLE_INC 2)) = 23 ∧
    ((Binary64.calcBeamNumber
        (Binary64.sub (Binary64.calcBeamCentre 22) (Binary64.div Binary64.ANGLE_INC 2)) = 22 ∨
      Binary64.calcBeamNumber
        (Binary64.sub (Binary64.calcBeamCentre 22) (Binary64.div Binary64.ANGLE_INC 2))
          = 22 + 1) ∧
    Binary64.calcBeamNumber
      (Binary64.sub (Binary64.calcBeamCentre 0) (Binary64.div Binary64.ANGLE_INC 2)) = 0 ∧
    Binary64.calcBeamNumber (Binary64.DEG2RAD (Binary64.fl 135.0)) = 0) :=
  ⟨⟨by decide, by decide⟩, by decide!, by decide!,
    b64_calcBeamNumber_boundary 22 (by decide) (by decide)⟩

end OS32C
